import Mathlib

/-!
# Dynamic insurance premium calculator

A shallow embedding of the pricing code of the repository:

* `src/DynamicInsuranceCalculator.js` (the weighted variant): the classes
  `RiskAssessmentEngine`, `MarketAnalyzer` and `PricingCalculator`;
* `src/InsurancePremiumCalculator.jsx` (the multiplicative variant): the
  functions `calculateRiskProfile`, `analyzeMarketConditions`,
  `calculatePremium`, and the market drift callback.

Numbers are exact rationals: the functions are first embedded in exact
arithmetic.  The source computes in IEEE 754 doubles; the functions for which
the rounding decides a property are embedded a second time in the namespace
`Double`, with every literal and operation rounded to the nearest double.
A JavaScript number is a rational or `NaN`.
A lookup `table[key]` in an object literal follows the language: an own key
gives its number, a name that every object inherits from `Object.prototype`
gives that inherited member (a function or an object), anything else gives
`undefined`.  `Math.random()` and the calendar are explicit arguments.
-/

namespace Insurance

/-! ## JavaScript values -/

/-- A JavaScript number in exact arithmetic: a rational, or `NaN`. -/
inductive JSNum where
  | num (q : ℚ)
  | nan
  deriving DecidableEq, Repr

namespace JSNum

/-- Number addition: `NaN` if either operand is `NaN`. -/
def add : JSNum → JSNum → JSNum
  | num a, num b => num (a + b)
  | _, _ => nan

/-- Number multiplication: `NaN` if either operand is `NaN`. -/
def mul : JSNum → JSNum → JSNum
  | num a, num b => num (a * b)
  | _, _ => nan

instance : Add JSNum := ⟨add⟩
instance : Mul JSNum := ⟨mul⟩

/-- Number division, used by the source with a nonzero constant divisor only
(a zero divisor, which would give an infinity, does not occur). -/
def div : JSNum → JSNum → JSNum
  | num a, num b => num (a / b)
  | _, _ => nan

instance : Div JSNum := ⟨div⟩

/-- The function `Math.max` on two arguments: `NaN` if either is `NaN`. -/
def max : JSNum → JSNum → JSNum
  | num a, num b => num (Max.max a b)
  | _, _ => nan

/-- The function `Math.min` on two arguments: `NaN` if either is `NaN`. -/
def min : JSNum → JSNum → JSNum
  | num a, num b => num (Min.min a b)
  | _, _ => nan

/-- The comparison `a < b`: false as soon as an operand is `NaN`. -/
def lt : JSNum → JSNum → Bool
  | num a, num b => decide (a < b)
  | _, _ => false

/-- The comparison `a <= b`: false as soon as an operand is `NaN`. -/
def le : JSNum → JSNum → Bool
  | num a, num b => decide (a ≤ b)
  | _, _ => false

/-- The argument is a number other than `NaN`. -/
def isNum : JSNum → Bool
  | num _ => true
  | nan => false

end JSNum

/-- What a lookup `table[key]` in an object literal of numbers evaluates to:
one of the numbers, `undefined`, or a member inherited from
`Object.prototype` (a function, or for `__proto__` the prototype object). -/
inductive JSVal where
  | num (q : ℚ)
  | undefined
  | object
  deriving DecidableEq, Repr

namespace JSVal

/-- ToBoolean: a number is truthy unless it is zero, `undefined` is falsy, a
function or object is truthy. -/
def truthy : JSVal → Bool
  | num q => decide (q ≠ 0)
  | undefined => false
  | object => true

/-- The expression `a || b`. -/
def or (a b : JSVal) : JSVal := if a.truthy then a else b

/-- ToNumber, as applied by `*` to an operand: `undefined` becomes `NaN`, and
so does a function or a plain object (their string forms are not numerals). -/
def toNumber : JSVal → JSNum
  | num q => JSNum.num q
  | undefined => JSNum.nan
  | object => JSNum.nan

/-- The value is a defined number. -/
def isNum : JSVal → Bool
  | num _ => true
  | _ => false

end JSVal

/-- The names every object literal inherits from `Object.prototype` (the
standard members and the legacy accessors of browsers). -/
def objectPrototypeKeys : List String :=
  ["constructor", "hasOwnProperty", "isPrototypeOf", "propertyIsEnumerable",
   "toLocaleString", "toString", "valueOf", "__proto__",
   "__defineGetter__", "__defineSetter__", "__lookupGetter__", "__lookupSetter__"]

/-- The lookup `table[key]` where `table` is an object literal with the listed
own keys: an own key first, then the prototype chain. -/
def getProperty (table : List (String × ℚ)) (key : String) : JSVal :=
  match table.lookup key with
  | some q => JSVal.num q
  | none => if key ∈ objectPrototypeKeys then JSVal.object else JSVal.undefined

/-- The expression `parseInt(s.slice(-1))`: the last character of `s` read as
a decimal digit; `none` stands for `NaN` (empty string, or no digit). -/
def parseIntLast (s : String) : Option ℕ :=
  match s.toList.getLast? with
  | some c => if c.isDigit then some (c.toNat - 48) else none
  | none => none

/-! ## The weighted variant: `RiskAssessmentEngine` -/

/-- The applicant record of `DynamicInsuranceCalculator`. -/
structure ApplicantData where
  age : ℚ
  yearsLicensed : ℚ
  accidents : ℚ
  violations : ℚ
  vehicleType : String
  vehicleValue : ℚ
  zipCode : String
  creditScore : ℚ
  annualMileage : ℚ
  coverageLevel : String
  deriving Repr

/-- The default applicant of the form (`useState` in the component). -/
def defaultApplicant : ApplicantData :=
  { age := 30, yearsLicensed := 10, accidents := 0, violations := 0,
    vehicleType := "sedan", vehicleValue := 25000, zipCode := "12345",
    creditScore := 700, annualMileage := 12000, coverageLevel := "standard" }

/-- One entry of `riskFactors`. -/
structure RiskFactor where
  weight : ℚ
  curve : String
  deriving Repr

/-- The table `this.riskFactors` set by the constructor. -/
structure RiskFactors where
  age : RiskFactor
  drivingHistory : RiskFactor
  vehicleType : RiskFactor
  location : RiskFactor
  creditScore : RiskFactor
  mileage : RiskFactor
  experience : RiskFactor
  deriving Repr

/-- One entry of the returned `breakdown`. -/
structure FactorScore where
  score : JSNum
  weight : ℚ
  deriving DecidableEq, Repr

/-- The returned `breakdown`, one entry per factor. -/
structure RiskBreakdown where
  age : FactorScore
  drivingHistory : FactorScore
  vehicleType : FactorScore
  location : FactorScore
  creditScore : FactorScore
  mileage : FactorScore
  experience : FactorScore
  deriving DecidableEq, Repr

/-- The object returned by `calculateRiskScore`. -/
structure RiskAssessment where
  totalScore : JSNum
  breakdown : RiskBreakdown
  riskLevel : String
  deriving DecidableEq, Repr

namespace RiskAssessmentEngine

/-- The weights and curve names of the constructor. -/
def riskFactors : RiskFactors :=
  { age := ⟨0.15, "u_shaped"⟩,
    drivingHistory := ⟨0.25, "exponential"⟩,
    vehicleType := ⟨0.20, "linear"⟩,
    location := ⟨0.15, "categorical"⟩,
    creditScore := ⟨0.12, "inverse"⟩,
    mileage := ⟨0.08, "linear"⟩,
    experience := ⟨0.05, "inverse"⟩ }

/-- `calculateAgeRisk(age)`. -/
def calculateAgeRisk (age : ℚ) : ℚ :=
  if age < 25 then 0.8 - (age - 16) * 0.05
  else if age > 65 then 0.3 + (age - 65) * 0.02
  else 0.2 + |age - 45| * 0.003

/-- `calculateDrivingRisk(accidents, violations)`. -/
def calculateDrivingRisk (accidents violations : ℚ) : ℚ :=
  let baseRisk : ℚ := 0.1
  let accidentPenalty := accidents * 0.15
  let violationPenalty := violations * 0.08
  min (baseRisk + accidentPenalty + violationPenalty) 1

/-- The object literal `typeRisk` of `calculateVehicleRisk`. -/
def typeRisk : List (String × ℚ) :=
  [("sedan", 0.2), ("suv", 0.3), ("truck", 0.4), ("sports", 0.7),
   ("luxury", 0.6), ("economy", 0.15)]

/-- `calculateVehicleRisk(type, value)`: `(typeRisk[type] || 0.3) * valueMultiplier`. -/
def calculateVehicleRisk (type : String) (value : ℚ) : JSNum :=
  let valueMultiplier : ℚ := min (value / 50000) 2
  ((getProperty typeRisk type).or (JSVal.num 0.3)).toNumber * JSNum.num valueMultiplier

/-- `calculateLocationRisk(zipCode)`: the comparison `lastDigit < 5` is false
when `lastDigit` is `NaN`. -/
def calculateLocationRisk (zipCode : String) : ℚ :=
  let lastDigit := parseIntLast zipCode
  let urbanRisk : ℚ :=
    match lastDigit with
    | some n => if n < 5 then 0.4 else 0.2
    | none => 0.2
  urbanRisk

/-- `calculateCreditRisk(score)`. -/
def calculateCreditRisk (score : ℚ) : ℚ :=
  if score ≥ 750 then 0.1
  else if score ≥ 650 then 0.2
  else if score ≥ 550 then 0.4
  else 0.6

/-- `calculateMileageRisk(mileage)`. -/
def calculateMileageRisk (mileage : ℚ) : ℚ :=
  min (mileage / 30000) 1 * 0.3

/-- `calculateExperienceRisk(years)`. -/
def calculateExperienceRisk (years : ℚ) : ℚ :=
  max (0.5 - years * 0.03) 0.05

/-- `getRiskLevel(score)`: every comparison is false on `NaN`, which therefore
falls through to the last branch. -/
def getRiskLevel (score : JSNum) : String :=
  if score.lt (JSNum.num 0.3) then "Low"
  else if score.lt (JSNum.num 0.5) then "Medium"
  else if score.lt (JSNum.num 0.7) then "High"
  else "Very High"

/-- `calculateRiskScore(applicantData)`: the running total is accumulated factor
by factor in the order of the source, and the level is taken from the
unclamped total. -/
def calculateRiskScore (d : ApplicantData) : RiskAssessment :=
  let totalScore : JSNum := JSNum.num 0
  let ageRisk := JSNum.num (calculateAgeRisk d.age)
  let totalScore := totalScore + ageRisk * JSNum.num riskFactors.age.weight
  let drivingRisk := JSNum.num (calculateDrivingRisk d.accidents d.violations)
  let totalScore := totalScore + drivingRisk * JSNum.num riskFactors.drivingHistory.weight
  let vehicleRisk := calculateVehicleRisk d.vehicleType d.vehicleValue
  let totalScore := totalScore + vehicleRisk * JSNum.num riskFactors.vehicleType.weight
  let locationRisk := JSNum.num (calculateLocationRisk d.zipCode)
  let totalScore := totalScore + locationRisk * JSNum.num riskFactors.location.weight
  let creditRisk := JSNum.num (calculateCreditRisk d.creditScore)
  let totalScore := totalScore + creditRisk * JSNum.num riskFactors.creditScore.weight
  let mileageRisk := JSNum.num (calculateMileageRisk d.annualMileage)
  let totalScore := totalScore + mileageRisk * JSNum.num riskFactors.mileage.weight
  let experienceRisk := JSNum.num (calculateExperienceRisk d.yearsLicensed)
  let totalScore := totalScore + experienceRisk * JSNum.num riskFactors.experience.weight
  { totalScore := JSNum.min (JSNum.max totalScore (JSNum.num 0)) (JSNum.num 1),
    breakdown :=
      { age := ⟨ageRisk, riskFactors.age.weight⟩,
        drivingHistory := ⟨drivingRisk, riskFactors.drivingHistory.weight⟩,
        vehicleType := ⟨vehicleRisk, riskFactors.vehicleType.weight⟩,
        location := ⟨locationRisk, riskFactors.location.weight⟩,
        creditScore := ⟨creditRisk, riskFactors.creditScore.weight⟩,
        mileage := ⟨mileageRisk, riskFactors.mileage.weight⟩,
        experience := ⟨experienceRisk, riskFactors.experience.weight⟩ },
    riskLevel := getRiskLevel totalScore }

end RiskAssessmentEngine

/-! ## The weighted variant: `MarketAnalyzer` -/

/-- The field `this.marketConditions` of `MarketAnalyzer`. -/
structure MarketConditions where
  competitiveIndex : ℚ
  seasonalFactor : ℚ
  economicFactor : ℚ
  regulatoryFactor : ℚ
  claimsTrend : ℚ
  deriving DecidableEq, Repr

/-- The `factors` object returned by `getMarketAdjustment`. -/
structure MarketFactors where
  competitive : ℚ
  seasonal : ℚ
  economic : ℚ
  regulatory : ℚ
  claimsTrend : ℚ
  deriving DecidableEq, Repr

/-- The object returned by `getMarketAdjustment`. -/
structure MarketAnalysis where
  adjustment : ℚ
  factors : MarketFactors
  deriving DecidableEq, Repr

namespace MarketAnalyzer

/-- The market conditions set by the constructor. -/
def initialConditions : MarketConditions :=
  { competitiveIndex := 0.85, seasonalFactor := 1.02, economicFactor := 0.98,
    regulatoryFactor := 1.01, claimsTrend := 1.05 }

/-- `getMarketAdjustment()`, with the value of `new Date().getMonth()` as the
argument `month`.  The stored `seasonalFactor` is destructured but never used. -/
def getMarketAdjustment (mc : MarketConditions) (month : ℕ) : MarketAnalysis :=
  let competitiveAdjustment := mc.competitiveIndex
  let seasonalAdjustment : ℚ := if month ≥ 10 ∨ month ≤ 2 then 1.08 else 0.95
  let economicAdjustment := mc.economicFactor
  let regulatoryAdjustment := mc.regulatoryFactor
  let claimsTrendAdjustment := mc.claimsTrend
  let totalAdjustment := competitiveAdjustment * seasonalAdjustment * economicAdjustment *
    regulatoryAdjustment * claimsTrendAdjustment
  { adjustment := totalAdjustment,
    factors :=
      { competitive := competitiveAdjustment, seasonal := seasonalAdjustment,
        economic := economicAdjustment, regulatory := regulatoryAdjustment,
        claimsTrend := claimsTrendAdjustment } }

/-- `updateMarketConditions()`, with the three values of `Math.random()` as
arguments, in the order they are drawn. -/
def updateMarketConditions (mc : MarketConditions) (r1 r2 r3 : ℚ) : MarketConditions :=
  { mc with
    competitiveIndex := mc.competitiveIndex + (r1 - 0.5) * 0.02,
    economicFactor := mc.economicFactor + (r2 - 0.5) * 0.01,
    claimsTrend := mc.claimsTrend + (r3 - 0.5) * 0.01 }

/-- The market conditions after a sequence of updates, one triple of draws per
update, starting from `mc`. -/
def runUpdates (mc : MarketConditions) (draws : List (ℚ × ℚ × ℚ)) : MarketConditions :=
  draws.foldl (fun s d => updateMarketConditions s d.1 d.2.1 d.2.2) mc

end MarketAnalyzer

/-! ## The weighted variant: `PricingCalculator` -/

/-- The `breakdown` object returned by `PricingCalculator.calculatePremium`. -/
structure PricingBreakdown where
  riskMultiplier : JSNum
  coverageMultiplier : JSVal
  marketAdjustment : JSNum
  profitMargin : ℚ
  operationalCosts : ℚ
  reserveRequirement : ℚ
  deriving DecidableEq, Repr

/-- The object returned by `PricingCalculator.calculatePremium`. -/
structure Pricing where
  basePremium : ℚ
  riskAdjustedPremium : JSNum
  coverageAdjustedPremium : JSNum
  marketAdjustedPremium : JSNum
  finalPremium : JSNum
  breakdown : PricingBreakdown
  deriving DecidableEq, Repr

namespace PricingCalculator

/-- The field `this.basePremium`. -/
def basePremium : ℚ := 1200
/-- The field `this.profitMargin`. -/
def profitMargin : ℚ := 0.15
/-- The field `this.operationalCosts`. -/
def operationalCosts : ℚ := 0.12
/-- The field `this.reserveRequirement`. -/
def reserveRequirement : ℚ := 0.08

/-- The object literal `coverageMultiplier` of `calculatePremium`. -/
def coverageMultiplier : List (String × ℚ) :=
  [("basic", 0.7), ("standard", 1.0), ("comprehensive", 1.4), ("premium", 1.8)]

/-- `calculatePremium(riskScore, marketAdjustment, coverageLevel)`.  The applied
multiplier is `coverageMultiplier[coverageLevel] || 1.0`; the reported one is
`coverageMultiplier[coverageLevel]`. -/
def calculatePremium (riskScore marketAdjustment : JSNum) (coverageLevel : String) : Pricing :=
  let riskMultiplier := JSNum.num 1 + riskScore * JSNum.num 2
  let riskAdjustedPremium := JSNum.num basePremium * riskMultiplier
  let coverageAdjustedPremium := riskAdjustedPremium *
    ((getProperty coverageMultiplier coverageLevel).or (JSVal.num 1.0)).toNumber
  let marketAdjustedPremium := coverageAdjustedPremium * marketAdjustment
  let totalCostMultiplier := 1 + profitMargin + operationalCosts + reserveRequirement
  let finalPremium := marketAdjustedPremium * JSNum.num totalCostMultiplier
  { basePremium := basePremium,
    riskAdjustedPremium := riskAdjustedPremium,
    coverageAdjustedPremium := coverageAdjustedPremium,
    marketAdjustedPremium := marketAdjustedPremium,
    finalPremium := finalPremium,
    breakdown :=
      { riskMultiplier := riskMultiplier,
        coverageMultiplier := getProperty coverageMultiplier coverageLevel,
        marketAdjustment := marketAdjustment,
        profitMargin := profitMargin,
        operationalCosts := operationalCosts,
        reserveRequirement := reserveRequirement } }

end PricingCalculator

/-! ## The weighted variant: `calculateQuote` -/

/-- The quote stored by `calculateQuote`. -/
structure Quote where
  riskAssessment : RiskAssessment
  marketAnalysis : MarketAnalysis
  pricing : Pricing
  timestamp : String
  deriving DecidableEq, Repr

/-- `calculateQuote()` of the component, as a function of what it reads: the
form state, the market conditions held by the analyzer, the three random draws
of the update, and the clock (the month, and the time stamp as a string).
It returns the new market conditions with the quote. -/
def calculateQuote (applicantData : ApplicantData) (mc : MarketConditions)
    (r1 r2 r3 : ℚ) (month : ℕ) (timestamp : String) : MarketConditions × Quote :=
  let mc1 := MarketAnalyzer.updateMarketConditions mc r1 r2 r3
  let riskAssessment := RiskAssessmentEngine.calculateRiskScore applicantData
  let marketAnalysis := MarketAnalyzer.getMarketAdjustment mc1 month
  let pricing := PricingCalculator.calculatePremium riskAssessment.totalScore
    (JSNum.num marketAnalysis.adjustment) applicantData.coverageLevel
  (mc1, { riskAssessment := riskAssessment, marketAnalysis := marketAnalysis,
          pricing := pricing, timestamp := timestamp })

/-! ## The multiplicative variant: `InsurancePremiumCalculator` -/

namespace InsurancePremiumCalculator

/-- The applicant record of `InsurancePremiumCalculator`. -/
structure ApplicantRecord where
  age : ℚ
  gender : String
  location : String
  vehicleYear : ℚ
  vehicleType : String
  drivingRecord : String
  creditScore : ℚ
  annualMileage : ℚ
  coverageType : String
  deriving Repr

/-- The default applicant of the form. -/
def defaultApplicant : ApplicantRecord :=
  { age := 30, gender := "male", location := "urban", vehicleYear := 2020,
    vehicleType := "sedan", drivingRecord := "clean", creditScore := 750,
    annualMileage := 12000, coverageType := "comprehensive" }

/-- The state `marketConditions` of the component. -/
structure MarketState where
  competitorIndex : ℚ
  claimFrequency : ℚ
  inflationRate : ℚ
  marketVolatility : ℚ
  deriving DecidableEq, Repr

/-- The initial `marketConditions`. -/
def initialMarket : MarketState :=
  { competitorIndex := 0.95, claimFrequency := 0.12, inflationRate := 0.03,
    marketVolatility := 0.15 }

/-- The object returned by `calculateRiskProfile`.  The three fields read from a
lookup table hold whatever the lookup gave. -/
structure RiskProfile where
  baseRisk : ℚ
  ageRisk : ℚ
  genderRisk : ℚ
  locationRisk : JSVal
  vehicleRisk : JSNum
  drivingRisk : JSVal
  creditRisk : ℚ
  mileageRisk : ℚ
  coverageMultiplier : JSVal
  totalRisk : JSNum
  deriving DecidableEq, Repr

/-- The location table of `calculateRiskProfile`. -/
def locationTable : List (String × ℚ) :=
  [("urban", 1.3), ("suburban", 1.0), ("rural", 0.8)]

/-- The vehicle type table of `calculateRiskProfile`. -/
def vehicleTypeTable : List (String × ℚ) :=
  [("sedan", 1.0), ("suv", 1.1), ("truck", 1.2), ("sports", 1.5), ("luxury", 1.3)]

/-- The driving record table of `calculateRiskProfile`. -/
def drivingTable : List (String × ℚ) :=
  [("clean", 0.8), ("minor", 1.2), ("major", 1.8), ("severe", 2.5)]

/-- The coverage type table of `calculateRiskProfile`. -/
def coverageTable : List (String × ℚ) :=
  [("liability", 0.6), ("collision", 0.8), ("comprehensive", 1.0), ("full", 1.2)]

/-- `calculateRiskProfile(data)`: the four lookups have no fallback, and the
product is taken left to right. -/
def calculateRiskProfile (data : ApplicantRecord) : RiskProfile :=
  let baseRisk : ℚ := 100
  let ageRisk : ℚ :=
    if data.age < 25 then 1.4 else if data.age < 35 then 1.0
    else if data.age < 50 then 0.9 else if data.age < 65 then 0.95 else 1.2
  let genderRisk : ℚ := if data.gender = "male" then 1.1 else 0.95
  let locationRisk := getProperty locationTable data.location
  let vehicleAge := 2024 - data.vehicleYear
  let vehicleRisk : ℚ := if vehicleAge < 3 then 1.2 else if vehicleAge < 8 then 1.0 else 0.9
  let vehicleTypeRisk := getProperty vehicleTypeTable data.vehicleType
  let drivingRisk := getProperty drivingTable data.drivingRecord
  let creditRisk : ℚ :=
    if data.creditScore > 750 then 0.85 else if data.creditScore > 650 then 1.0
    else if data.creditScore > 550 then 1.3 else 1.6
  let mileageRisk : ℚ :=
    if data.annualMileage < 8000 then 0.9 else if data.annualMileage < 15000 then 1.0
    else if data.annualMileage < 25000 then 1.3 else 1.6
  let coverageMultiplier := getProperty coverageTable data.coverageType
  let totalRisk := JSNum.num baseRisk * JSNum.num ageRisk * JSNum.num genderRisk *
    locationRisk.toNumber * JSNum.num vehicleRisk * vehicleTypeRisk.toNumber *
    drivingRisk.toNumber * JSNum.num creditRisk * JSNum.num mileageRisk *
    coverageMultiplier.toNumber
  { baseRisk := baseRisk, ageRisk := ageRisk, genderRisk := genderRisk,
    locationRisk := locationRisk,
    vehicleRisk := JSNum.num vehicleRisk * vehicleTypeRisk.toNumber,
    drivingRisk := drivingRisk, creditRisk := creditRisk, mileageRisk := mileageRisk,
    coverageMultiplier := coverageMultiplier, totalRisk := totalRisk }

/-- The object returned by `analyzeMarketConditions`. -/
structure MarketAnalysisData where
  timeVolatility : ℚ
  weekendFactor : ℚ
  competitivePressure : ℚ
  claimsImpact : ℚ
  inflationImpact : ℚ
  overallMarketFactor : ℚ
  deriving DecidableEq, Repr

/-- `analyzeMarketConditions()`, with the market state it reads and the values
of `new Date().getHours()` and `new Date().getDay()` as arguments. -/
def analyzeMarketConditions (marketConditions : MarketState) (timeOfDay dayOfWeek : ℕ) :
    MarketAnalysisData :=
  let timeVolatility : ℚ := if timeOfDay < 9 ∨ timeOfDay > 17 then 0.05 else 0.1
  let weekendFactor : ℚ := if dayOfWeek = 0 ∨ dayOfWeek = 6 then 0.95 else 1.0
  let competitivePressure := marketConditions.competitorIndex
  let claimsImpact := 1 + (marketConditions.claimFrequency - 0.1) * 2
  let inflationImpact := 1 + marketConditions.inflationRate
  { timeVolatility := timeVolatility, weekendFactor := weekendFactor,
    competitivePressure := competitivePressure, claimsImpact := claimsImpact,
    inflationImpact := inflationImpact,
    overallMarketFactor := competitivePressure * claimsImpact * inflationImpact * weekendFactor }

/-- The object returned by `calculatePremium` of the multiplicative variant. -/
structure PremiumBreakdown where
  basePremium : ℚ
  riskAdjustedPremium : JSNum
  marketAdjustedPremium : JSNum
  operationalCosts : JSNum
  profitMargin : JSNum
  regulatoryReserve : JSNum
  totalPremium : JSNum
  deriving DecidableEq, Repr

/-- `calculatePremium(riskProfile, marketAnalysis)` of the multiplicative variant. -/
def calculatePremium (riskProfile : RiskProfile) (marketAnalysis : MarketAnalysisData) :
    PremiumBreakdown :=
  let basePremium : ℚ := 800
  let riskAdjustedPremium := JSNum.num basePremium * (riskProfile.totalRisk / JSNum.num 100)
  let marketAdjustedPremium := riskAdjustedPremium * JSNum.num marketAnalysis.overallMarketFactor
  let operationalCosts := marketAdjustedPremium * JSNum.num 0.15
  let profitMargin := marketAdjustedPremium * JSNum.num 0.12
  let regulatoryReserve := marketAdjustedPremium * JSNum.num 0.08
  let totalPremium := marketAdjustedPremium + operationalCosts + profitMargin + regulatoryReserve
  { basePremium := basePremium, riskAdjustedPremium := riskAdjustedPremium,
    marketAdjustedPremium := marketAdjustedPremium, operationalCosts := operationalCosts,
    profitMargin := profitMargin, regulatoryReserve := regulatoryReserve,
    totalPremium := totalPremium }

/-- `generateExplanation(riskProfile, marketAnalysis, premium)`: the messages are
pushed in the order of the rules; a comparison with a value that is not a
number is false. -/
def generateExplanation (riskProfile : RiskProfile) (marketAnalysis : MarketAnalysisData)
    (_premium : PremiumBreakdown) : List String :=
  let explanations : List String := []
  let explanations :=
    if riskProfile.ageRisk > 1.1 then
      explanations ++ ["Higher premium due to age-related risk factors"]
    else if riskProfile.ageRisk < 0.95 then
      explanations ++ ["Lower premium for experienced driver age group"]
    else explanations
  let explanations :=
    if (JSNum.num 1.5).lt riskProfile.drivingRisk.toNumber then
      explanations ++ ["Significant increase due to driving record violations"]
    else if riskProfile.drivingRisk.toNumber.lt (JSNum.num 0.9) then
      explanations ++ ["Discount applied for clean driving record"]
    else explanations
  let explanations :=
    if riskProfile.creditRisk > 1.2 then
      explanations ++ ["Credit score impact increases premium"]
    else if riskProfile.creditRisk < 0.9 then
      explanations ++ ["Excellent credit score provides discount"]
    else explanations
  let explanations :=
    if marketAnalysis.competitivePressure < 0.9 then
      explanations ++ ["Market competition provides pricing advantage"]
    else explanations
  let explanations :=
    if marketAnalysis.claimsImpact > 1.1 then
      explanations ++ ["Current market claims frequency affects pricing"]
    else explanations
  explanations

/-- One run of the interval callback that perturbs the market state, with the
three values of `Math.random()` as arguments, in the order they are drawn. -/
def marketDrift (prev : MarketState) (r1 r2 r3 : ℚ) : MarketState :=
  { prev with
    competitorIndex := prev.competitorIndex + (r1 - 0.5) * 0.02,
    claimFrequency := max 0.05 (min 0.25 (prev.claimFrequency + (r2 - 0.5) * 0.005)),
    marketVolatility := max 0.05 (min 0.3 (prev.marketVolatility + (r3 - 0.5) * 0.01)) }

/-- The market state after a sequence of ticks, one triple of draws per tick,
starting from `s`. -/
def runDrift (s : MarketState) (draws : List (ℚ × ℚ × ℚ)) : MarketState :=
  draws.foldl (fun st d => marketDrift st d.1 d.2.1 d.2.2) s

end InsurancePremiumCalculator

/-! ## Double precision

The source computes in IEEE 754 doubles.  Where a claim compares two results
that the code reaches along different routes, the rounding of each operation
decides it, and the functions concerned are embedded a second time, in the
namespace `Double`, with every literal and every operation rounded. -/

/-- The exponent of the leading binary digit of `n`, by repeated halving; the
fuel `n` is enough for every `n`. -/
def floorLog2 : ℕ → ℕ → ℕ
  | 0, _ => 0
  | fuel + 1, n => if n < 2 then 0 else floorLog2 fuel (n / 2) + 1

/-- The binade of a nonzero rational: the exponent `e` with
`2^e ≤ |q| < 2^(e+1)`, found from the leading binary digits of the numerator
and of the denominator. -/
def binade (q : ℚ) : ℤ :=
  let n : ℕ := q.num.natAbs
  let d : ℕ := q.den
  let k : ℤ := (floorLog2 n n : ℤ) - (floorLog2 d d : ℤ)
  if d * 2 ^ k.toNat ≤ n * 2 ^ (-k).toNat then k else k - 1

/-- The integer nearest to `N / D`, ties to the even integer. -/
def roundQuotient (N D : ℕ) : ℕ :=
  let m : ℕ := N / D
  let r : ℕ := N % D
  if D < 2 * r ∨ (2 * r = D ∧ m % 2 = 1) then m + 1 else m

/-- The double nearest to a rational: the significand is rounded to 53 binary
digits, to nearest, ties to the even significand.  The exponent is unbounded:
overflow to an infinity and the subnormal range are not modelled (the pricing
code stays far from both). -/
def roundDouble (q : ℚ) : ℚ :=
  if q = 0 then 0
  else
    let s : ℤ := binade q - 52
    let m : ℕ := roundQuotient (q.num.natAbs * 2 ^ (-s).toNat) (q.den * 2 ^ s.toNat)
    let v : ℚ := mkRat (m * 2 ^ s.toNat) (2 ^ (-s).toNat)
    if q < 0 then -v else v

namespace Double

/-- A decimal literal of the source, as the double it denotes. -/
def lit (q : ℚ) : JSNum := JSNum.num (roundDouble q)

/-- The product `a * b` in doubles. -/
def mul : JSNum → JSNum → JSNum
  | JSNum.num a, JSNum.num b => JSNum.num (roundDouble (a * b))
  | _, _ => JSNum.nan

/-- The sum `a + b` in doubles. -/
def add : JSNum → JSNum → JSNum
  | JSNum.num a, JSNum.num b => JSNum.num (roundDouble (a + b))
  | _, _ => JSNum.nan

/-- The quotient `a / b` in doubles, used with a nonzero constant divisor only. -/
def div : JSNum → JSNum → JSNum
  | JSNum.num a, JSNum.num b => JSNum.num (roundDouble (a / b))
  | _, _ => JSNum.nan

/-- The lookup `table[key]` with the table entries as doubles. -/
def getProperty (table : List (String × ℚ)) (key : String) : JSVal :=
  match Insurance.getProperty table key with
  | JSVal.num q => JSVal.num (roundDouble q)
  | JSVal.undefined => JSVal.undefined
  | JSVal.object => JSVal.object

namespace PricingCalculator

/-- `PricingCalculator.calculatePremium` in doubles. -/
def calculatePremium (riskScore marketAdjustment : JSNum) (coverageLevel : String) : Pricing :=
  let riskMultiplier := add (lit 1) (mul riskScore (lit 2))
  let riskAdjustedPremium := mul (lit Insurance.PricingCalculator.basePremium) riskMultiplier
  let coverageAdjustedPremium := mul riskAdjustedPremium
    ((getProperty Insurance.PricingCalculator.coverageMultiplier coverageLevel).or
      (JSVal.num (roundDouble 1.0))).toNumber
  let marketAdjustedPremium := mul coverageAdjustedPremium marketAdjustment
  let totalCostMultiplier :=
    add (add (add (lit 1) (lit Insurance.PricingCalculator.profitMargin))
      (lit Insurance.PricingCalculator.operationalCosts))
      (lit Insurance.PricingCalculator.reserveRequirement)
  let finalPremium := mul marketAdjustedPremium totalCostMultiplier
  { basePremium := roundDouble Insurance.PricingCalculator.basePremium,
    riskAdjustedPremium := riskAdjustedPremium,
    coverageAdjustedPremium := coverageAdjustedPremium,
    marketAdjustedPremium := marketAdjustedPremium,
    finalPremium := finalPremium,
    breakdown :=
      { riskMultiplier := riskMultiplier,
        coverageMultiplier :=
          getProperty Insurance.PricingCalculator.coverageMultiplier coverageLevel,
        marketAdjustment := marketAdjustment,
        profitMargin := roundDouble Insurance.PricingCalculator.profitMargin,
        operationalCosts := roundDouble Insurance.PricingCalculator.operationalCosts,
        reserveRequirement := roundDouble Insurance.PricingCalculator.reserveRequirement } }

end PricingCalculator

namespace InsurancePremiumCalculator

open Insurance.InsurancePremiumCalculator in
/-- `calculateRiskProfile` of the multiplicative variant in doubles. -/
def calculateRiskProfile (data : ApplicantRecord) : RiskProfile :=
  let baseRisk : ℚ := roundDouble 100
  let ageRisk : ℚ :=
    if data.age < 25 then roundDouble 1.4 else if data.age < 35 then roundDouble 1.0
    else if data.age < 50 then roundDouble 0.9 else if data.age < 65 then roundDouble 0.95
    else roundDouble 1.2
  let genderRisk : ℚ := if data.gender = "male" then roundDouble 1.1 else roundDouble 0.95
  let locationRisk := getProperty locationTable data.location
  let vehicleAge := roundDouble (2024 - data.vehicleYear)
  let vehicleRisk : ℚ :=
    if vehicleAge < 3 then roundDouble 1.2 else if vehicleAge < 8 then roundDouble 1.0
    else roundDouble 0.9
  let vehicleTypeRisk := getProperty vehicleTypeTable data.vehicleType
  let drivingRisk := getProperty drivingTable data.drivingRecord
  let creditRisk : ℚ :=
    if data.creditScore > 750 then roundDouble 0.85
    else if data.creditScore > 650 then roundDouble 1.0
    else if data.creditScore > 550 then roundDouble 1.3 else roundDouble 1.6
  let mileageRisk : ℚ :=
    if data.annualMileage < 8000 then roundDouble 0.9
    else if data.annualMileage < 15000 then roundDouble 1.0
    else if data.annualMileage < 25000 then roundDouble 1.3 else roundDouble 1.6
  let coverageMultiplier := getProperty coverageTable data.coverageType
  let totalRisk :=
    mul (mul (mul (mul (mul (mul (mul (mul (mul (JSNum.num baseRisk) (JSNum.num ageRisk))
      (JSNum.num genderRisk)) locationRisk.toNumber) (JSNum.num vehicleRisk))
      vehicleTypeRisk.toNumber) drivingRisk.toNumber) (JSNum.num creditRisk))
      (JSNum.num mileageRisk)) coverageMultiplier.toNumber
  { baseRisk := baseRisk, ageRisk := ageRisk, genderRisk := genderRisk,
    locationRisk := locationRisk,
    vehicleRisk := mul (JSNum.num vehicleRisk) vehicleTypeRisk.toNumber,
    drivingRisk := drivingRisk, creditRisk := creditRisk, mileageRisk := mileageRisk,
    coverageMultiplier := coverageMultiplier, totalRisk := totalRisk }

open Insurance.InsurancePremiumCalculator in
/-- `calculatePremium` of the multiplicative variant in doubles. -/
def calculatePremium (riskProfile : RiskProfile) (marketAnalysis : MarketAnalysisData) :
    PremiumBreakdown :=
  let basePremium : ℚ := roundDouble 800
  let riskAdjustedPremium := mul (JSNum.num basePremium) (div riskProfile.totalRisk (lit 100))
  let marketAdjustedPremium :=
    mul riskAdjustedPremium (JSNum.num marketAnalysis.overallMarketFactor)
  let operationalCosts := mul marketAdjustedPremium (lit 0.15)
  let profitMargin := mul marketAdjustedPremium (lit 0.12)
  let regulatoryReserve := mul marketAdjustedPremium (lit 0.08)
  let totalPremium :=
    add (add (add marketAdjustedPremium operationalCosts) profitMargin) regulatoryReserve
  { basePremium := basePremium, riskAdjustedPremium := riskAdjustedPremium,
    marketAdjustedPremium := marketAdjustedPremium, operationalCosts := operationalCosts,
    profitMargin := profitMargin, regulatoryReserve := regulatoryReserve,
    totalPremium := totalPremium }

end InsurancePremiumCalculator

end Double

end Insurance


/-! # Properties -/

namespace Insurance

/-! ## Arithmetic on JavaScript numbers -/

@[simp] theorem JSNum.num_add_num (a b : ℚ) : JSNum.num a + JSNum.num b = JSNum.num (a + b) := rfl

@[simp] theorem JSNum.num_mul_num (a b : ℚ) : JSNum.num a * JSNum.num b = JSNum.num (a * b) := rfl

@[simp] theorem JSNum.num_div_num (a b : ℚ) : JSNum.num a / JSNum.num b = JSNum.num (a / b) := rfl

@[simp] theorem JSNum.nan_mul (b : JSNum) : JSNum.nan * b = JSNum.nan := rfl

@[simp] theorem JSNum.mul_nan (a : JSNum) : a * JSNum.nan = JSNum.nan := by cases a <;> rfl

@[simp] theorem JSNum.nan_add (b : JSNum) : JSNum.nan + b = JSNum.nan := rfl

@[simp] theorem JSNum.add_nan (a : JSNum) : a + JSNum.nan = JSNum.nan := by cases a <;> rfl

@[simp] theorem JSNum.max_num_num (a b : ℚ) :
    JSNum.max (JSNum.num a) (JSNum.num b) = JSNum.num (Max.max a b) := rfl

@[simp] theorem JSNum.min_num_num (a b : ℚ) :
    JSNum.min (JSNum.num a) (JSNum.num b) = JSNum.num (Min.min a b) := rfl

@[simp] theorem JSNum.lt_num_num (a b : ℚ) :
    JSNum.lt (JSNum.num a) (JSNum.num b) = decide (a < b) := rfl

@[simp] theorem JSNum.le_num_num (a b : ℚ) :
    JSNum.le (JSNum.num a) (JSNum.num b) = decide (a ≤ b) := rfl

/-! ## Lookups -/

/-- A key that is neither an own key nor inherited looks up as `undefined`. -/
theorem getProperty_undefined (table : List (String × ℚ)) (key : String)
    (hown : table.lookup key = none) (hproto : key ∉ objectPrototypeKeys) :
    getProperty table key = JSVal.undefined := by
  simp [getProperty, hown, hproto]

/-- An own key looks up as its number. -/
theorem getProperty_own (table : List (String × ℚ)) (key : String) (q : ℚ)
    (hown : table.lookup key = some q) : getProperty table key = JSVal.num q := by
  simp [getProperty, hown]

/-- An inherited name that is not an own key looks up as the inherited member. -/
theorem getProperty_inherited (table : List (String × ℚ)) (key : String)
    (hown : table.lookup key = none) (hproto : key ∈ objectPrototypeKeys) :
    getProperty table key = JSVal.object := by
  simp [getProperty, hown, hproto]

/-- A lookup succeeds exactly on the own keys. -/
theorem lookup_isSome_iff (table : List (String × ℚ)) (key : String) :
    (table.lookup key).isSome = true ↔ key ∈ table.map Prod.fst := by
  induction table with
  | nil => simp
  | cons p rest ih =>
    obtain ⟨k, q⟩ := p
    by_cases h : key = k
    · subst h
      simp [List.lookup_cons]
    · rw [List.lookup_cons, beq_eq_false_iff_ne.mpr h]
      simp only [List.map_cons, List.mem_cons, h, false_or]
      exact ih

/-- A lookup used as a factor is a number exactly on the own keys: there is no
number for `undefined` or for an inherited member. -/
theorem getProperty_toNumber_isNum (table : List (String × ℚ)) (key : String) :
    (getProperty table key).toNumber.isNum = true ↔ key ∈ table.map Prod.fst := by
  rw [← lookup_isSome_iff]
  unfold getProperty
  cases table.lookup key with
  | some q => simp [JSVal.toNumber, JSNum.isNum]
  | none => by_cases h : key ∈ objectPrototypeKeys <;> simp [h, JSVal.toNumber, JSNum.isNum]

/-- The value of a lookup is a number exactly on the own keys. -/
theorem getProperty_isNum (table : List (String × ℚ)) (key : String) :
    (getProperty table key).isNum = true ↔ key ∈ table.map Prod.fst := by
  rw [← lookup_isSome_iff]
  unfold getProperty
  cases table.lookup key with
  | some q => simp [JSVal.isNum]
  | none => by_cases h : key ∈ objectPrototypeKeys <;> simp [h, JSVal.isNum]

/-- A product is a number exactly when both factors are. -/
theorem JSNum.isNum_mul_iff (a b : JSNum) :
    (a * b).isNum = true ↔ a.isNum = true ∧ b.isNum = true := by
  cases a <;> cases b <;> simp [JSNum.isNum]

/-- A rational is a number. -/
theorem JSNum.isNum_num (q : ℚ) : (JSNum.num q).isNum = true := rfl

namespace RiskAssessmentEngine

/-- The own keys of `typeRisk`, one by one. -/
theorem typeRisk_lookup (t : String) :
    typeRisk.lookup t =
      if t = "sedan" then some 0.2 else if t = "suv" then some 0.3
      else if t = "truck" then some 0.4 else if t = "sports" then some 0.7
      else if t = "luxury" then some 0.6 else if t = "economy" then some 0.15 else none := by
  simp only [typeRisk, List.lookup_cons, List.lookup_nil]
  split_ifs with h1 h2 h3 h4 h5 h6
  · simp [h1]
  · simp [h2]
  · simp [h3]
  · simp [h4]
  · simp [h5]
  · simp [h6]
  · rw [beq_eq_false_iff_ne.mpr h1, beq_eq_false_iff_ne.mpr h2, beq_eq_false_iff_ne.mpr h3,
      beq_eq_false_iff_ne.mpr h4, beq_eq_false_iff_ne.mpr h5, beq_eq_false_iff_ne.mpr h6]

/-- Away from the inherited names the vehicle risk is a number: the type risk
of the table, or 0.3 for a type without an entry, times the capped value ratio. -/
theorem calculateVehicleRisk_num (t : String) (v : ℚ) (h : t ∉ objectPrototypeKeys) :
    calculateVehicleRisk t v =
      JSNum.num ((typeRisk.lookup t).getD 0.3 * min (v / 50000) 2) := by
  have hl := typeRisk_lookup t
  unfold calculateVehicleRisk getProperty
  split_ifs at hl with h1 h2 h3 h4 h5 h6 <;> rw [hl] <;>
    simp [JSVal.or, JSVal.truthy, JSVal.toNumber, h] <;> norm_num

/-- The type risk applied to any type lies between 0.15 and 0.7. -/
theorem typeRisk_getD_bounds (t : String) :
    0.15 ≤ (typeRisk.lookup t).getD 0.3 ∧ (typeRisk.lookup t).getD 0.3 ≤ 0.7 := by
  rw [typeRisk_lookup]
  split_ifs <;> norm_num

/-! ## The risk score (C1 to C3) -/

/-- Away from the inherited names, the returned total is the clamp of a
rational sum `S`, accumulated in the order of the source, and the level is
the classification of `S` itself. -/
theorem calculateRiskScore_num (d : ApplicantData) (hkey : d.vehicleType ∉ objectPrototypeKeys) :
    ∃ v S : ℚ,
      calculateVehicleRisk d.vehicleType d.vehicleValue = JSNum.num v ∧
      S = calculateAgeRisk d.age * 0.15
          + calculateDrivingRisk d.accidents d.violations * 0.25
          + v * 0.20
          + calculateLocationRisk d.zipCode * 0.15
          + calculateCreditRisk d.creditScore * 0.12
          + calculateMileageRisk d.annualMileage * 0.08
          + calculateExperienceRisk d.yearsLicensed * 0.05 ∧
      (calculateRiskScore d).totalScore = JSNum.num (min (max S 0) 1) ∧
      (calculateRiskScore d).riskLevel = getRiskLevel (JSNum.num S) := by
  refine ⟨_, _, calculateVehicleRisk_num _ _ hkey, rfl, ?_, ?_⟩
  · simp [calculateRiskScore, calculateVehicleRisk_num _ _ hkey, riskFactors]
  · simp [calculateRiskScore, calculateVehicleRisk_num _ _ hkey, riskFactors]

/-- The level of a rational total is the threshold class of its clamp to [0,1]:
the thresholds 0.3, 0.5 and 0.7 all lie inside the clamp range. -/
theorem getRiskLevel_clamp (S : ℚ) :
    (getRiskLevel (JSNum.num S) = "Low" ↔ min (max S 0) 1 < 0.3) ∧
    (getRiskLevel (JSNum.num S) = "Medium" ↔
      0.3 ≤ min (max S 0) 1 ∧ min (max S 0) 1 < 0.5) ∧
    (getRiskLevel (JSNum.num S) = "High" ↔
      0.5 ≤ min (max S 0) 1 ∧ min (max S 0) 1 < 0.7) ∧
    (getRiskLevel (JSNum.num S) = "Very High" ↔ 0.7 ≤ min (max S 0) 1) := by
  have e3 : min (max S 0) 1 < 0.3 ↔ S < 0.3 := by
    rw [min_lt_iff, max_lt_iff]; norm_num
  have e5 : min (max S 0) 1 < 0.5 ↔ S < 0.5 := by
    rw [min_lt_iff, max_lt_iff]; norm_num
  have e7 : min (max S 0) 1 < 0.7 ↔ S < 0.7 := by
    rw [min_lt_iff, max_lt_iff]; norm_num
  have n3 : 0.3 ≤ min (max S 0) 1 ↔ ¬ S < 0.3 := by rw [← e3, not_lt]
  have n5 : 0.5 ≤ min (max S 0) 1 ↔ ¬ S < 0.5 := by rw [← e5, not_lt]
  have n7 : 0.7 ≤ min (max S 0) 1 ↔ ¬ S < 0.7 := by rw [← e7, not_lt]
  rw [e3, e5, e7, n3, n5, n7]
  unfold getRiskLevel
  simp only [JSNum.lt_num_num, decide_eq_true_eq]
  by_cases h3 : S < 0.3
  · have h5 : S < 0.5 := lt_trans h3 (by norm_num)
    have h7 : S < 0.7 := lt_trans h3 (by norm_num)
    simp [h3, h5, h7]
  · by_cases h5 : S < 0.5
    · have h7 : S < 0.7 := lt_trans h5 (by norm_num)
      simp [h3, h5, h7]
    · by_cases h7 : S < 0.7
      · simp [h3, h5, h7]
      · simp [h3, h5, h7]

/-- The property of C1 away from the inherited names: for every applicant
profile whose vehicleType is not a name inherited from `Object.prototype` (in
particular for the six known types), the breakdown records the seven sub-scores,
`calculateRiskScore` returns `totalScore = min(max(S, 0), 1)` where `S` is the
weighted sum of the recorded sub-scores with the weights 0.15, 0.25, 0.20, 0.15,
0.12, 0.08 and 0.05, the seven weights sum to exactly 1, and the total lies in
[0,1]. -/
theorem calculateRiskScore_totalScore (d : ApplicantData)
    (hkey : d.vehicleType ∉ objectPrototypeKeys) :
    ((calculateRiskScore d).breakdown.age.score = JSNum.num (calculateAgeRisk d.age) ∧
      (calculateRiskScore d).breakdown.drivingHistory.score =
        JSNum.num (calculateDrivingRisk d.accidents d.violations) ∧
      (calculateRiskScore d).breakdown.vehicleType.score =
        calculateVehicleRisk d.vehicleType d.vehicleValue ∧
      (calculateRiskScore d).breakdown.location.score =
        JSNum.num (calculateLocationRisk d.zipCode) ∧
      (calculateRiskScore d).breakdown.creditScore.score =
        JSNum.num (calculateCreditRisk d.creditScore) ∧
      (calculateRiskScore d).breakdown.mileage.score =
        JSNum.num (calculateMileageRisk d.annualMileage) ∧
      (calculateRiskScore d).breakdown.experience.score =
        JSNum.num (calculateExperienceRisk d.yearsLicensed)) ∧
    (riskFactors.age.weight + riskFactors.drivingHistory.weight
      + riskFactors.vehicleType.weight + riskFactors.location.weight
      + riskFactors.creditScore.weight + riskFactors.mileage.weight
      + riskFactors.experience.weight = 1) ∧
    ∃ S : ℚ,
      JSNum.num 0.15 * (calculateRiskScore d).breakdown.age.score
        + JSNum.num 0.25 * (calculateRiskScore d).breakdown.drivingHistory.score
        + JSNum.num 0.20 * (calculateRiskScore d).breakdown.vehicleType.score
        + JSNum.num 0.15 * (calculateRiskScore d).breakdown.location.score
        + JSNum.num 0.12 * (calculateRiskScore d).breakdown.creditScore.score
        + JSNum.num 0.08 * (calculateRiskScore d).breakdown.mileage.score
        + JSNum.num 0.05 * (calculateRiskScore d).breakdown.experience.score
        = JSNum.num S ∧
      (calculateRiskScore d).totalScore = JSNum.num (min (max S 0) 1) ∧
      0 ≤ min (max S 0) 1 ∧ min (max S 0) 1 ≤ 1 := by
  obtain ⟨v, S, hv, hS, htot, -⟩ := calculateRiskScore_num d hkey
  refine ⟨⟨rfl, rfl, rfl, rfl, rfl, rfl, rfl⟩, ?_, S, ?_, htot, ?_, ?_⟩
  · norm_num [riskFactors]
  · simp only [calculateRiskScore, hv, JSNum.num_mul_num, JSNum.num_add_num, hS]
    congr 1
    ring
  · exact le_min (le_max_right _ _) (by norm_num)
  · exact min_le_right _ _

/-- The default applicant of the form is such a profile. -/
theorem calculateRiskScore_totalScore_witness :
    defaultApplicant.vehicleType ∉ objectPrototypeKeys ∧
    ∃ S : ℚ, (calculateRiskScore defaultApplicant).totalScore = JSNum.num (min (max S 0) 1) ∧
      0 ≤ min (max S 0) 1 ∧ min (max S 0) 1 ≤ 1 := by
  refine ⟨by decide, ?_⟩
  obtain ⟨-, -, S, -, h1, h2, h3⟩ := calculateRiskScore_totalScore defaultApplicant (by decide)
  exact ⟨S, h1, h2, h3⟩

/-- C1 at the failing input: for the vehicleType "constructor" the lookup
`typeRisk[type]` gives the inherited member instead of falling back to 0.3, the
vehicle sub-score is `NaN`, and so is the returned total, which is neither at
least 0 nor at most 1. -/
theorem calculateRiskScore_totalScore_inherited :
    (calculateRiskScore { defaultApplicant with vehicleType := "constructor" }).totalScore
      = JSNum.nan ∧
    JSNum.le (JSNum.num 0)
      (calculateRiskScore { defaultApplicant with vehicleType := "constructor" }).totalScore
      = false ∧
    JSNum.le
      (calculateRiskScore { defaultApplicant with vehicleType := "constructor" }).totalScore
      (JSNum.num 1) = false := by
  refine ⟨?_, ?_, ?_⟩ <;> rfl

/-- The age sub-score is never negative, and is at most 1 exactly for the ages
from 12 to 100. -/
theorem calculateAgeRisk_bounds (age : ℚ) :
    0 ≤ calculateAgeRisk age ∧ (calculateAgeRisk age ≤ 1 ↔ 12 ≤ age ∧ age ≤ 100) := by
  unfold calculateAgeRisk
  split_ifs with h1 h2
  · refine ⟨by linarith, ⟨fun h3 => ⟨by linarith, by linarith⟩, fun h3 => by linarith [h3.1]⟩⟩
  · refine ⟨by linarith, ⟨fun h3 => ⟨by linarith, by linarith⟩, fun h3 => by linarith [h3.2]⟩⟩
  · have ha : |age - 45| ≤ 20 := abs_le.mpr ⟨by linarith, by linarith⟩
    have hb : 0 ≤ |age - 45| := abs_nonneg _
    refine ⟨by linarith, ⟨fun _ => ⟨by linarith, by linarith⟩, fun _ => by linarith⟩⟩

/-- The driving sub-score lies in [0,1] for non-negative counts. -/
theorem calculateDrivingRisk_bounds (a v : ℚ) (ha : 0 ≤ a) (hv : 0 ≤ v) :
    0 ≤ calculateDrivingRisk a v ∧ calculateDrivingRisk a v ≤ 1 := by
  unfold calculateDrivingRisk
  refine ⟨le_min (by linarith) (by norm_num), min_le_right _ _⟩

/-- The location sub-score is 0.4 or 0.2. -/
theorem calculateLocationRisk_values (z : String) :
    calculateLocationRisk z = 0.4 ∨ calculateLocationRisk z = 0.2 := by
  unfold calculateLocationRisk
  cases parseIntLast z with
  | none => right; rfl
  | some n =>
    by_cases h : n < 5
    · left; simp [h]
    · right; simp [h]

/-- The location sub-score lies in [0,1]. -/
theorem calculateLocationRisk_bounds (z : String) :
    0 ≤ calculateLocationRisk z ∧ calculateLocationRisk z ≤ 1 := by
  rcases calculateLocationRisk_values z with h | h <;> rw [h] <;> norm_num

/-- The credit sub-score is one of four values between 0.1 and 0.6. -/
theorem calculateCreditRisk_bounds (s : ℚ) :
    0.1 ≤ calculateCreditRisk s ∧ calculateCreditRisk s ≤ 0.6 := by
  unfold calculateCreditRisk
  split_ifs <;> norm_num

/-- The mileage sub-score lies in [0, 0.3] for a non-negative mileage. -/
theorem calculateMileageRisk_bounds (m : ℚ) (h : 0 ≤ m) :
    0 ≤ calculateMileageRisk m ∧ calculateMileageRisk m ≤ 0.3 := by
  unfold calculateMileageRisk
  have h1 : 0 ≤ min (m / 30000) 1 := le_min (by positivity) (by norm_num)
  have h2 : min (m / 30000) 1 ≤ 1 := min_le_right _ _
  constructor <;> nlinarith

/-- The experience sub-score lies in [0.05, 0.5] for non-negative years. -/
theorem calculateExperienceRisk_bounds (y : ℚ) (h : 0 ≤ y) :
    0.05 ≤ calculateExperienceRisk y ∧ calculateExperienceRisk y ≤ 0.5 := by
  unfold calculateExperienceRisk
  refine ⟨le_max_right _ _, max_le (by linarith) (by norm_num)⟩

/-- C2 (amended): for every valid applicant profile (age, accidents, violations,
vehicleValue, annualMileage, yearsLicensed non-negative, creditScore between 300
and 850, vehicleType one of the six known types), the driving, location, credit,
mileage and experience sub-scores lie in [0,1]; the age sub-score is at least 0
and is at most 1 exactly when 12 <= age <= 100; the vehicle sub-score is a number
in [0, 1.4] and is at most 1 exactly when a sports vehicle is worth at most
500000/7 and a luxury vehicle at most 250000/3. -/
theorem subscores_bounds (d : ApplicantData)
    (_hage : 0 ≤ d.age) (hacc : 0 ≤ d.accidents) (hvio : 0 ≤ d.violations)
    (hval : 0 ≤ d.vehicleValue) (_hcr : 300 ≤ d.creditScore ∧ d.creditScore ≤ 850)
    (hmil : 0 ≤ d.annualMileage) (hyrs : 0 ≤ d.yearsLicensed)
    (htype : d.vehicleType ∈ ["sedan", "suv", "truck", "sports", "luxury", "economy"]) :
    (0 ≤ calculateAgeRisk d.age ∧
      (calculateAgeRisk d.age ≤ 1 ↔ 12 ≤ d.age ∧ d.age ≤ 100)) ∧
    (0 ≤ calculateDrivingRisk d.accidents d.violations ∧
      calculateDrivingRisk d.accidents d.violations ≤ 1) ∧
    (∃ v : ℚ, calculateVehicleRisk d.vehicleType d.vehicleValue = JSNum.num v ∧
      0 ≤ v ∧ v ≤ 1.4 ∧
      (v ≤ 1 ↔ (d.vehicleType = "sports" → 7 * d.vehicleValue ≤ 500000) ∧
        (d.vehicleType = "luxury" → 3 * d.vehicleValue ≤ 250000))) ∧
    (0 ≤ calculateLocationRisk d.zipCode ∧ calculateLocationRisk d.zipCode ≤ 1) ∧
    (0 ≤ calculateCreditRisk d.creditScore ∧ calculateCreditRisk d.creditScore ≤ 1) ∧
    (0 ≤ calculateMileageRisk d.annualMileage ∧ calculateMileageRisk d.annualMileage ≤ 1) ∧
    (0 ≤ calculateExperienceRisk d.yearsLicensed ∧
      calculateExperienceRisk d.yearsLicensed ≤ 1) := by
  have hc := calculateCreditRisk_bounds d.creditScore
  have hm := calculateMileageRisk_bounds d.annualMileage hmil
  have he := calculateExperienceRisk_bounds d.yearsLicensed hyrs
  refine ⟨calculateAgeRisk_bounds d.age,
    calculateDrivingRisk_bounds _ _ hacc hvio, ?_, calculateLocationRisk_bounds _,
    ⟨by linarith [hc.1], by linarith [hc.2]⟩, ⟨hm.1, by linarith [hm.2]⟩,
    ⟨by linarith [he.1], by linarith [he.2]⟩⟩
  have hproto : d.vehicleType ∉ objectPrototypeKeys := by
    simp only [List.mem_cons, List.mem_singleton, List.not_mem_nil, or_false] at htype
    rcases htype with h | h | h | h | h | h <;> rw [h] <;> decide
  refine ⟨_, calculateVehicleRisk_num _ _ hproto, ?_⟩
  have hm0 : 0 ≤ min (d.vehicleValue / 50000) 2 := le_min (by positivity) (by norm_num)
  have hm2 : min (d.vehicleValue / 50000) 2 ≤ 2 := min_le_right _ _
  have hmv : min (d.vehicleValue / 50000) 2 ≤ d.vehicleValue / 50000 := min_le_left _ _
  have hb := typeRisk_getD_bounds d.vehicleType
  refine ⟨by nlinarith [hb.1], by nlinarith [hb.2], ?_⟩
  rw [typeRisk_lookup]
  simp only [List.mem_cons, List.mem_singleton, List.not_mem_nil, or_false] at htype
  rcases htype with h | h | h | h | h | h
  · have e : (0.2 : ℚ) * min (d.vehicleValue / 50000) 2 ≤ 1 := by linarith
    simpa [h] using e
  · have e : (0.3 : ℚ) * min (d.vehicleValue / 50000) 2 ≤ 1 := by linarith
    simpa [h] using e
  · have e : (0.4 : ℚ) * min (d.vehicleValue / 50000) 2 ≤ 1 := by linarith
    simpa [h] using e
  · have e : (0.7 : ℚ) * min (d.vehicleValue / 50000) 2 ≤ 1 ↔
        7 * d.vehicleValue ≤ 500000 := by
      constructor
      · intro h1
        by_contra h2
        push_neg at h2
        have h3 : (10 / 7 : ℚ) < min (d.vehicleValue / 50000) 2 :=
          lt_min (by rw [lt_div_iff₀ (by norm_num)]; linarith) (by norm_num)
        linarith
      · intro h1
        have h3 : d.vehicleValue / 50000 ≤ 10 / 7 := by
          rw [div_le_iff₀ (by norm_num)]
          linarith
        linarith
    simpa [h] using e
  · have e : (0.6 : ℚ) * min (d.vehicleValue / 50000) 2 ≤ 1 ↔
        3 * d.vehicleValue ≤ 250000 := by
      constructor
      · intro h1
        by_contra h2
        push_neg at h2
        have h3 : (5 / 3 : ℚ) < min (d.vehicleValue / 50000) 2 :=
          lt_min (by rw [lt_div_iff₀ (by norm_num)]; linarith) (by norm_num)
        linarith
      · intro h1
        have h3 : d.vehicleValue / 50000 ≤ 5 / 3 := by
          rw [div_le_iff₀ (by norm_num)]
          linarith
        linarith
    simpa [h] using e
  · have e : (0.15 : ℚ) * min (d.vehicleValue / 50000) 2 ≤ 1 := by linarith
    simpa [h] using e

/-- C2, witness: the default applicant of the form is a valid profile. -/
theorem subscores_bounds_witness :
    (0 ≤ defaultApplicant.age ∧ 0 ≤ defaultApplicant.accidents ∧
      0 ≤ defaultApplicant.violations ∧ 0 ≤ defaultApplicant.vehicleValue ∧
      (300 ≤ defaultApplicant.creditScore ∧ defaultApplicant.creditScore ≤ 850) ∧
      0 ≤ defaultApplicant.annualMileage ∧ 0 ≤ defaultApplicant.yearsLicensed ∧
      defaultApplicant.vehicleType ∈ ["sedan", "suv", "truck", "sports", "luxury", "economy"]) ∧
    (0 ≤ calculateAgeRisk defaultApplicant.age ∧ calculateAgeRisk defaultApplicant.age ≤ 1) ∧
    (∃ v : ℚ, calculateVehicleRisk defaultApplicant.vehicleType defaultApplicant.vehicleValue
        = JSNum.num v ∧ 0 ≤ v ∧ v ≤ 1) := by
  have hyp : 0 ≤ defaultApplicant.age ∧ 0 ≤ defaultApplicant.accidents ∧
      0 ≤ defaultApplicant.violations ∧ 0 ≤ defaultApplicant.vehicleValue ∧
      (300 ≤ defaultApplicant.creditScore ∧ defaultApplicant.creditScore ≤ 850) ∧
      0 ≤ defaultApplicant.annualMileage ∧ 0 ≤ defaultApplicant.yearsLicensed ∧
      defaultApplicant.vehicleType ∈ ["sedan", "suv", "truck", "sports", "luxury", "economy"] := by
    norm_num [defaultApplicant]
  obtain ⟨h1, h2, h3, h4, h5, h6, h7, h8⟩ := hyp
  obtain ⟨ha, -, ⟨v, hv, hv0, -, hv1⟩, -⟩ :=
    subscores_bounds defaultApplicant h1 h2 h3 h4 h5 h6 h7 h8
  refine ⟨⟨h1, h2, h3, h4, h5, h6, h7, h8⟩, ⟨ha.1, ha.2.mpr ?_⟩, v, hv, hv0, hv1.mpr ?_⟩
  · norm_num [defaultApplicant]
  · simp [defaultApplicant]

/-- C2, as stated, fails on valid profiles: a sports vehicle worth 100000 has
the vehicle sub-score 1.4, the age 0 has the age sub-score 1.6, and the age
101 has the age sub-score 1.02. -/
theorem subscores_exceed_one :
    ((0 : ℚ) ≤ 100000 ∧
      "sports" ∈ ["sedan", "suv", "truck", "sports", "luxury", "economy"] ∧
      calculateVehicleRisk "sports" 100000 = JSNum.num 1.4 ∧ (1 : ℚ) < 1.4) ∧
    ((0 : ℚ) ≤ 0 ∧ calculateAgeRisk 0 = 1.6 ∧ (1 : ℚ) < 1.6) ∧
    ((0 : ℚ) ≤ 101 ∧ calculateAgeRisk 101 = 1.02 ∧ (1 : ℚ) < 1.02) := by
  refine ⟨⟨by norm_num, by decide, ?_, by norm_num⟩, ⟨le_refl _, ?_, by norm_num⟩,
    ⟨by norm_num, ?_, by norm_num⟩⟩
  · rw [calculateVehicleRisk_num _ _ (by decide), typeRisk_lookup]
    simp only [String.reduceEq, if_false, if_true, Option.getD_some]
    norm_num
  · norm_num [calculateAgeRisk]
  · norm_num [calculateAgeRisk]

/-- The property of C3 away from the inherited names: for every applicant
profile whose vehicleType is not a name inherited from `Object.prototype` (in
particular for the six known types), the returned totalScore is a number and the
returned riskLevel is its threshold class: "Low" iff totalScore < 0.3, "Medium"
iff 0.3 <= totalScore < 0.5, "High" iff 0.5 <= totalScore < 0.7, "Very High" iff
totalScore >= 0.7 (the code classifies the unclamped sum, which has the same
class as its clamp). -/
theorem riskLevel_classifies_totalScore (d : ApplicantData)
    (hkey : d.vehicleType ∉ objectPrototypeKeys) :
    ∃ t : ℚ, (calculateRiskScore d).totalScore = JSNum.num t ∧
      ((calculateRiskScore d).riskLevel = "Low" ↔ t < 0.3) ∧
      ((calculateRiskScore d).riskLevel = "Medium" ↔ 0.3 ≤ t ∧ t < 0.5) ∧
      ((calculateRiskScore d).riskLevel = "High" ↔ 0.5 ≤ t ∧ t < 0.7) ∧
      ((calculateRiskScore d).riskLevel = "Very High" ↔ 0.7 ≤ t) := by
  obtain ⟨v, S, -, -, htot, hlev⟩ := calculateRiskScore_num d hkey
  refine ⟨_, htot, ?_⟩
  rw [hlev]
  exact getRiskLevel_clamp S

/-- The default applicant of the form is such a profile. -/
theorem riskLevel_classifies_totalScore_witness :
    defaultApplicant.vehicleType ∉ objectPrototypeKeys ∧
    ∃ t : ℚ, (calculateRiskScore defaultApplicant).totalScore = JSNum.num t ∧
      ((calculateRiskScore defaultApplicant).riskLevel = "Low" ↔ t < 0.3) := by
  refine ⟨by decide, ?_⟩
  obtain ⟨t, h1, h2, -⟩ := riskLevel_classifies_totalScore defaultApplicant (by decide)
  exact ⟨t, h1, h2⟩

/-- C3 at the failing input: for the vehicleType "constructor" the returned
level is "Very High" although the returned totalScore is `NaN`, for which
`totalScore >= 0.7` is false. -/
theorem riskLevel_inherited :
    (calculateRiskScore { defaultApplicant with vehicleType := "constructor" }).riskLevel
      = "Very High" ∧
    JSNum.le (JSNum.num 0.7)
      (calculateRiskScore { defaultApplicant with vehicleType := "constructor" }).totalScore
      = false := by
  refine ⟨?_, ?_⟩ <;> rfl

end RiskAssessmentEngine

namespace PricingCalculator

/-! ## The premium pipeline (C4 to C7) -/

/-- The own keys of `coverageMultiplier`, one by one. -/
theorem coverageMultiplier_lookup (c : String) :
    coverageMultiplier.lookup c =
      if c = "basic" then some 0.7 else if c = "standard" then some 1.0
      else if c = "comprehensive" then some 1.4 else if c = "premium" then some 1.8
      else none := by
  simp only [coverageMultiplier, List.lookup_cons, List.lookup_nil]
  split_ifs with h1 h2 h3 h4
  · simp [h1]
  · simp [h2]
  · simp [h3]
  · simp [h4]
  · rw [beq_eq_false_iff_ne.mpr h1, beq_eq_false_iff_ne.mpr h2, beq_eq_false_iff_ne.mpr h3,
      beq_eq_false_iff_ne.mpr h4]

/-- Away from the inherited names the applied coverage multiplier is a number:
the entry of the table, or 1.0 for a level without an entry. -/
theorem appliedMultiplier_num (c : String) (h : c ∉ objectPrototypeKeys) :
    ((getProperty coverageMultiplier c).or (JSVal.num 1.0)).toNumber =
      JSNum.num ((coverageMultiplier.lookup c).getD 1.0) := by
  have hl := coverageMultiplier_lookup c
  unfold getProperty
  split_ifs at hl with h1 h2 h3 h4 <;> rw [hl] <;>
    simp [JSVal.or, JSVal.truthy, JSVal.toNumber, h] <;> norm_num

/-- The applied coverage multiplier is positive. -/
theorem coverageMultiplier_getD_pos (c : String) :
    0 < (coverageMultiplier.lookup c).getD 1.0 := by
  rw [coverageMultiplier_lookup]
  split_ifs <;> norm_num

/-- Away from the inherited names every stage of the pipeline is a number,
each computed from the previous one. -/
theorem calculatePremium_num (r m : ℚ) (c : String) (h : c ∉ objectPrototypeKeys) :
    (calculatePremium (JSNum.num r) (JSNum.num m) c).basePremium = 1200 ∧
    (calculatePremium (JSNum.num r) (JSNum.num m) c).riskAdjustedPremium =
      JSNum.num (1200 * (1 + 2 * r)) ∧
    (calculatePremium (JSNum.num r) (JSNum.num m) c).coverageAdjustedPremium =
      JSNum.num (1200 * (1 + 2 * r) * (coverageMultiplier.lookup c).getD 1.0) ∧
    (calculatePremium (JSNum.num r) (JSNum.num m) c).marketAdjustedPremium =
      JSNum.num (1200 * (1 + 2 * r) * (coverageMultiplier.lookup c).getD 1.0 * m) ∧
    (calculatePremium (JSNum.num r) (JSNum.num m) c).finalPremium =
      JSNum.num (1200 * (1 + 2 * r) * (coverageMultiplier.lookup c).getD 1.0 * m
        * (1 + 0.15 + 0.12 + 0.08)) := by
  have e : (1 : ℚ) + r * 2 = 1 + 2 * r := by ring
  refine ⟨rfl, ?_, ?_, ?_, ?_⟩ <;>
    simp [calculatePremium, appliedMultiplier_num c h, basePremium, profitMargin,
      operationalCosts, reserveRequirement, e]

/-- The property of C4 away from the inherited names: for every riskScore,
marketAdjustment and coverageLevel that is not a name inherited from
`Object.prototype`,
`calculatePremium` returns all stages, each derived from the previous one:
basePremium = 1200, riskAdjustedPremium = 1200 * (1 + 2*riskScore),
coverageAdjustedPremium = riskAdjustedPremium * c with c = 0.7 / 1.0 / 1.4 / 1.8
for basic / standard / comprehensive / premium and 1.0 for any other level,
marketAdjustedPremium = coverageAdjustedPremium * marketAdjustment, and
finalPremium = marketAdjustedPremium * (1 + 0.15 + 0.12 + 0.08). -/
theorem calculatePremium_stages (r m : ℚ) (c : String) (h : c ∉ objectPrototypeKeys) :
    ∃ k ra ca ma : ℚ,
      k = (if c = "basic" then 0.7 else if c = "standard" then 1.0
        else if c = "comprehensive" then 1.4 else if c = "premium" then 1.8 else 1.0) ∧
      (calculatePremium (JSNum.num r) (JSNum.num m) c).basePremium = 1200 ∧
      (calculatePremium (JSNum.num r) (JSNum.num m) c).riskAdjustedPremium = JSNum.num ra ∧
      ra = 1200 * (1 + 2 * r) ∧
      (calculatePremium (JSNum.num r) (JSNum.num m) c).coverageAdjustedPremium = JSNum.num ca ∧
      ca = ra * k ∧
      (calculatePremium (JSNum.num r) (JSNum.num m) c).marketAdjustedPremium = JSNum.num ma ∧
      ma = ca * m ∧
      (calculatePremium (JSNum.num r) (JSNum.num m) c).finalPremium =
        JSNum.num (ma * (1 + 0.15 + 0.12 + 0.08)) := by
  obtain ⟨h0, h1, h2, h3, h4⟩ := calculatePremium_num r m c h
  have hk : (coverageMultiplier.lookup c).getD 1.0 =
      (if c = "basic" then 0.7 else if c = "standard" then 1.0
        else if c = "comprehensive" then 1.4 else if c = "premium" then 1.8 else 1.0) := by
    rw [coverageMultiplier_lookup]
    split_ifs <;> rfl
  rw [hk] at h2 h3 h4
  exact ⟨_, _, _, _, rfl, h0, h1, rfl, h2, rfl, h3, rfl, h4⟩

/-- The tier "standard" at risk 0 and market adjustment 1 has all five stages. -/
theorem calculatePremium_stages_witness :
    "standard" ∉ objectPrototypeKeys ∧
    (calculatePremium (JSNum.num 0) (JSNum.num 1) "standard").finalPremium =
      JSNum.num 1620 := by
  refine ⟨by decide, ?_⟩
  obtain ⟨k, ra, ca, ma, hk, -, -, hra, -, hca, -, hma, hf⟩ :=
    calculatePremium_stages 0 1 "standard" (by decide)
  rw [hf, hma, hca, hra, hk]
  simp only [String.reduceEq, if_false, if_true]
  norm_num

/-- C4 at the failing input: for the coverageLevel "constructor" the lookup
`coverageMultiplier[coverageLevel]` gives the inherited member instead of
falling back to 1.0, and the coverage-adjusted, market-adjusted and final
premiums are `NaN` (the claim gives 1200, 1200 and 1620 at risk 0 and market
adjustment 1). -/
theorem calculatePremium_stages_inherited :
    (calculatePremium (JSNum.num 0) (JSNum.num 1) "constructor").coverageAdjustedPremium
      = JSNum.nan ∧
    (calculatePremium (JSNum.num 0) (JSNum.num 1) "constructor").marketAdjustedPremium
      = JSNum.nan ∧
    (calculatePremium (JSNum.num 0) (JSNum.num 1) "constructor").finalPremium
      = JSNum.nan := by
  refine ⟨?_, ?_, ?_⟩ <;> rfl

/-- The property of C5 away from the inherited names: for every coverage level
that is not a name inherited from `Object.prototype` and every non-negative
market adjustment, finalPremium is a number and is non-decreasing in riskScore. -/
theorem finalPremium_monotone (r1 r2 m : ℚ) (c : String) (h : c ∉ objectPrototypeKeys)
    (hr : r1 ≤ r2) (hm : 0 ≤ m) :
    ∃ p1 p2 : ℚ,
      (calculatePremium (JSNum.num r1) (JSNum.num m) c).finalPremium = JSNum.num p1 ∧
      (calculatePremium (JSNum.num r2) (JSNum.num m) c).finalPremium = JSNum.num p2 ∧
      p1 ≤ p2 := by
  obtain ⟨-, -, -, -, h1⟩ := calculatePremium_num r1 m c h
  obtain ⟨-, -, -, -, h2⟩ := calculatePremium_num r2 m c h
  refine ⟨_, _, h1, h2, ?_⟩
  have hk := coverageMultiplier_getD_pos c
  have hkm : 0 ≤ (coverageMultiplier.lookup c).getD 1.0 * m := mul_nonneg hk.le hm
  have e : ∀ r : ℚ, 1200 * (1 + 2 * r) * (coverageMultiplier.lookup c).getD 1.0 * m
      * (1 + 0.15 + 0.12 + 0.08)
      = (1200 * (1 + 0.15 + 0.12 + 0.08)) * (1 + 2 * r)
        * ((coverageMultiplier.lookup c).getD 1.0 * m) := fun r => by ring
  rw [e r1, e r2]
  apply mul_le_mul_of_nonneg_right _ hkm
  apply mul_le_mul_of_nonneg_left _ (by norm_num)
  linarith

/-- The tier "standard" with risk scores 0 and 1 at market adjustment 1. -/
theorem finalPremium_monotone_witness :
    "standard" ∉ objectPrototypeKeys ∧ (0 : ℚ) ≤ 1 ∧
    ∃ p1 p2 : ℚ,
      (calculatePremium (JSNum.num 0) (JSNum.num 1) "standard").finalPremium = JSNum.num p1 ∧
      (calculatePremium (JSNum.num 1) (JSNum.num 1) "standard").finalPremium = JSNum.num p2 ∧
      p1 ≤ p2 :=
  ⟨by decide, zero_le_one,
    finalPremium_monotone 0 1 1 "standard" (by decide) zero_le_one zero_le_one⟩

/-- C5 at the failing input: for the coverageLevel "constructor" the final
premium is `NaN` at every risk score, and `NaN <= NaN` is false. -/
theorem finalPremium_monotone_inherited :
    (0 : ℚ) ≤ 1 ∧
    JSNum.le (calculatePremium (JSNum.num 0) (JSNum.num 1) "constructor").finalPremium
      (calculatePremium (JSNum.num 1) (JSNum.num 1) "constructor").finalPremium = false :=
  ⟨zero_le_one, rfl⟩

/-- C6: for every riskScore in [0,1] and every positive market adjustment,
the final premiums of the four tiers are numbers in strictly increasing order:
basic < standard < comprehensive < premium. -/
theorem coverage_tiers_ordered (r m : ℚ) (hr0 : 0 ≤ r) (_hr1 : r ≤ 1) (hm : 0 < m) :
    ∃ pb ps pc pp : ℚ,
      (calculatePremium (JSNum.num r) (JSNum.num m) "basic").finalPremium = JSNum.num pb ∧
      (calculatePremium (JSNum.num r) (JSNum.num m) "standard").finalPremium = JSNum.num ps ∧
      (calculatePremium (JSNum.num r) (JSNum.num m) "comprehensive").finalPremium
        = JSNum.num pc ∧
      (calculatePremium (JSNum.num r) (JSNum.num m) "premium").finalPremium = JSNum.num pp ∧
      pb < ps ∧ ps < pc ∧ pc < pp := by
  obtain ⟨-, -, -, -, hb⟩ := calculatePremium_num r m "basic" (by decide)
  obtain ⟨-, -, -, -, hs⟩ := calculatePremium_num r m "standard" (by decide)
  obtain ⟨-, -, -, -, hc⟩ := calculatePremium_num r m "comprehensive" (by decide)
  obtain ⟨-, -, -, -, hp⟩ := calculatePremium_num r m "premium" (by decide)
  rw [coverageMultiplier_lookup] at hb hs hc hp
  simp only [String.reduceEq, if_false, if_true, Option.getD_some] at hb hs hc hp
  refine ⟨_, _, _, _, hb, hs, hc, hp, ?_, ?_, ?_⟩ <;> nlinarith [mul_pos hm (by linarith : (0 : ℚ) < 1 + 2 * r)]

/-- C6, witness: risk score 0.5 and market adjustment 1. -/
theorem coverage_tiers_ordered_witness :
    (0 : ℚ) ≤ 0.5 ∧ (0.5 : ℚ) ≤ 1 ∧ (0 : ℚ) < 1 ∧
    ∃ pb ps pc pp : ℚ,
      (calculatePremium (JSNum.num 0.5) (JSNum.num 1) "basic").finalPremium = JSNum.num pb ∧
      (calculatePremium (JSNum.num 0.5) (JSNum.num 1) "standard").finalPremium = JSNum.num ps ∧
      (calculatePremium (JSNum.num 0.5) (JSNum.num 1) "comprehensive").finalPremium
        = JSNum.num pc ∧
      (calculatePremium (JSNum.num 0.5) (JSNum.num 1) "premium").finalPremium = JSNum.num pp ∧
      pb < ps ∧ ps < pc ∧ pc < pp :=
  ⟨by norm_num, by norm_num, by norm_num,
    coverage_tiers_ordered 0.5 1 (by norm_num) (by norm_num) (by norm_num)⟩

end PricingCalculator

/-! ## Unknown categories (C7, C8) -/

/-- The property of C7 away from the inherited names: for every vehicleType
string outside the six known types that is not a name inherited from
`Object.prototype`,
`calculateVehicleRisk` uses the type risk 0.3, and for every coverageLevel
string outside the four known tiers that is not such a name, `calculatePremium`
returns the same five stages as for "standard". -/
theorem unknown_category_default (t c : String) (v : ℚ) (r m : JSNum)
    (ht : t ∉ ["sedan", "suv", "truck", "sports", "luxury", "economy"])
    (htp : t ∉ objectPrototypeKeys)
    (hc : c ∉ ["basic", "standard", "comprehensive", "premium"])
    (hcp : c ∉ objectPrototypeKeys) :
    RiskAssessmentEngine.calculateVehicleRisk t v = JSNum.num (0.3 * min (v / 50000) 2) ∧
    (PricingCalculator.calculatePremium r m c).basePremium =
      (PricingCalculator.calculatePremium r m "standard").basePremium ∧
    (PricingCalculator.calculatePremium r m c).riskAdjustedPremium =
      (PricingCalculator.calculatePremium r m "standard").riskAdjustedPremium ∧
    (PricingCalculator.calculatePremium r m c).coverageAdjustedPremium =
      (PricingCalculator.calculatePremium r m "standard").coverageAdjustedPremium ∧
    (PricingCalculator.calculatePremium r m c).marketAdjustedPremium =
      (PricingCalculator.calculatePremium r m "standard").marketAdjustedPremium ∧
    (PricingCalculator.calculatePremium r m c).finalPremium =
      (PricingCalculator.calculatePremium r m "standard").finalPremium := by
  have e1 : RiskAssessmentEngine.typeRisk.lookup t = none := by
    rw [RiskAssessmentEngine.typeRisk_lookup]
    simp only [List.mem_cons, List.mem_singleton, List.not_mem_nil, or_false, not_or] at ht
    simp [ht.1, ht.2.1, ht.2.2.1, ht.2.2.2.1, ht.2.2.2.2.1, ht.2.2.2.2.2]
  have e2 : PricingCalculator.coverageMultiplier.lookup c = none := by
    rw [PricingCalculator.coverageMultiplier_lookup]
    simp only [List.mem_cons, List.mem_singleton, List.not_mem_nil, or_false, not_or] at hc
    simp [hc.1, hc.2.1, hc.2.2.1, hc.2.2.2]
  have e3 : ((getProperty PricingCalculator.coverageMultiplier c).or (JSVal.num 1.0)).toNumber
      = ((getProperty PricingCalculator.coverageMultiplier "standard").or
          (JSVal.num 1.0)).toNumber := by
    rw [PricingCalculator.appliedMultiplier_num c hcp,
      PricingCalculator.appliedMultiplier_num "standard" (by decide), e2,
      PricingCalculator.coverageMultiplier_lookup]
    simp
  refine ⟨?_, rfl, rfl, ?_, ?_, ?_⟩
  · rw [RiskAssessmentEngine.calculateVehicleRisk_num t v htp, e1]
    simp
  · simp only [PricingCalculator.calculatePremium, e3]
  · simp only [PricingCalculator.calculatePremium, e3]
  · simp only [PricingCalculator.calculatePremium, e3]

/-- The unknown categories "bike" and "gold" fall back to the defaults. -/
theorem unknown_category_default_witness :
    RiskAssessmentEngine.calculateVehicleRisk "bike" 25000
      = JSNum.num (0.3 * min (25000 / 50000) 2) ∧
    (PricingCalculator.calculatePremium (JSNum.num 0) (JSNum.num 1) "gold").finalPremium =
      (PricingCalculator.calculatePremium (JSNum.num 0) (JSNum.num 1) "standard").finalPremium := by
  obtain ⟨h1, -, -, -, -, h2⟩ := unknown_category_default "bike" "gold" 25000 (JSNum.num 0)
    (JSNum.num 1) (by decide) (by decide) (by decide) (by decide)
  exact ⟨h1, h2⟩

/-- C7 at the failing input: "constructor" is outside the known vehicle types
and coverage tiers, yet `typeRisk["constructor"]` and
`coverageMultiplier["constructor"]` are the inherited member, which is truthy,
so that neither default is applied: the vehicle risk is `NaN` (not
0.3 * min(value/50000, 2)), and the final premium is `NaN` while the one for
"standard" is 1620. -/
theorem unknown_category_inherited :
    "constructor" ∉ ["sedan", "suv", "truck", "sports", "luxury", "economy"] ∧
    "constructor" ∉ ["basic", "standard", "comprehensive", "premium"] ∧
    getProperty RiskAssessmentEngine.typeRisk "constructor" = JSVal.object ∧
    RiskAssessmentEngine.calculateVehicleRisk "constructor" 25000 = JSNum.nan ∧
    (PricingCalculator.calculatePremium (JSNum.num 0) (JSNum.num 1) "constructor").finalPremium
      = JSNum.nan ∧
    (PricingCalculator.calculatePremium (JSNum.num 0) (JSNum.num 1) "standard").finalPremium
      = JSNum.num 1620 := by
  refine ⟨by decide, by decide, rfl, rfl, rfl, ?_⟩
  rw [(PricingCalculator.calculatePremium_num 0 1 "standard" (by decide)).2.2.2.2,
    PricingCalculator.coverageMultiplier_lookup]
  simp only [String.reduceEq, if_false, if_true, Option.getD_some]
  norm_num

namespace InsurancePremiumCalculator

/-- C8 (amended): `calculateRiskProfile` raises nothing and has no default
multiplier: each of locationRisk, vehicleRisk, drivingRisk and
coverageMultiplier is a defined number exactly when the value of location,
vehicleType, drivingRecord, coverageType is a key of its lookup table, and the
returned totalRisk is a defined number exactly when all four values are keys
of their tables (it is `NaN` otherwise). -/
theorem calculateRiskProfile_defined_iff (data : ApplicantRecord) :
    ((calculateRiskProfile data).locationRisk.isNum = true ↔
      data.location ∈ ["urban", "suburban", "rural"]) ∧
    ((calculateRiskProfile data).vehicleRisk.isNum = true ↔
      data.vehicleType ∈ ["sedan", "suv", "truck", "sports", "luxury"]) ∧
    ((calculateRiskProfile data).drivingRisk.isNum = true ↔
      data.drivingRecord ∈ ["clean", "minor", "major", "severe"]) ∧
    ((calculateRiskProfile data).coverageMultiplier.isNum = true ↔
      data.coverageType ∈ ["liability", "collision", "comprehensive", "full"]) ∧
    ((calculateRiskProfile data).totalRisk.isNum = true ↔
      data.location ∈ ["urban", "suburban", "rural"] ∧
      data.vehicleType ∈ ["sedan", "suv", "truck", "sports", "luxury"] ∧
      data.drivingRecord ∈ ["clean", "minor", "major", "severe"] ∧
      data.coverageType ∈ ["liability", "collision", "comprehensive", "full"]) := by
  have hl := getProperty_toNumber_isNum locationTable data.location
  have hv := getProperty_toNumber_isNum vehicleTypeTable data.vehicleType
  have hd := getProperty_toNumber_isNum drivingTable data.drivingRecord
  have hc := getProperty_toNumber_isNum coverageTable data.coverageType
  have hl2 := getProperty_isNum locationTable data.location
  have hd2 := getProperty_isNum drivingTable data.drivingRecord
  have hc2 := getProperty_isNum coverageTable data.coverageType
  have kl : locationTable.map Prod.fst = ["urban", "suburban", "rural"] := rfl
  have kv : vehicleTypeTable.map Prod.fst = ["sedan", "suv", "truck", "sports", "luxury"] := rfl
  have kd : drivingTable.map Prod.fst = ["clean", "minor", "major", "severe"] := rfl
  have kc : coverageTable.map Prod.fst = ["liability", "collision", "comprehensive", "full"] :=
    rfl
  rw [kl] at hl hl2
  rw [kv] at hv
  rw [kd] at hd hd2
  rw [kc] at hc hc2
  refine ⟨hl2, ?_, hd2, hc2, ?_⟩
  · rw [← hv]
    simp only [calculateRiskProfile, JSNum.isNum_mul_iff, JSNum.isNum_num, true_and]
  · rw [← hl, ← hv, ← hd, ← hc]
    simp only [calculateRiskProfile, JSNum.isNum_mul_iff, JSNum.isNum_num, true_and, and_true,
      and_assoc]

/-- C8, as stated, fails: the vehicleType "economy" is not in the table, the
lookup gives `undefined`, and both the returned vehicleRisk and the returned
totalRisk are `NaN`. -/
theorem calculateRiskProfile_economy :
    getProperty vehicleTypeTable "economy" = JSVal.undefined ∧
    (calculateRiskProfile { defaultApplicant with vehicleType := "economy" }).vehicleRisk
      = JSNum.nan ∧
    (calculateRiskProfile { defaultApplicant with vehicleType := "economy" }).totalRisk
      = JSNum.nan := by
  have e : (getProperty vehicleTypeTable "economy").toNumber = JSNum.nan := rfl
  refine ⟨rfl, rfl, ?_⟩
  simp only [calculateRiskProfile, defaultApplicant, e, JSNum.mul_nan, JSNum.nan_mul]

end InsurancePremiumCalculator



/-! ## Market drift (C9, C10) -/

namespace InsurancePremiumCalculator

/-- One tick leaves the two clamped factors in their ranges, whatever the prior
state and the draws. -/
theorem marketDrift_clamped (s : MarketState) (r1 r2 r3 : ℚ) :
    (0.05 ≤ (marketDrift s r1 r2 r3).claimFrequency ∧
      (marketDrift s r1 r2 r3).claimFrequency ≤ 0.25) ∧
    (0.05 ≤ (marketDrift s r1 r2 r3).marketVolatility ∧
      (marketDrift s r1 r2 r3).marketVolatility ≤ 0.3) := by
  simp only [marketDrift]
  refine ⟨⟨le_max_left _ _, max_le (by norm_num) (min_le_left _ _)⟩,
    ⟨le_max_left _ _, max_le (by norm_num) (min_le_left _ _)⟩⟩

/-- The two ranges are preserved by any sequence of ticks. -/
theorem runDrift_clamped (draws : List (ℚ × ℚ × ℚ)) (s : MarketState)
    (hs : (0.05 ≤ s.claimFrequency ∧ s.claimFrequency ≤ 0.25) ∧
      (0.05 ≤ s.marketVolatility ∧ s.marketVolatility ≤ 0.3)) :
    (0.05 ≤ (runDrift s draws).claimFrequency ∧ (runDrift s draws).claimFrequency ≤ 0.25) ∧
    (0.05 ≤ (runDrift s draws).marketVolatility ∧
      (runDrift s draws).marketVolatility ≤ 0.3) := by
  induction draws generalizing s with
  | nil => exact hs
  | cons d ds ih =>
    have step : runDrift s (d :: ds) = runDrift (marketDrift s d.1 d.2.1 d.2.2) ds := rfl
    rw [step]
    exact ih _ (marketDrift_clamped s d.1 d.2.1 d.2.2)

/-- C9: for every prior market state and every triple of random draws in [0,1),
one tick of the drift leaves claimFrequency in [0.05, 0.25] and marketVolatility
in [0.05, 0.3]; and starting from the defaults (0.12 and 0.15), both are in those
ranges after any sequence of ticks with draws in [0,1). -/
theorem drift_keeps_clamped_ranges (s : MarketState) (r1 r2 r3 : ℚ)
    (draws : List (ℚ × ℚ × ℚ))
    (_h1 : 0 ≤ r1 ∧ r1 < 1) (_h2 : 0 ≤ r2 ∧ r2 < 1) (_h3 : 0 ≤ r3 ∧ r3 < 1)
    (_hd : ∀ d ∈ draws, (0 ≤ d.1 ∧ d.1 < 1) ∧ (0 ≤ d.2.1 ∧ d.2.1 < 1) ∧
      (0 ≤ d.2.2 ∧ d.2.2 < 1)) :
    ((0.05 ≤ (marketDrift s r1 r2 r3).claimFrequency ∧
        (marketDrift s r1 r2 r3).claimFrequency ≤ 0.25) ∧
      (0.05 ≤ (marketDrift s r1 r2 r3).marketVolatility ∧
        (marketDrift s r1 r2 r3).marketVolatility ≤ 0.3)) ∧
    (initialMarket.claimFrequency = 0.12 ∧ initialMarket.marketVolatility = 0.15) ∧
    ((0.05 ≤ (runDrift initialMarket draws).claimFrequency ∧
        (runDrift initialMarket draws).claimFrequency ≤ 0.25) ∧
      (0.05 ≤ (runDrift initialMarket draws).marketVolatility ∧
        (runDrift initialMarket draws).marketVolatility ≤ 0.3)) := by
  refine ⟨marketDrift_clamped s r1 r2 r3, ⟨rfl, rfl⟩, runDrift_clamped draws initialMarket ?_⟩
  norm_num [initialMarket]

/-- C9, witness: a state outside both ranges, the draws 0, 1/2 and 9/10, and
two ticks from the defaults. -/
theorem drift_keeps_clamped_ranges_witness :
    ((0.05 ≤ (marketDrift ⟨1, 7, 0, -3⟩ 0 (1 / 2) (9 / 10)).claimFrequency ∧
        (marketDrift ⟨1, 7, 0, -3⟩ 0 (1 / 2) (9 / 10)).claimFrequency ≤ 0.25) ∧
      (0.05 ≤ (marketDrift ⟨1, 7, 0, -3⟩ 0 (1 / 2) (9 / 10)).marketVolatility ∧
        (marketDrift ⟨1, 7, 0, -3⟩ 0 (1 / 2) (9 / 10)).marketVolatility ≤ 0.3)) ∧
    ((0.05 ≤ (runDrift initialMarket [(0, 0, 0), (1 / 2, 0, 9 / 10)]).claimFrequency ∧
        (runDrift initialMarket [(0, 0, 0), (1 / 2, 0, 9 / 10)]).claimFrequency ≤ 0.25) ∧
      (0.05 ≤ (runDrift initialMarket [(0, 0, 0), (1 / 2, 0, 9 / 10)]).marketVolatility ∧
        (runDrift initialMarket [(0, 0, 0), (1 / 2, 0, 9 / 10)]).marketVolatility ≤ 0.3)) := by
  have h := drift_keeps_clamped_ranges ⟨1, 7, 0, -3⟩ 0 (1 / 2) (9 / 10)
    [(0, 0, 0), (1 / 2, 0, 9 / 10)] (by norm_num) (by norm_num) (by norm_num)
    (by
      intro d hd
      simp only [List.mem_cons, List.mem_singleton, List.not_mem_nil, or_false] at hd
      rcases hd with rfl | rfl <;> norm_num)
  exact ⟨h.1, h.2.2⟩

/-- With every draw equal to 0, each tick lowers competitorIndex by 0.01. -/
theorem runDrift_zero_draws (n : ℕ) (s : MarketState) :
    (runDrift s (List.replicate n (0, 0, 0))).competitorIndex = s.competitorIndex - n * 0.01 := by
  induction n generalizing s with
  | zero => simp [runDrift]
  | succ k ih =>
    have step : runDrift s (List.replicate (k + 1) (0, 0, 0))
        = runDrift (marketDrift s 0 0 0) (List.replicate k (0, 0, 0)) := rfl
    rw [step, ih]
    simp only [marketDrift]
    push_cast
    ring

end InsurancePremiumCalculator

namespace MarketAnalyzer

/-- With every draw equal to 0, each update lowers competitiveIndex by 0.01. -/
theorem runUpdates_zero_draws (n : ℕ) (mc : MarketConditions) :
    (runUpdates mc (List.replicate n (0, 0, 0))).competitiveIndex
      = mc.competitiveIndex - n * 0.01 := by
  induction n generalizing mc with
  | zero => simp [runUpdates]
  | succ k ih =>
    have step : runUpdates mc (List.replicate (k + 1) (0, 0, 0))
        = runUpdates (updateMarketConditions mc 0 0 0) (List.replicate k (0, 0, 0)) := rfl
    rw [step, ih]
    simp only [updateMarketConditions]
    push_cast
    ring

/-- One update moves each perturbed factor by at most 0.01, 0.005 and 0.005
when the draws are in [0,1), and leaves the two other factors alone. -/
theorem updateMarketConditions_step (mc : MarketConditions) (r1 r2 r3 : ℚ)
    (h1 : 0 ≤ r1 ∧ r1 < 1) (h2 : 0 ≤ r2 ∧ r2 < 1) (h3 : 0 ≤ r3 ∧ r3 < 1) :
    |(updateMarketConditions mc r1 r2 r3).competitiveIndex - mc.competitiveIndex| ≤ 0.01 ∧
    |(updateMarketConditions mc r1 r2 r3).economicFactor - mc.economicFactor| ≤ 0.005 ∧
    |(updateMarketConditions mc r1 r2 r3).claimsTrend - mc.claimsTrend| ≤ 0.005 := by
  simp only [updateMarketConditions]
  refine ⟨abs_le.mpr ⟨?_, ?_⟩, abs_le.mpr ⟨?_, ?_⟩, abs_le.mpr ⟨?_, ?_⟩⟩ <;>
    linarith [h1.1, h1.2, h2.1, h2.2, h3.1, h3.2]

/-- After a sequence of updates with draws in [0,1), each perturbed factor is
within the number of updates times its step of where it started. -/
theorem runUpdates_drift (draws : List (ℚ × ℚ × ℚ)) (mc : MarketConditions)
    (hd : ∀ d ∈ draws, (0 ≤ d.1 ∧ d.1 < 1) ∧ (0 ≤ d.2.1 ∧ d.2.1 < 1) ∧
      (0 ≤ d.2.2 ∧ d.2.2 < 1)) :
    |(runUpdates mc draws).competitiveIndex - mc.competitiveIndex| ≤ 0.01 * draws.length ∧
    |(runUpdates mc draws).economicFactor - mc.economicFactor| ≤ 0.005 * draws.length ∧
    |(runUpdates mc draws).claimsTrend - mc.claimsTrend| ≤ 0.005 * draws.length := by
  induction draws generalizing mc with
  | nil => simp [runUpdates]
  | cons d ds ih =>
    have step : runUpdates mc (d :: ds)
        = runUpdates (updateMarketConditions mc d.1 d.2.1 d.2.2) ds := rfl
    have hd0 := hd d (List.mem_cons_self _ _)
    obtain ⟨a1, a2, a3⟩ := updateMarketConditions_step mc d.1 d.2.1 d.2.2 hd0.1 hd0.2.1 hd0.2.2
    obtain ⟨b1, b2, b3⟩ := ih (updateMarketConditions mc d.1 d.2.1 d.2.2)
      (fun x hx => hd x (List.mem_cons_of_mem _ hx))
    rw [step]
    simp only [List.length_cons]
    push_cast
    rw [abs_le] at a1 a2 a3 b1 b2 b3 ⊢
    rw [abs_le, abs_le]
    refine ⟨⟨?_, ?_⟩, ⟨?_, ?_⟩, ⟨?_, ?_⟩⟩ <;> linarith [a1.1, a1.2, a2.1, a2.2, a3.1, a3.2,
      b1.1, b1.2, b2.1, b2.2, b3.1, b3.2]

end MarketAnalyzer

/-- C10 (amended): under `MarketAnalyzer.updateMarketConditions` the perturbed
factors are not clamped; after n updates with draws in [0,1), starting from the
initial defaults, competitiveIndex is within 0.01 * n of 0.85, economicFactor
within 0.005 * n of 0.98, and claimsTrend within 0.005 * n of 1.05. -/
theorem market_factors_drift_linearly (draws : List (ℚ × ℚ × ℚ))
    (hd : ∀ d ∈ draws, (0 ≤ d.1 ∧ d.1 < 1) ∧ (0 ≤ d.2.1 ∧ d.2.1 < 1) ∧
      (0 ≤ d.2.2 ∧ d.2.2 < 1)) :
    |(MarketAnalyzer.runUpdates MarketAnalyzer.initialConditions draws).competitiveIndex - 0.85|
      ≤ 0.01 * draws.length ∧
    |(MarketAnalyzer.runUpdates MarketAnalyzer.initialConditions draws).economicFactor - 0.98|
      ≤ 0.005 * draws.length ∧
    |(MarketAnalyzer.runUpdates MarketAnalyzer.initialConditions draws).claimsTrend - 1.05|
      ≤ 0.005 * draws.length :=
  MarketAnalyzer.runUpdates_drift draws MarketAnalyzer.initialConditions hd

/-- C10, witness: two updates with the draws (0, 1/2, 9/10) and (1/4, 0, 0). -/
theorem market_factors_drift_linearly_witness :
    |(MarketAnalyzer.runUpdates MarketAnalyzer.initialConditions
        [(0, 1 / 2, 9 / 10), (1 / 4, 0, 0)]).competitiveIndex - 0.85| ≤ 0.01 * 2 ∧
    |(MarketAnalyzer.runUpdates MarketAnalyzer.initialConditions
        [(0, 1 / 2, 9 / 10), (1 / 4, 0, 0)]).economicFactor - 0.98| ≤ 0.005 * 2 ∧
    |(MarketAnalyzer.runUpdates MarketAnalyzer.initialConditions
        [(0, 1 / 2, 9 / 10), (1 / 4, 0, 0)]).claimsTrend - 1.05| ≤ 0.005 * 2 := by
  have h := market_factors_drift_linearly [(0, 1 / 2, 9 / 10), (1 / 4, 0, 0)]
    (by
      intro d hd
      simp only [List.mem_cons, List.mem_singleton, List.not_mem_nil, or_false] at hd
      rcases hd with rfl | rfl <;> norm_num)
  simpa using h

/-- C10, as stated, fails: no fixed range holds all perturbed factors after
every number of ticks.  With every draw equal to 0, n updates bring
competitiveIndex to 0.85 - 0.01 * n, below any lower bound. -/
theorem market_factors_unbounded :
    ¬ ∃ L U : ℚ, L ≤ U ∧ ∀ draws : List (ℚ × ℚ × ℚ),
      (∀ d ∈ draws, (0 ≤ d.1 ∧ d.1 < 1) ∧ (0 ≤ d.2.1 ∧ d.2.1 < 1) ∧ (0 ≤ d.2.2 ∧ d.2.2 < 1)) →
      (L ≤ (MarketAnalyzer.runUpdates MarketAnalyzer.initialConditions draws).competitiveIndex ∧
        (MarketAnalyzer.runUpdates MarketAnalyzer.initialConditions draws).competitiveIndex ≤ U) ∧
      (L ≤ (MarketAnalyzer.runUpdates MarketAnalyzer.initialConditions draws).economicFactor ∧
        (MarketAnalyzer.runUpdates MarketAnalyzer.initialConditions draws).economicFactor ≤ U) ∧
      (L ≤ (MarketAnalyzer.runUpdates MarketAnalyzer.initialConditions draws).claimsTrend ∧
        (MarketAnalyzer.runUpdates MarketAnalyzer.initialConditions draws).claimsTrend ≤ U) ∧
      (L ≤ (InsurancePremiumCalculator.runDrift InsurancePremiumCalculator.initialMarket
          draws).competitorIndex ∧
        (InsurancePremiumCalculator.runDrift InsurancePremiumCalculator.initialMarket
          draws).competitorIndex ≤ U) := by
  rintro ⟨L, U, -, h⟩
  obtain ⟨n, hn⟩ := exists_nat_gt ((0.85 - L) * 100)
  have hz : ∀ d ∈ List.replicate n ((0, 0, 0) : ℚ × ℚ × ℚ),
      (0 ≤ d.1 ∧ d.1 < 1) ∧ (0 ≤ d.2.1 ∧ d.2.1 < 1) ∧ (0 ≤ d.2.2 ∧ d.2.2 < 1) := by
    intro d hd
    rw [List.eq_of_mem_replicate hd]
    norm_num
  have h1 := (h _ hz).1.1
  rw [MarketAnalyzer.runUpdates_zero_draws] at h1
  have e : MarketAnalyzer.initialConditions.competitiveIndex = 0.85 := rfl
  rw [e] at h1
  linarith

/-! ## The quote (C11) -/

namespace RiskAssessmentEngine

/-- The seven sub-scores of the default applicant of the form. -/
theorem defaultApplicant_subscores :
    calculateAgeRisk 30 = 0.245 ∧ calculateDrivingRisk 0 0 = 0.1 ∧
    calculateVehicleRisk "sedan" 25000 = JSNum.num 0.1 ∧
    calculateLocationRisk "12345" = 0.2 ∧ calculateCreditRisk 700 = 0.2 ∧
    calculateMileageRisk 12000 = 0.12 ∧ calculateExperienceRisk 10 = 0.2 := by
  have hloc : calculateLocationRisk "12345" = 0.2 := by
    have hp : parseIntLast "12345" = some 5 := by decide
    simp [calculateLocationRisk, hp]
  have hveh : calculateVehicleRisk "sedan" 25000 = JSNum.num 0.1 := by
    rw [calculateVehicleRisk_num _ _ (by decide), typeRisk_lookup]
    simp only [if_true, Option.getD_some]
    norm_num
  have hage : calculateAgeRisk 30 = 0.245 := by
    have e : |(30 : ℚ) - 45| = 15 := by rw [abs_of_nonpos (by norm_num)]; norm_num
    unfold calculateAgeRisk
    rw [e]
    norm_num
  refine ⟨hage, ?_, hveh, hloc, ?_, ?_, ?_⟩
  · norm_num [calculateDrivingRisk]
  · norm_num [calculateCreditRisk]
  · norm_num [calculateMileageRisk]
  · norm_num [calculateExperienceRisk]

end RiskAssessmentEngine

/-- Away from the inherited names, the final premium of the quote is a number:
the pipeline applied to the total score and to the adjustment of the updated
market conditions. -/
theorem calculateQuote_finalPremium (d : ApplicantData) (mc : MarketConditions)
    (r1 r2 r3 : ℚ) (month : ℕ) (timestamp : String)
    (hv : d.vehicleType ∉ objectPrototypeKeys) (hc : d.coverageLevel ∉ objectPrototypeKeys) :
    ∃ t : ℚ, (RiskAssessmentEngine.calculateRiskScore d).totalScore = JSNum.num t ∧
      0 ≤ t ∧ t ≤ 1 ∧
      (calculateQuote d mc r1 r2 r3 month timestamp).2.pricing.finalPremium =
        JSNum.num (1200 * (1 + 2 * t)
          * (PricingCalculator.coverageMultiplier.lookup d.coverageLevel).getD 1.0
          * (MarketAnalyzer.getMarketAdjustment
              (MarketAnalyzer.updateMarketConditions mc r1 r2 r3) month).adjustment
          * (1 + 0.15 + 0.12 + 0.08)) := by
  obtain ⟨v, S, -, -, htot, -⟩ := RiskAssessmentEngine.calculateRiskScore_num d hv
  refine ⟨_, htot, le_min (le_max_right _ _) (by norm_num), min_le_right _ _, ?_⟩
  have e : (calculateQuote d mc r1 r2 r3 month timestamp).2.pricing =
      PricingCalculator.calculatePremium (RiskAssessmentEngine.calculateRiskScore d).totalScore
        (JSNum.num (MarketAnalyzer.getMarketAdjustment
          (MarketAnalyzer.updateMarketConditions mc r1 r2 r3) month).adjustment)
        d.coverageLevel := rfl
  rw [e, htot]
  exact (PricingCalculator.calculatePremium_num _ _ _ hc).2.2.2.2

/-- The adjustment after an update, written out. -/
theorem adjustment_after_update (mc : MarketConditions) (r1 r2 r3 : ℚ) (month : ℕ) :
    (MarketAnalyzer.getMarketAdjustment
      (MarketAnalyzer.updateMarketConditions mc r1 r2 r3) month).adjustment =
      (mc.competitiveIndex + (r1 - 0.5) * 0.02)
        * (if month ≥ 10 ∨ month ≤ 2 then 1.08 else 0.95)
        * (mc.economicFactor + (r2 - 0.5) * 0.01) * mc.regulatoryFactor
        * (mc.claimsTrend + (r3 - 0.5) * 0.01) := rfl

/-- C11 (amended): the finalPremium of the quote built by `calculateQuote` is a
function of the applicant profile, the market state held before the call, the
three random draws consumed by `updateMarketConditions`, and the season of the
current month (month >= 10 or month <= 2, or not): two runs that agree on these
produce the same finalPremium, whatever the month within the season and
whatever the time stamp. -/
theorem quote_finalPremium_determined (d : ApplicantData) (mc : MarketConditions)
    (r1 r2 r3 : ℚ) (month month2 : ℕ) (timestamp timestamp2 : String)
    (hseason : (month ≥ 10 ∨ month ≤ 2) ↔ (month2 ≥ 10 ∨ month2 ≤ 2)) :
    (calculateQuote d mc r1 r2 r3 month timestamp).2.pricing.finalPremium =
      (calculateQuote d mc r1 r2 r3 month2 timestamp2).2.pricing.finalPremium := by
  have e : ∀ (m : ℕ) (ts : String), (calculateQuote d mc r1 r2 r3 m ts).2.pricing =
      PricingCalculator.calculatePremium (RiskAssessmentEngine.calculateRiskScore d).totalScore
        (JSNum.num (MarketAnalyzer.getMarketAdjustment
          (MarketAnalyzer.updateMarketConditions mc r1 r2 r3) m).adjustment)
        d.coverageLevel := fun _ _ => rfl
  rw [e, e, adjustment_after_update, adjustment_after_update]
  by_cases h : month ≥ 10 ∨ month ≤ 2
  · rw [if_pos h, if_pos (hseason.mp h)]
  · rw [if_neg h, if_neg (fun h2 => h (hseason.mpr h2))]

/-- C11, witness: December and February, with different time stamps. -/
theorem quote_finalPremium_determined_witness :
    ((11 ≥ 10 ∨ 11 ≤ 2) ↔ (1 ≥ 10 ∨ 1 ≤ 2)) ∧
    (calculateQuote defaultApplicant MarketAnalyzer.initialConditions 0.5 0.5 0.5 11
        "2024-12-01T00:00:00.000Z").2.pricing.finalPremium =
      (calculateQuote defaultApplicant MarketAnalyzer.initialConditions 0.5 0.5 0.5 1
        "2025-02-01T00:00:00.000Z").2.pricing.finalPremium :=
  ⟨by decide, quote_finalPremium_determined defaultApplicant MarketAnalyzer.initialConditions
    0.5 0.5 0.5 11 1 _ _ (by decide)⟩

/-- C11, as stated, fails: with the same profile and the same prior market
state, the final premium changes with the first random draw (0.5 against 0),
and it changes with the calendar month (January against June). -/
theorem quote_finalPremium_depends_on_draws_and_month :
    (calculateQuote defaultApplicant MarketAnalyzer.initialConditions 0.5 0.5 0.5 0
        "t").2.pricing.finalPremium ≠
      (calculateQuote defaultApplicant MarketAnalyzer.initialConditions 0 0.5 0.5 0
        "t").2.pricing.finalPremium ∧
    (calculateQuote defaultApplicant MarketAnalyzer.initialConditions 0.5 0.5 0.5 0
        "t").2.pricing.finalPremium ≠
      (calculateQuote defaultApplicant MarketAnalyzer.initialConditions 0.5 0.5 0.5 5
        "t").2.pricing.finalPremium := by
  have hv : defaultApplicant.vehicleType ∉ objectPrototypeKeys := by decide
  have hc : defaultApplicant.coverageLevel ∉ objectPrototypeKeys := by decide
  have hk : (PricingCalculator.coverageMultiplier.lookup defaultApplicant.coverageLevel).getD 1.0
      = 1 := by
    rw [PricingCalculator.coverageMultiplier_lookup]
    simp only [defaultApplicant, String.reduceEq, if_false, if_true, Option.getD_some]
    norm_num
  obtain ⟨t1, ht1, h0, -, f1⟩ := calculateQuote_finalPremium defaultApplicant
    MarketAnalyzer.initialConditions 0.5 0.5 0.5 0 "t" hv hc
  obtain ⟨t2, ht2, -, -, f2⟩ := calculateQuote_finalPremium defaultApplicant
    MarketAnalyzer.initialConditions 0 0.5 0.5 0 "t" hv hc
  obtain ⟨t3, ht3, -, -, f3⟩ := calculateQuote_finalPremium defaultApplicant
    MarketAnalyzer.initialConditions 0.5 0.5 0.5 5 "t" hv hc
  have e2 : t2 = t1 := JSNum.num.inj (ht2.symm.trans ht1)
  have e3 : t3 = t1 := JSNum.num.inj (ht3.symm.trans ht1)
  rw [f1, f2, f3, e2, e3, hk, adjustment_after_update, adjustment_after_update,
    adjustment_after_update]
  have hpos : (0 : ℚ) < 1200 * (1 + 2 * t1) * 1 := by nlinarith
  simp only [MarketAnalyzer.initialConditions]
  constructor
  · intro h
    have h2 := JSNum.num.inj h
    norm_num at h2
    nlinarith
  · intro h
    have h2 := JSNum.num.inj h
    norm_num at h2
    nlinarith

/-! ## The golden fixture (C13) -/

namespace RiskAssessmentEngine

/-- C13: for the default profile of the form (age 30, yearsLicensed 10, no
accidents or violations, a sedan worth 25000, zip code "12345", credit score
700, 12000 miles a year, coverage "standard"), `calculateRiskScore` returns
totalScore = 0.15535 and riskLevel "Low", and
`calculatePremium(0.15535, 1.0, "standard")` returns riskAdjustedPremium =
1572.84 and finalPremium = 2123.334, in exact decimal arithmetic. -/
theorem golden_fixture :
    defaultApplicant =
      { age := 30, yearsLicensed := 10, accidents := 0, violations := 0,
        vehicleType := "sedan", vehicleValue := 25000, zipCode := "12345",
        creditScore := 700, annualMileage := 12000, coverageLevel := "standard" } ∧
    (calculateRiskScore defaultApplicant).totalScore = JSNum.num 0.15535 ∧
    (calculateRiskScore defaultApplicant).riskLevel = "Low" ∧
    (PricingCalculator.calculatePremium (JSNum.num 0.15535) (JSNum.num 1.0)
      "standard").riskAdjustedPremium = JSNum.num 1572.84 ∧
    (PricingCalculator.calculatePremium (JSNum.num 0.15535) (JSNum.num 1.0)
      "standard").finalPremium = JSNum.num 2123.334 := by
  obtain ⟨hage, hdrv, hveh, hloc, hcr, hmil, hexp⟩ := defaultApplicant_subscores
  obtain ⟨v, S, hv, hS, htot, hlev⟩ := calculateRiskScore_num defaultApplicant (by decide)
  have hd : defaultApplicant =
      { age := 30, yearsLicensed := 10, accidents := 0, violations := 0,
        vehicleType := "sedan", vehicleValue := 25000, zipCode := "12345",
        creditScore := 700, annualMileage := 12000, coverageLevel := "standard" } := rfl
  have hv2 : v = 0.1 := by
    have := hv.symm.trans hveh
    exact JSNum.num.inj this
  have hS2 : S = 0.15535 := by
    rw [hS, hv2]
    show calculateAgeRisk 30 * 0.15 + calculateDrivingRisk 0 0 * 0.25 + 0.1 * 0.20
      + calculateLocationRisk "12345" * 0.15 + calculateCreditRisk 700 * 0.12
      + calculateMileageRisk 12000 * 0.08 + calculateExperienceRisk 10 * 0.05 = 0.15535
    rw [hage, hdrv, hloc, hcr, hmil, hexp]
    norm_num
  obtain ⟨-, hra, -, -, hfin⟩ := PricingCalculator.calculatePremium_num 0.15535 1.0 "standard"
    (by decide)
  refine ⟨hd, ?_, ?_, ?_, ?_⟩
  · rw [htot, hS2]; norm_num
  · rw [hlev, hS2]
    simp only [getRiskLevel, JSNum.lt_num_num]
    norm_num
  · rw [hra]; norm_num
  · rw [hfin, PricingCalculator.coverageMultiplier_lookup]
    simp only [String.reduceEq, if_false, if_true, Option.getD_some]
    norm_num

/-! ## The shape of the age curve (C14) -/

/-- C14: `calculateAgeRisk` is U-shaped over all ages: non-increasing up to 45,
non-decreasing from 45 on, with global minimum 0.2 attained at 45 (and only
there); every age below 25 or above 65 scores strictly higher than every age in
[25, 65]; and `calculateAgeRisk(16) = 0.8`, `calculateAgeRisk(45) = 0.2`,
`calculateAgeRisk(70) = 0.4`. -/
theorem calculateAgeRisk_u_shaped :
    (∀ a b : ℚ, a ≤ b → b ≤ 45 → calculateAgeRisk b ≤ calculateAgeRisk a) ∧
    (∀ a b : ℚ, 45 ≤ a → a ≤ b → calculateAgeRisk a ≤ calculateAgeRisk b) ∧
    (∀ a : ℚ, 0.2 ≤ calculateAgeRisk a) ∧
    (∀ a : ℚ, calculateAgeRisk a = 0.2 ↔ a = 45) ∧
    (∀ a b : ℚ, a < 25 ∨ 65 < a → 25 ≤ b → b ≤ 65 →
      calculateAgeRisk b < calculateAgeRisk a) ∧
    calculateAgeRisk 16 = 0.8 ∧ calculateAgeRisk 45 = 0.2 ∧ calculateAgeRisk 70 = 0.4 := by
  have mid : ∀ x : ℚ, 25 ≤ x → x ≤ 65 → calculateAgeRisk x = 0.2 + |x - 45| * 0.003 := by
    intro x h1 h2
    unfold calculateAgeRisk
    rw [if_neg (not_lt.mpr h1), if_neg (not_lt.mpr h2)]
  have low : ∀ x : ℚ, x < 25 → calculateAgeRisk x = 0.8 - (x - 16) * 0.05 := by
    intro x h
    unfold calculateAgeRisk
    rw [if_pos h]
  have high : ∀ x : ℚ, 65 < x → calculateAgeRisk x = 0.3 + (x - 65) * 0.02 := by
    intro x h
    unfold calculateAgeRisk
    rw [if_neg (by linarith), if_pos h]
  have midle : ∀ x : ℚ, 25 ≤ x → x ≤ 65 → calculateAgeRisk x ≤ 0.26 := by
    intro x h1 h2
    rw [mid x h1 h2]
    have : |x - 45| ≤ 20 := abs_le.mpr ⟨by linarith, by linarith⟩
    linarith
  refine ⟨?_, ?_, ?_, ?_, ?_, ?_, ?_, ?_⟩
  · intro a b hab hb
    rcases lt_or_le b 25 with hb25 | hb25
    · rw [low b hb25, low a (by linarith)]; linarith
    · rw [mid b hb25 (by linarith), abs_of_nonpos (by linarith)]
      rcases lt_or_le a 25 with ha25 | ha25
      · rw [low a ha25]; linarith
      · rw [mid a ha25 (by linarith), abs_of_nonpos (by linarith)]; linarith
  · intro a b ha hab
    rcases le_or_lt a 65 with ha65 | ha65
    · rw [mid a (by linarith) ha65, abs_of_nonneg (by linarith)]
      rcases le_or_lt b 65 with hb65 | hb65
      · rw [mid b (by linarith) hb65, abs_of_nonneg (by linarith)]; linarith
      · rw [high b hb65]; linarith
    · rw [high a ha65, high b (by linarith)]; linarith
  · intro a
    rcases lt_or_le a 25 with h | h
    · rw [low a h]; linarith
    · rcases le_or_lt a 65 with h2 | h2
      · rw [mid a h h2]; linarith [abs_nonneg (a - 45)]
      · rw [high a h2]; linarith
  · intro a
    constructor
    · intro h
      rcases lt_or_le a 25 with h1 | h1
      · rw [low a h1] at h; linarith
      · rcases le_or_lt a 65 with h2 | h2
        · rw [mid a h1 h2] at h
          have h0 : |a - 45| = 0 := by linarith
          have := abs_eq_zero.mp h0
          linarith
        · rw [high a h2] at h; linarith
    · rintro rfl
      rw [mid 45 (by norm_num) (by norm_num)]
      norm_num
  · intro a b ha hb1 hb2
    have hb := midle b hb1 hb2
    rcases ha with ha | ha
    · rw [low a ha]; linarith
    · rw [high a ha]; linarith
  · rw [low 16 (by norm_num)]; norm_num
  · rw [mid 45 (by norm_num) (by norm_num)]; norm_num
  · rw [high 70 (by norm_num)]; norm_num

end RiskAssessmentEngine

namespace MarketAnalyzer

/-! ## The market adjustment (C17) -/

/-- C17: for every market state and every month, `getMarketAdjustment` returns
adjustment = competitiveIndex * s * economicFactor * regulatoryFactor *
claimsTrend with s = 1.08 when the month is at least 10 or at most 2 and 0.95
otherwise; the adjustment is the product of the five reported factors; and the
stored seasonalFactor has no influence on the result. -/
theorem getMarketAdjustment_formula :
    (∀ (mc : MarketConditions) (month : ℕ),
      (getMarketAdjustment mc month).adjustment =
        mc.competitiveIndex * (if month ≥ 10 ∨ month ≤ 2 then 1.08 else 0.95)
          * mc.economicFactor * mc.regulatoryFactor * mc.claimsTrend) ∧
    (∀ (mc : MarketConditions) (month : ℕ),
      (getMarketAdjustment mc month).adjustment =
        (getMarketAdjustment mc month).factors.competitive
          * (getMarketAdjustment mc month).factors.seasonal
          * (getMarketAdjustment mc month).factors.economic
          * (getMarketAdjustment mc month).factors.regulatory
          * (getMarketAdjustment mc month).factors.claimsTrend) ∧
    (∀ (mc : MarketConditions) (month : ℕ) (x : ℚ),
      getMarketAdjustment { mc with seasonalFactor := x } month = getMarketAdjustment mc month) :=
  ⟨fun _ _ => rfl, fun _ _ => rfl, fun _ _ _ => rfl⟩

end MarketAnalyzer

namespace InsurancePremiumCalculator

/-! ## The multiplicative variant (C16, C19, and C12, C18 in exact arithmetic) -/

/-- The total of the multiplicative variant is 1.35 times its market-adjusted
premium, whatever that premium is. -/
theorem calculatePremium_loading (riskProfile : RiskProfile)
    (marketAnalysis : MarketAnalysisData) :
    (calculatePremium riskProfile marketAnalysis).totalPremium =
      (calculatePremium riskProfile marketAnalysis).marketAdjustedPremium * JSNum.num 1.35 := by
  simp only [calculatePremium]
  cases riskProfile.totalRisk with
  | nan => rfl
  | num t =>
    simp only [JSNum.num_div_num, JSNum.num_mul_num, JSNum.num_add_num]
    congr 1
    ring

/-- In exact arithmetic both variants apply the same total loading to the
market-adjusted premium.  When the multiplicative variant's
marketAdjustedPremium is the number M, it returns operationalCosts = 0.15*M,
profitMargin = 0.12*M, regulatoryReserve = 0.08*M and totalPremium = M +
operationalCosts + profitMargin + regulatoryReserve = 1.35*M; and when
`PricingCalculator.calculatePremium` reaches the same marketAdjustedPremium M,
its finalPremium is that same 1.35*M. -/
theorem exact_cost_loading (riskProfile : RiskProfile) (marketAnalysis : MarketAnalysisData)
    (riskScore marketAdjustment : JSNum) (coverageLevel : String) (M : ℚ)
    (hM : (calculatePremium riskProfile marketAnalysis).marketAdjustedPremium = JSNum.num M)
    (hW : (PricingCalculator.calculatePremium riskScore marketAdjustment
      coverageLevel).marketAdjustedPremium = JSNum.num M) :
    (calculatePremium riskProfile marketAnalysis).operationalCosts = JSNum.num (0.15 * M) ∧
    (calculatePremium riskProfile marketAnalysis).profitMargin = JSNum.num (0.12 * M) ∧
    (calculatePremium riskProfile marketAnalysis).regulatoryReserve = JSNum.num (0.08 * M) ∧
    (calculatePremium riskProfile marketAnalysis).totalPremium =
      JSNum.num (M + 0.15 * M + 0.12 * M + 0.08 * M) ∧
    (calculatePremium riskProfile marketAnalysis).totalPremium = JSNum.num (1.35 * M) ∧
    (PricingCalculator.calculatePremium riskScore marketAdjustment coverageLevel).finalPremium
      = JSNum.num (1.35 * M) ∧
    (calculatePremium riskProfile marketAnalysis).totalPremium =
      (PricingCalculator.calculatePremium riskScore marketAdjustment
        coverageLevel).finalPremium := by
  have e1 : (calculatePremium riskProfile marketAnalysis).operationalCosts =
      (calculatePremium riskProfile marketAnalysis).marketAdjustedPremium * JSNum.num 0.15 := rfl
  have e2 : (calculatePremium riskProfile marketAnalysis).profitMargin =
      (calculatePremium riskProfile marketAnalysis).marketAdjustedPremium * JSNum.num 0.12 := rfl
  have e3 : (calculatePremium riskProfile marketAnalysis).regulatoryReserve =
      (calculatePremium riskProfile marketAnalysis).marketAdjustedPremium * JSNum.num 0.08 := rfl
  have e4 := calculatePremium_loading riskProfile marketAnalysis
  have e5 : (PricingCalculator.calculatePremium riskScore marketAdjustment
      coverageLevel).finalPremium =
      (PricingCalculator.calculatePremium riskScore marketAdjustment
        coverageLevel).marketAdjustedPremium
        * JSNum.num (1 + PricingCalculator.profitMargin + PricingCalculator.operationalCosts
          + PricingCalculator.reserveRequirement) := rfl
  rw [hM] at e1 e2 e3 e4
  rw [hW] at e5
  have t : (calculatePremium riskProfile marketAnalysis).totalPremium = JSNum.num (1.35 * M) := by
    rw [e4, JSNum.num_mul_num, mul_comm]
  have f : (PricingCalculator.calculatePremium riskScore marketAdjustment
      coverageLevel).finalPremium = JSNum.num (1.35 * M) := by
    rw [e5, JSNum.num_mul_num]
    congr 1
    norm_num [PricingCalculator.profitMargin, PricingCalculator.operationalCosts,
      PricingCalculator.reserveRequirement]
    ring
  refine ⟨?_, ?_, ?_, ?_, t, f, t.trans f.symm⟩
  · rw [e1, JSNum.num_mul_num, mul_comm]
  · rw [e2, JSNum.num_mul_num, mul_comm]
  · rw [e3, JSNum.num_mul_num, mul_comm]
  · rw [t]; congr 1; ring

/-- C19: for every market state, hour of day and day of week,
`analyzeMarketConditions` returns overallMarketFactor = competitorIndex *
(1 + 2*(claimFrequency - 0.1)) * (1 + inflationRate) * w with w = 0.95 when the
day is 0 or 6 and 1 otherwise; the factor, and the totalPremium that
`calculatePremium` computes from it, is the same for every hour of day and every
value of marketVolatility. -/
theorem overallMarketFactor_formula :
    (∀ (mc : MarketState) (h d : ℕ),
      (analyzeMarketConditions mc h d).overallMarketFactor =
        mc.competitorIndex * (1 + 2 * (mc.claimFrequency - 0.1)) * (1 + mc.inflationRate)
          * (if d = 0 ∨ d = 6 then 0.95 else 1)) ∧
    (∀ (mc : MarketState) (h h2 d : ℕ) (v : ℚ),
      (analyzeMarketConditions { mc with marketVolatility := v } h2 d).overallMarketFactor =
        (analyzeMarketConditions mc h d).overallMarketFactor) ∧
    (∀ (riskProfile : RiskProfile) (mc : MarketState) (h h2 d : ℕ) (v : ℚ),
      (calculatePremium riskProfile
          (analyzeMarketConditions { mc with marketVolatility := v } h2 d)).totalPremium =
        (calculatePremium riskProfile (analyzeMarketConditions mc h d)).totalPremium) := by
  refine ⟨?_, fun _ _ _ _ _ => rfl, fun _ _ _ _ _ _ => rfl⟩
  intro mc h d
  simp only [analyzeMarketConditions]
  split_ifs <;> ring

end InsurancePremiumCalculator

/-- An own key looks up as the number the table holds for it. -/
theorem getProperty_of_mem (table : List (String × ℚ)) (key : String)
    (h : key ∈ table.map Prod.fst) :
    ∃ q : ℚ, table.lookup key = some q ∧ getProperty table key = JSVal.num q := by
  have h1 := (lookup_isSome_iff table key).mpr h
  obtain ⟨q, hq⟩ := Option.isSome_iff_exists.mp h1
  exact ⟨q, hq, getProperty_own table key q hq⟩

namespace InsurancePremiumCalculator

/-- In exact arithmetic, for every applicant record whose location,
vehicleType, drivingRecord and coverageType are in the lookup tables,
`calculateRiskProfile` returns totalRisk = 100 * ageRisk * genderRisk *
locationRisk * vehicleAgeRisk * vehicleTypeRisk * drivingRisk * creditRisk *
mileageRisk * coverageMultiplier, unclamped, the returned vehicleRisk is the
vehicle-age multiplier times the vehicle-type multiplier, and totalRisk is the
product of the returned fields baseRisk, ageRisk, genderRisk, locationRisk,
vehicleRisk, drivingRisk, creditRisk, mileageRisk and coverageMultiplier. -/
theorem exact_totalRisk_product (data : ApplicantRecord)
    (hl : data.location ∈ ["urban", "suburban", "rural"])
    (hv : data.vehicleType ∈ ["sedan", "suv", "truck", "sports", "luxury"])
    (hd : data.drivingRecord ∈ ["clean", "minor", "major", "severe"])
    (hc : data.coverageType ∈ ["liability", "collision", "comprehensive", "full"]) :
    ∃ l va vt dr cm vr : ℚ,
      locationTable.lookup data.location = some l ∧
      va = (if 2024 - data.vehicleYear < 3 then 1.2
        else if 2024 - data.vehicleYear < 8 then 1.0 else 0.9) ∧
      vehicleTypeTable.lookup data.vehicleType = some vt ∧
      drivingTable.lookup data.drivingRecord = some dr ∧
      coverageTable.lookup data.coverageType = some cm ∧
      (calculateRiskProfile data).baseRisk = 100 ∧
      (calculateRiskProfile data).locationRisk = JSVal.num l ∧
      (calculateRiskProfile data).vehicleRisk = JSNum.num vr ∧ vr = va * vt ∧
      (calculateRiskProfile data).drivingRisk = JSVal.num dr ∧
      (calculateRiskProfile data).coverageMultiplier = JSVal.num cm ∧
      (calculateRiskProfile data).totalRisk =
        JSNum.num (100 * (calculateRiskProfile data).ageRisk
          * (calculateRiskProfile data).genderRisk * l * va * vt * dr
          * (calculateRiskProfile data).creditRisk * (calculateRiskProfile data).mileageRisk
          * cm) ∧
      (calculateRiskProfile data).totalRisk =
        JSNum.num ((calculateRiskProfile data).baseRisk * (calculateRiskProfile data).ageRisk
          * (calculateRiskProfile data).genderRisk * l * vr * dr
          * (calculateRiskProfile data).creditRisk * (calculateRiskProfile data).mileageRisk
          * cm) := by
  obtain ⟨l, hl1, hl2⟩ := getProperty_of_mem locationTable data.location hl
  obtain ⟨vt, hv1, hv2⟩ := getProperty_of_mem vehicleTypeTable data.vehicleType hv
  obtain ⟨dr, hd1, hd2⟩ := getProperty_of_mem drivingTable data.drivingRecord hd
  obtain ⟨cm, hc1, hc2⟩ := getProperty_of_mem coverageTable data.coverageType hc
  refine ⟨l, _, vt, dr, cm, _, hl1, rfl, hv1, hd1, hc1, rfl, hl2, ?_, rfl, hd2, hc2, ?_, ?_⟩
  · simp only [calculateRiskProfile, hv2, JSVal.toNumber, JSNum.num_mul_num]
  · simp only [calculateRiskProfile, hl2, hv2, hd2, hc2, JSVal.toNumber, JSNum.num_mul_num]
  · simp only [calculateRiskProfile, hl2, hv2, hd2, hc2, JSVal.toNumber, JSNum.num_mul_num]
    congr 1
    ring

/-! ## The explanation (C16) -/

/-- One rule with two branches appends at most one of its two messages. -/
theorem push_pair (l : List String) (a b : Prop) [Decidable a] [Decidable b] (x y : String) :
    (if a then l ++ [x] else if b then l ++ [y] else l) =
      l ++ (if a then [x] else []) ++ (if ¬ a ∧ b then [y] else []) := by
  by_cases ha : a <;> by_cases hb : b <;> simp [ha, hb]

/-- One rule with one branch appends its message or nothing. -/
theorem push_one (l : List String) (a : Prop) [Decidable a] (x : String) :
    (if a then l ++ [x] else l) = l ++ (if a then [x] else []) := by
  by_cases ha : a <;> simp [ha]

/-- The explanation is the concatenation, in the order of the rules, of the
message of each rule that fires. -/
theorem generateExplanation_append (riskProfile : RiskProfile)
    (marketAnalysis : MarketAnalysisData) (premium : PremiumBreakdown) :
    generateExplanation riskProfile marketAnalysis premium =
      (if riskProfile.ageRisk > 1.1
        then ["Higher premium due to age-related risk factors"] else [])
      ++ (if ¬ riskProfile.ageRisk > 1.1 ∧ riskProfile.ageRisk < 0.95
        then ["Lower premium for experienced driver age group"] else [])
      ++ (if (JSNum.num 1.5).lt riskProfile.drivingRisk.toNumber = true
        then ["Significant increase due to driving record violations"] else [])
      ++ (if ¬ (JSNum.num 1.5).lt riskProfile.drivingRisk.toNumber = true
          ∧ riskProfile.drivingRisk.toNumber.lt (JSNum.num 0.9) = true
        then ["Discount applied for clean driving record"] else [])
      ++ (if riskProfile.creditRisk > 1.2
        then ["Credit score impact increases premium"] else [])
      ++ (if ¬ riskProfile.creditRisk > 1.2 ∧ riskProfile.creditRisk < 0.9
        then ["Excellent credit score provides discount"] else [])
      ++ (if marketAnalysis.competitivePressure < 0.9
        then ["Market competition provides pricing advantage"] else [])
      ++ (if marketAnalysis.claimsImpact > 1.1
        then ["Current market claims frequency affects pricing"] else []) := by
  unfold generateExplanation
  dsimp only
  rw [push_one _ (marketAnalysis.claimsImpact > 1.1),
    push_one _ (marketAnalysis.competitivePressure < 0.9),
    push_pair _ (riskProfile.creditRisk > 1.2) (riskProfile.creditRisk < 0.9),
    push_pair _ ((JSNum.num 1.5).lt riskProfile.drivingRisk.toNumber = true)
      (riskProfile.drivingRisk.toNumber.lt (JSNum.num 0.9) = true),
    push_pair _ (riskProfile.ageRisk > 1.1) (riskProfile.ageRisk < 0.95), List.nil_append]

/-- C16: for every riskProfile and marketAnalysis, `generateExplanation` returns
the messages whose rule fires, in the order of the fixed list (age-higher,
age-lower, driving-increase, driving-discount, credit-increase,
credit-discount, market-competition, claims-frequency): it is a sublist of that
list, a message is present iff its rule fires, the two messages of a pair never
both appear, there are at most 5 entries, and the premium argument has no
influence. -/
theorem generateExplanation_rules (riskProfile : RiskProfile)
    (marketAnalysis : MarketAnalysisData) (premium premium2 : PremiumBreakdown) :
    generateExplanation riskProfile marketAnalysis premium =
      (if riskProfile.ageRisk > 1.1
        then ["Higher premium due to age-related risk factors"] else [])
      ++ (if ¬ riskProfile.ageRisk > 1.1 ∧ riskProfile.ageRisk < 0.95
        then ["Lower premium for experienced driver age group"] else [])
      ++ (if (JSNum.num 1.5).lt riskProfile.drivingRisk.toNumber = true
        then ["Significant increase due to driving record violations"] else [])
      ++ (if ¬ (JSNum.num 1.5).lt riskProfile.drivingRisk.toNumber = true
          ∧ riskProfile.drivingRisk.toNumber.lt (JSNum.num 0.9) = true
        then ["Discount applied for clean driving record"] else [])
      ++ (if riskProfile.creditRisk > 1.2
        then ["Credit score impact increases premium"] else [])
      ++ (if ¬ riskProfile.creditRisk > 1.2 ∧ riskProfile.creditRisk < 0.9
        then ["Excellent credit score provides discount"] else [])
      ++ (if marketAnalysis.competitivePressure < 0.9
        then ["Market competition provides pricing advantage"] else [])
      ++ (if marketAnalysis.claimsImpact > 1.1
        then ["Current market claims frequency affects pricing"] else []) ∧
    List.Sublist (generateExplanation riskProfile marketAnalysis premium)
      ["Higher premium due to age-related risk factors",
       "Lower premium for experienced driver age group",
       "Significant increase due to driving record violations",
       "Discount applied for clean driving record",
       "Credit score impact increases premium",
       "Excellent credit score provides discount",
       "Market competition provides pricing advantage",
       "Current market claims frequency affects pricing"] ∧
    ("Higher premium due to age-related risk factors" ∈
        generateExplanation riskProfile marketAnalysis premium ↔
      riskProfile.ageRisk > 1.1) ∧
    ("Lower premium for experienced driver age group" ∈
        generateExplanation riskProfile marketAnalysis premium ↔
      ¬ riskProfile.ageRisk > 1.1 ∧ riskProfile.ageRisk < 0.95) ∧
    ("Significant increase due to driving record violations" ∈
        generateExplanation riskProfile marketAnalysis premium ↔
      (JSNum.num 1.5).lt riskProfile.drivingRisk.toNumber = true) ∧
    ("Discount applied for clean driving record" ∈
        generateExplanation riskProfile marketAnalysis premium ↔
      ¬ (JSNum.num 1.5).lt riskProfile.drivingRisk.toNumber = true
        ∧ riskProfile.drivingRisk.toNumber.lt (JSNum.num 0.9) = true) ∧
    ("Credit score impact increases premium" ∈
        generateExplanation riskProfile marketAnalysis premium ↔
      riskProfile.creditRisk > 1.2) ∧
    ("Excellent credit score provides discount" ∈
        generateExplanation riskProfile marketAnalysis premium ↔
      ¬ riskProfile.creditRisk > 1.2 ∧ riskProfile.creditRisk < 0.9) ∧
    ("Market competition provides pricing advantage" ∈
        generateExplanation riskProfile marketAnalysis premium ↔
      marketAnalysis.competitivePressure < 0.9) ∧
    ("Current market claims frequency affects pricing" ∈
        generateExplanation riskProfile marketAnalysis premium ↔
      marketAnalysis.claimsImpact > 1.1) ∧
    ¬ ("Higher premium due to age-related risk factors" ∈
          generateExplanation riskProfile marketAnalysis premium ∧
        "Lower premium for experienced driver age group" ∈
          generateExplanation riskProfile marketAnalysis premium) ∧
    ¬ ("Significant increase due to driving record violations" ∈
          generateExplanation riskProfile marketAnalysis premium ∧
        "Discount applied for clean driving record" ∈
          generateExplanation riskProfile marketAnalysis premium) ∧
    ¬ ("Credit score impact increases premium" ∈
          generateExplanation riskProfile marketAnalysis premium ∧
        "Excellent credit score provides discount" ∈
          generateExplanation riskProfile marketAnalysis premium) ∧
    (generateExplanation riskProfile marketAnalysis premium).length ≤ 5 ∧
    generateExplanation riskProfile marketAnalysis premium2 =
      generateExplanation riskProfile marketAnalysis premium := by
  have key := generateExplanation_append riskProfile marketAnalysis premium
  have hlen : ∀ (c : Prop) [Decidable c] (x : String),
      (if c then [x] else ([] : List String)).length ≤ 1 := by
    intro c _ x
    split_ifs <;> simp
  have hpair : ∀ (a b : Prop) [Decidable a] [Decidable b] (x y : String),
      ((if a then [x] else ([] : List String)) ++ (if ¬ a ∧ b then [y] else [])).length ≤ 1 := by
    intro a b _ _ x y
    by_cases ha : a <;> by_cases hb : b <;> simp [ha, hb]
  have hsub : ∀ (c : Prop) [Decidable c] (x : String),
      List.Sublist (if c then [x] else ([] : List String)) [x] := by
    intro c _ x
    split_ifs <;> simp
  refine ⟨key, ?_, ?_, ?_, ?_, ?_, ?_, ?_, ?_, ?_, ?_, ?_, ?_, ?_, rfl⟩
  · rw [key]
    exact ((((((hsub _ _).append (hsub _ _)).append (hsub _ _)).append (hsub _ _)).append
      (hsub _ _)).append (hsub _ _)).append (hsub _ _) |>.append (hsub _ _)
  · rw [key]; simp
  · rw [key]; simp
  · rw [key]; simp
  · rw [key]; simp
  · rw [key]; simp
  · rw [key]; simp
  · rw [key]; simp
  · rw [key]; simp
  · rw [key]; simp
    intro h1 h2
    exact absurd h1 (by simpa using h2)
  · rw [key]; simp
    intro h1 h2
    exact absurd h1 (by simpa using h2)
  · rw [key]; simp
    intro h1 h2
    exact absurd h1 (by simpa using h2)
  · rw [key]
    simp only [List.length_append]
    have p1 := hpair (riskProfile.ageRisk > 1.1) (riskProfile.ageRisk < 0.95)
      "Higher premium due to age-related risk factors"
      "Lower premium for experienced driver age group"
    have p2 := hpair ((JSNum.num 1.5).lt riskProfile.drivingRisk.toNumber = true)
      (riskProfile.drivingRisk.toNumber.lt (JSNum.num 0.9) = true)
      "Significant increase due to driving record violations"
      "Discount applied for clean driving record"
    have p3 := hpair (riskProfile.creditRisk > 1.2) (riskProfile.creditRisk < 0.9)
      "Credit score impact increases premium"
      "Excellent credit score provides discount"
    have p4 := hlen (marketAnalysis.competitivePressure < 0.9)
      "Market competition provides pricing advantage"
    have p5 := hlen (marketAnalysis.claimsImpact > 1.1)
      "Current market claims frequency affects pricing"
    simp only [List.length_append] at p1 p2 p3
    omega

end InsurancePremiumCalculator

/-! ## Out-of-domain profiles (C15) and the reported multiplier (C20) -/

/-- C15 (amended): the code validates nothing, and a profile whose numeric
fields are outside the documented domain is priced like any other.  For
annualMileage < 0 the mileage sub-score is the negative number
0.3 * annualMileage / 30000, for creditScore < 300 the credit sub-score is 0.6,
for creditScore > 850 it is 0.1; `calculateRiskScore` returns a totalScore in
[0,1] and `calculateQuote` a quote with a numeric finalPremium (vehicleType and
coverageLevel not being names inherited from `Object.prototype`). -/
theorem out_of_domain_profile_is_priced (d : ApplicantData) (mc : MarketConditions)
    (r1 r2 r3 : ℚ) (month : ℕ) (timestamp : String)
    (_hdom : d.annualMileage < 0 ∨ d.creditScore < 300 ∨ 850 < d.creditScore)
    (hv : d.vehicleType ∉ objectPrototypeKeys) (hc : d.coverageLevel ∉ objectPrototypeKeys) :
    (d.annualMileage < 0 →
      RiskAssessmentEngine.calculateMileageRisk d.annualMileage = 0.3 * d.annualMileage / 30000
        ∧ RiskAssessmentEngine.calculateMileageRisk d.annualMileage < 0) ∧
    (d.creditScore < 300 → RiskAssessmentEngine.calculateCreditRisk d.creditScore = 0.6) ∧
    (850 < d.creditScore → RiskAssessmentEngine.calculateCreditRisk d.creditScore = 0.1) ∧
    (∃ t : ℚ, (RiskAssessmentEngine.calculateRiskScore d).totalScore = JSNum.num t ∧
      0 ≤ t ∧ t ≤ 1) ∧
    (∃ p : ℚ, (calculateQuote d mc r1 r2 r3 month timestamp).2.pricing.finalPremium
      = JSNum.num p) := by
  obtain ⟨t, ht, h0, h1, hf⟩ := calculateQuote_finalPremium d mc r1 r2 r3 month timestamp hv hc
  refine ⟨?_, ?_, ?_, ⟨t, ht, h0, h1⟩, ⟨_, hf⟩⟩
  · intro hm
    have e : min (d.annualMileage / 30000) 1 = d.annualMileage / 30000 :=
      min_eq_left (by
        have : d.annualMileage / 30000 < 0 := div_neg_of_neg_of_pos hm (by norm_num)
        linarith)
    unfold RiskAssessmentEngine.calculateMileageRisk
    rw [e]
    constructor
    · ring
    · have : d.annualMileage / 30000 < 0 := div_neg_of_neg_of_pos hm (by norm_num)
      linarith
  · intro hs
    unfold RiskAssessmentEngine.calculateCreditRisk
    rw [if_neg (by linarith), if_neg (by linarith), if_neg (by linarith)]
  · intro hs
    unfold RiskAssessmentEngine.calculateCreditRisk
    rw [if_pos (by linarith)]

/-- C15, witness: the default applicant with a mileage of -30000 and a credit
score of 200. -/
theorem out_of_domain_profile_is_priced_witness :
    ((-30000 : ℚ) < 0 ∨ (200 : ℚ) < 300 ∨ (850 : ℚ) < 200) ∧
    (∃ t : ℚ, (RiskAssessmentEngine.calculateRiskScore
        { defaultApplicant with annualMileage := -30000, creditScore := 200 }).totalScore
        = JSNum.num t ∧ 0 ≤ t ∧ t ≤ 1) ∧
    (∃ p : ℚ, (calculateQuote
        { defaultApplicant with annualMileage := -30000, creditScore := 200 }
        MarketAnalyzer.initialConditions 0.5 0.5 0.5 0 "t").2.pricing.finalPremium
        = JSNum.num p) := by
  have h := out_of_domain_profile_is_priced
    { defaultApplicant with annualMileage := -30000, creditScore := 200 }
    MarketAnalyzer.initialConditions 0.5 0.5 0.5 0 "t" (Or.inl (by norm_num)) (by decide)
    (by decide)
  exact ⟨Or.inl (by norm_num), h.2.2.2.1, h.2.2.2.2⟩

/-- C15, as stated, fails: for the default applicant with annualMileage -30000
(outside the domain) nothing is rejected; `calculateRiskScore` records the
mileage sub-score -0.3 and returns totalScore 0.12175 with level "Low", and
`calculateQuote` returns a quote whose finalPremium is a number. -/
theorem negative_mileage_is_priced :
    (-30000 : ℚ) < 0 ∧
    (RiskAssessmentEngine.calculateRiskScore
      { defaultApplicant with annualMileage := -30000 }).breakdown.mileage.score
      = JSNum.num (-0.3) ∧
    (RiskAssessmentEngine.calculateRiskScore
      { defaultApplicant with annualMileage := -30000 }).totalScore = JSNum.num 0.12175 ∧
    (RiskAssessmentEngine.calculateRiskScore
      { defaultApplicant with annualMileage := -30000 }).riskLevel = "Low" ∧
    (calculateQuote { defaultApplicant with annualMileage := -30000 }
      MarketAnalyzer.initialConditions 0.5 0.5 0.5 0 "t").2.pricing.finalPremium.isNum
      = true := by
  have hmil : RiskAssessmentEngine.calculateMileageRisk (-30000) = -0.3 := by
    norm_num [RiskAssessmentEngine.calculateMileageRisk]
  obtain ⟨v, S, hv, hS, htot, hlev⟩ := RiskAssessmentEngine.calculateRiskScore_num
    { defaultApplicant with annualMileage := -30000 } (by decide)
  have hS2 : S = 0.12175 := by
    have hv2 : v = 0.1 :=
      JSNum.num.inj (hv.symm.trans RiskAssessmentEngine.defaultApplicant_subscores.2.2.1)
    rw [hS, hv2]
    show RiskAssessmentEngine.calculateAgeRisk 30 * 0.15
      + RiskAssessmentEngine.calculateDrivingRisk 0 0 * 0.25 + 0.1 * 0.20
      + RiskAssessmentEngine.calculateLocationRisk "12345" * 0.15
      + RiskAssessmentEngine.calculateCreditRisk 700 * 0.12
      + RiskAssessmentEngine.calculateMileageRisk (-30000) * 0.08
      + RiskAssessmentEngine.calculateExperienceRisk 10 * 0.05 = 0.12175
    obtain ⟨a1, a2, -, a4, a5, -, a7⟩ := RiskAssessmentEngine.defaultApplicant_subscores
    rw [a1, a2, a4, a5, hmil, a7]
    norm_num
  obtain ⟨t, -, -, -, hf⟩ := calculateQuote_finalPremium
    { defaultApplicant with annualMileage := -30000 } MarketAnalyzer.initialConditions
    0.5 0.5 0.5 0 "t" (by decide) (by decide)
  refine ⟨by norm_num, ?_, ?_, ?_, ?_⟩
  · show JSNum.num (RiskAssessmentEngine.calculateMileageRisk (-30000)) = JSNum.num (-0.3)
    rw [hmil]
  · rw [htot, hS2]; norm_num
  · rw [hlev, hS2]
    simp only [RiskAssessmentEngine.getRiskLevel, JSNum.lt_num_num]
    norm_num
  · rw [hf]; rfl

namespace PricingCalculator

/-- The property of C20 on the four known tiers: the reported coverage
multiplier is the number that was applied. -/
theorem reported_multiplier_known (r m : JSNum) (c : String)
    (hc : c ∈ ["basic", "standard", "comprehensive", "premium"]) :
    ∃ k : ℚ, coverageMultiplier.lookup c = some k ∧
      (calculatePremium r m c).breakdown.coverageMultiplier = JSVal.num k ∧
      (calculatePremium r m c).coverageAdjustedPremium =
        (calculatePremium r m c).riskAdjustedPremium * JSNum.num k := by
  have hk : ∃ k : ℚ, coverageMultiplier.lookup c = some k ∧ k ≠ 0 := by
    rw [coverageMultiplier_lookup]
    simp only [List.mem_cons, List.mem_singleton, List.not_mem_nil, or_false] at hc
    rcases hc with h | h | h | h <;> rw [h] <;>
      simp only [String.reduceEq, if_false, if_true] <;>
      exact ⟨_, rfl, by norm_num⟩
  obtain ⟨k, hk1, hk2⟩ := hk
  have hg := getProperty_own coverageMultiplier c k hk1
  refine ⟨k, hk1, hg, ?_⟩
  simp only [calculatePremium, hg, JSVal.or, JSVal.truthy, JSVal.toNumber, hk2, ne_eq,
    not_false_eq_true, decide_True, if_true]

/-- C20 at the failing input: for the unknown tier "gold" the pipeline applies
the default 1.0 (the coverage-adjusted premium equals the risk-adjusted premium
2400), but `breakdown.coverageMultiplier` reports `undefined`, not 1.0. -/
theorem reported_multiplier_unknown :
    "gold" ∉ ["basic", "standard", "comprehensive", "premium"] ∧
    (calculatePremium (JSNum.num 0.5) (JSNum.num 1) "gold").breakdown.coverageMultiplier
      = JSVal.undefined ∧
    (calculatePremium (JSNum.num 0.5) (JSNum.num 1) "gold").breakdown.coverageMultiplier.isNum
      = false ∧
    (calculatePremium (JSNum.num 0.5) (JSNum.num 1) "gold").riskAdjustedPremium
      = JSNum.num 2400 ∧
    (calculatePremium (JSNum.num 0.5) (JSNum.num 1) "gold").coverageAdjustedPremium
      = JSNum.num (2400 * 1.0) := by
  obtain ⟨-, h1, h2, -, -⟩ := calculatePremium_num 0.5 1 "gold" (by decide)
  refine ⟨by decide, rfl, rfl, ?_, ?_⟩
  · rw [h1]; norm_num
  · rw [h2, coverageMultiplier_lookup]
    simp only [String.reduceEq, if_false, Option.getD_none]
    norm_num

end PricingCalculator

namespace RiskAssessmentEngine

/-! ## The range of the weighted sum (C21) -/

/-- The age sub-score lies between 0.2 and 1 for the ages from 16 to 100. -/
theorem calculateAgeRisk_range (age : ℚ) (h1 : 16 ≤ age) (h2 : age ≤ 100) :
    0.2 ≤ calculateAgeRisk age ∧ calculateAgeRisk age ≤ 1 := by
  refine ⟨?_, (calculateAgeRisk_bounds age).2.mpr ⟨by linarith, h2⟩⟩
  unfold calculateAgeRisk
  split_ifs with a b
  · linarith
  · linarith
  · linarith [abs_nonneg (age - 45)]

/-- The driving sub-score is at least 0.1 for non-negative counts. -/
theorem calculateDrivingRisk_lower (a v : ℚ) (ha : 0 ≤ a) (hv : 0 ≤ v) :
    0.1 ≤ calculateDrivingRisk a v := by
  unfold calculateDrivingRisk
  exact le_min (by linarith) (by norm_num)

/-- The location sub-score is at least 0.2 and at most 0.4. -/
theorem calculateLocationRisk_range (z : String) :
    0.2 ≤ calculateLocationRisk z ∧ calculateLocationRisk z ≤ 0.4 := by
  rcases calculateLocationRisk_values z with h | h <;> rw [h] <;> norm_num

/-- The property of C21 away from the inherited names: for every profile with
16 <= age <= 100, accidents, violations, vehicleValue, annualMileage and
yearsLicensed non-negative, and a vehicleType that is not a name inherited from
`Object.prototype` (any zip string, any credit score), the weighted sum S of the
recorded sub-scores satisfies 0.0995 <= S <= 0.861, the returned totalScore is
S itself, and it is neither 0 nor 1. -/
theorem weighted_sum_range (d : ApplicantData)
    (hage : 16 ≤ d.age ∧ d.age ≤ 100) (hacc : 0 ≤ d.accidents) (hvio : 0 ≤ d.violations)
    (hval : 0 ≤ d.vehicleValue) (hmil : 0 ≤ d.annualMileage) (hyrs : 0 ≤ d.yearsLicensed)
    (hkey : d.vehicleType ∉ objectPrototypeKeys) :
    ∃ S : ℚ,
      JSNum.num 0.15 * (calculateRiskScore d).breakdown.age.score
        + JSNum.num 0.25 * (calculateRiskScore d).breakdown.drivingHistory.score
        + JSNum.num 0.20 * (calculateRiskScore d).breakdown.vehicleType.score
        + JSNum.num 0.15 * (calculateRiskScore d).breakdown.location.score
        + JSNum.num 0.12 * (calculateRiskScore d).breakdown.creditScore.score
        + JSNum.num 0.08 * (calculateRiskScore d).breakdown.mileage.score
        + JSNum.num 0.05 * (calculateRiskScore d).breakdown.experience.score
        = JSNum.num S ∧
      0.0995 ≤ S ∧ S ≤ 0.861 ∧
      (calculateRiskScore d).totalScore = JSNum.num S ∧
      (calculateRiskScore d).totalScore ≠ JSNum.num 0 ∧
      (calculateRiskScore d).totalScore ≠ JSNum.num 1 := by
  obtain ⟨v, S, hv, hS, htot, -⟩ := calculateRiskScore_num d hkey
  have hv2 := calculateVehicleRisk_num d.vehicleType d.vehicleValue hkey
  have ev : v = (typeRisk.lookup d.vehicleType).getD 0.3 * min (d.vehicleValue / 50000) 2 :=
    JSNum.num.inj (hv.symm.trans hv2)
  have hb := typeRisk_getD_bounds d.vehicleType
  have hm0 : 0 ≤ min (d.vehicleValue / 50000) 2 := le_min (by positivity) (by norm_num)
  have hm2 : min (d.vehicleValue / 50000) 2 ≤ 2 := min_le_right _ _
  have v0 : 0 ≤ v := by rw [ev]; exact mul_nonneg (by linarith [hb.1]) hm0
  have v1 : v ≤ 1.4 := by rw [ev]; nlinarith [hb.1, hb.2]
  have ha := calculateAgeRisk_range d.age hage.1 hage.2
  have hd1 := calculateDrivingRisk_lower d.accidents d.violations hacc hvio
  have hd2 := (calculateDrivingRisk_bounds d.accidents d.violations hacc hvio).2
  have hl := calculateLocationRisk_range d.zipCode
  have hc := calculateCreditRisk_bounds d.creditScore
  have hmi := calculateMileageRisk_bounds d.annualMileage hmil
  have he := calculateExperienceRisk_bounds d.yearsLicensed hyrs
  have lo : 0.0995 ≤ S := by rw [hS]; linarith [ha.1, hl.1, hc.1, hmi.1, he.1]
  have hi : S ≤ 0.861 := by rw [hS]; linarith [ha.2, hl.2, hc.2, hmi.2, he.2]
  have clamp : min (max S 0) 1 = S := by
    rw [max_eq_left (by linarith), min_eq_left (by linarith)]
  rw [clamp] at htot
  refine ⟨S, ?_, lo, hi, htot, ?_, ?_⟩
  · simp only [calculateRiskScore, hv, JSNum.num_mul_num, JSNum.num_add_num, hS]
    congr 1
    ring
  · rw [htot]
    intro h
    have := JSNum.num.inj h
    linarith
  · rw [htot]
    intro h
    have := JSNum.num.inj h
    linarith

/-- The default applicant of the form is such a profile. -/
theorem weighted_sum_range_witness :
    ∃ S : ℚ, 0.0995 ≤ S ∧ S ≤ 0.861 ∧
      (calculateRiskScore defaultApplicant).totalScore = JSNum.num S := by
  obtain ⟨S, -, h1, h2, h3, -⟩ := weighted_sum_range defaultApplicant
    (by norm_num [defaultApplicant]) (by norm_num [defaultApplicant])
    (by norm_num [defaultApplicant]) (by norm_num [defaultApplicant])
    (by norm_num [defaultApplicant]) (by norm_num [defaultApplicant]) (by decide)
  exact ⟨S, h1, h2, h3⟩

/-- C21 at the failing input: the default applicant with the vehicleType
"constructor" meets every condition of the claim, but the recorded vehicle
sub-score is `NaN`, and the returned totalScore is `NaN`, for which neither
`0.0995 <= totalScore` nor `totalScore <= 0.861` holds. -/
theorem weighted_sum_range_inherited :
    ((16 : ℚ) ≤ 30 ∧ (30 : ℚ) ≤ 100 ∧ (0 : ℚ) ≤ 0 ∧ (0 : ℚ) ≤ 25000 ∧ (0 : ℚ) ≤ 12000
      ∧ (0 : ℚ) ≤ 10) ∧
    (calculateRiskScore
      { defaultApplicant with vehicleType := "constructor" }).breakdown.vehicleType.score
      = JSNum.nan ∧
    (calculateRiskScore { defaultApplicant with vehicleType := "constructor" }).totalScore
      = JSNum.nan ∧
    JSNum.le (JSNum.num 0.0995)
      (calculateRiskScore { defaultApplicant with vehicleType := "constructor" }).totalScore
      = false ∧
    JSNum.le
      (calculateRiskScore { defaultApplicant with vehicleType := "constructor" }).totalScore
      (JSNum.num 0.861) = false := by
  refine ⟨by norm_num, ?_, ?_, ?_, ?_⟩ <;> rfl

end RiskAssessmentEngine

/-! ## Monotonicity in the driving history (C22) -/

namespace RiskAssessmentEngine

/-- The driving sub-score is non-decreasing in both counts. -/
theorem calculateDrivingRisk_mono (a a2 v v2 : ℚ) (ha : a ≤ a2) (hv : v ≤ v2) :
    calculateDrivingRisk a v ≤ calculateDrivingRisk a2 v2 := by
  unfold calculateDrivingRisk
  exact min_le_min (by linarith) (le_refl _)

/-- Two profiles that differ in the driving history only, the second with at
least as many accidents and violations, have totals in that order. -/
theorem totalScore_mono (d : ApplicantData) (a2 v2 : ℚ)
    (hkey : d.vehicleType ∉ objectPrototypeKeys) (ha : d.accidents ≤ a2)
    (hv : d.violations ≤ v2) :
    ∃ t t2 : ℚ, (calculateRiskScore d).totalScore = JSNum.num t ∧
      (calculateRiskScore { d with accidents := a2, violations := v2 }).totalScore
        = JSNum.num t2 ∧ t ≤ t2 := by
  obtain ⟨w, S, hw, hS, htot, -⟩ := calculateRiskScore_num d hkey
  obtain ⟨w2, S2, hw2, hS2, htot2, -⟩ :=
    calculateRiskScore_num { d with accidents := a2, violations := v2 } hkey
  have ew : w2 = w := JSNum.num.inj (hw2.symm.trans hw)
  have hd := calculateDrivingRisk_mono d.accidents a2 d.violations v2 ha hv
  have hle : S ≤ S2 := by
    rw [hS, hS2, ew]
    simp only
    linarith
  exact ⟨_, _, htot, htot2, min_le_min (max_le_max hle (le_refl _)) (le_refl _)⟩

end RiskAssessmentEngine

/-- The property of C22 away from the inherited names: for two profiles that
differ only in accidents (a <= a2) or only in violations (v <= v2), with a
vehicleType that is not a name inherited from `Object.prototype`,
`calculateRiskScore` gives totalScore <= totalScore2, and for every coverage
level that is not such a name and every market adjustment >= 0 the final
premiums computed from those scores are numbers in the same order. -/
theorem driving_history_monotone (d : ApplicantData) (a2 v2 m : ℚ) (c : String)
    (hkey : d.vehicleType ∉ objectPrototypeKeys) (hc : c ∉ objectPrototypeKeys)
    (hm : 0 ≤ m) :
    (d.accidents ≤ a2 →
      ∃ t t2 p p2 : ℚ,
        (RiskAssessmentEngine.calculateRiskScore d).totalScore = JSNum.num t ∧
        (RiskAssessmentEngine.calculateRiskScore { d with accidents := a2 }).totalScore
          = JSNum.num t2 ∧ t ≤ t2 ∧
        (PricingCalculator.calculatePremium
          (RiskAssessmentEngine.calculateRiskScore d).totalScore (JSNum.num m) c).finalPremium
          = JSNum.num p ∧
        (PricingCalculator.calculatePremium
          (RiskAssessmentEngine.calculateRiskScore { d with accidents := a2 }).totalScore
          (JSNum.num m) c).finalPremium = JSNum.num p2 ∧ p ≤ p2) ∧
    (d.violations ≤ v2 →
      ∃ t t2 p p2 : ℚ,
        (RiskAssessmentEngine.calculateRiskScore d).totalScore = JSNum.num t ∧
        (RiskAssessmentEngine.calculateRiskScore { d with violations := v2 }).totalScore
          = JSNum.num t2 ∧ t ≤ t2 ∧
        (PricingCalculator.calculatePremium
          (RiskAssessmentEngine.calculateRiskScore d).totalScore (JSNum.num m) c).finalPremium
          = JSNum.num p ∧
        (PricingCalculator.calculatePremium
          (RiskAssessmentEngine.calculateRiskScore { d with violations := v2 }).totalScore
          (JSNum.num m) c).finalPremium = JSNum.num p2 ∧ p ≤ p2) := by
  constructor
  · intro ha
    obtain ⟨t, t2, h1, h2, hle⟩ :=
      RiskAssessmentEngine.totalScore_mono d a2 d.violations hkey ha (le_refl _)
    obtain ⟨p, p2, hp, hp2, hpp⟩ := PricingCalculator.finalPremium_monotone t t2 m c hc hle hm
    refine ⟨t, t2, p, p2, h1, h2, hle, ?_, ?_, hpp⟩
    · rw [h1]; exact hp
    · have e : (RiskAssessmentEngine.calculateRiskScore { d with accidents := a2 }).totalScore
          = JSNum.num t2 := h2
      rw [e]; exact hp2
  · intro hv
    obtain ⟨t, t2, h1, h2, hle⟩ :=
      RiskAssessmentEngine.totalScore_mono d d.accidents v2 hkey (le_refl _) hv
    obtain ⟨p, p2, hp, hp2, hpp⟩ := PricingCalculator.finalPremium_monotone t t2 m c hc hle hm
    refine ⟨t, t2, p, p2, h1, h2, hle, ?_, ?_, hpp⟩
    · rw [h1]; exact hp
    · have e : (RiskAssessmentEngine.calculateRiskScore { d with violations := v2 }).totalScore
          = JSNum.num t2 := h2
      rw [e]; exact hp2

/-- The default applicant with 0 against 2 accidents, on "standard" at market
adjustment 1. -/
theorem driving_history_monotone_witness :
    ∃ t t2 : ℚ,
      (RiskAssessmentEngine.calculateRiskScore defaultApplicant).totalScore = JSNum.num t ∧
      (RiskAssessmentEngine.calculateRiskScore
        { defaultApplicant with accidents := 2 }).totalScore = JSNum.num t2 ∧ t ≤ t2 := by
  obtain ⟨t, t2, -, -, h1, h2, h3, -⟩ :=
    (driving_history_monotone defaultApplicant 2 0 1 "standard" (by decide) (by decide)
      zero_le_one).1 (by norm_num [defaultApplicant])
  exact ⟨t, t2, h1, h2, h3⟩

/-- C22 at the failing input: two profiles with the vehicleType "constructor"
that differ only in accidents (0 and 1) both have the totalScore `NaN`, and
`NaN <= NaN` is false, for the scores and for the final premiums computed from
them. -/
theorem driving_history_inherited :
    (0 : ℚ) ≤ 1 ∧
    JSNum.le
      (RiskAssessmentEngine.calculateRiskScore
        { defaultApplicant with vehicleType := "constructor" }).totalScore
      (RiskAssessmentEngine.calculateRiskScore
        { defaultApplicant with vehicleType := "constructor", accidents := 1 }).totalScore
      = false ∧
    JSNum.le
      (PricingCalculator.calculatePremium
        (RiskAssessmentEngine.calculateRiskScore
          { defaultApplicant with vehicleType := "constructor" }).totalScore
        (JSNum.num 1) "standard").finalPremium
      (PricingCalculator.calculatePremium
        (RiskAssessmentEngine.calculateRiskScore
          { defaultApplicant with vehicleType := "constructor", accidents := 1 }).totalScore
        (JSNum.num 1) "standard").finalPremium
      = false := by
  refine ⟨zero_le_one, ?_, ?_⟩ <;> rfl

/-! ## The age messages (C23) -/

namespace InsurancePremiumCalculator

/-- C23: composing `calculateRiskProfile` with `generateExplanation`, for every
applicant record and every market analysis: the message "Higher premium due to
age-related risk factors" is in the explanation iff age < 25 or age >= 65, the
message "Lower premium for experienced driver age group" is in it iff
35 <= age < 50, and the ages in [25, 35) and in [50, 65) produce neither. -/
theorem age_messages (data : ApplicantRecord) (marketAnalysis : MarketAnalysisData) :
    ("Higher premium due to age-related risk factors" ∈
        generateExplanation (calculateRiskProfile data) marketAnalysis
          (calculatePremium (calculateRiskProfile data) marketAnalysis) ↔
      data.age < 25 ∨ 65 ≤ data.age) ∧
    ("Lower premium for experienced driver age group" ∈
        generateExplanation (calculateRiskProfile data) marketAnalysis
          (calculatePremium (calculateRiskProfile data) marketAnalysis) ↔
      35 ≤ data.age ∧ data.age < 50) ∧
    ((25 ≤ data.age ∧ data.age < 35) ∨ (50 ≤ data.age ∧ data.age < 65) →
      "Higher premium due to age-related risk factors" ∉
        generateExplanation (calculateRiskProfile data) marketAnalysis
          (calculatePremium (calculateRiskProfile data) marketAnalysis) ∧
      "Lower premium for experienced driver age group" ∉
        generateExplanation (calculateRiskProfile data) marketAnalysis
          (calculatePremium (calculateRiskProfile data) marketAnalysis)) := by
  have hage : (calculateRiskProfile data).ageRisk =
      if data.age < 25 then 1.4 else if data.age < 35 then 1.0
      else if data.age < 50 then 0.9 else if data.age < 65 then 0.95 else 1.2 := rfl
  have hhi : (calculateRiskProfile data).ageRisk > 1.1 ↔ data.age < 25 ∨ 65 ≤ data.age := by
    rw [hage]
    split_ifs with h1 h2 h3 h4
    · exact ⟨fun _ => Or.inl h1, fun _ => by norm_num⟩
    · exact ⟨fun h => by norm_num at h, fun h => by rcases h with h | h <;> linarith⟩
    · exact ⟨fun h => by norm_num at h, fun h => by rcases h with h | h <;> linarith⟩
    · exact ⟨fun h => by norm_num at h, fun h => by rcases h with h | h <;> linarith⟩
    · exact ⟨fun _ => Or.inr (not_lt.mp h4), fun _ => by norm_num⟩
  have hlo : (¬ (calculateRiskProfile data).ageRisk > 1.1 ∧
      (calculateRiskProfile data).ageRisk < 0.95) ↔ 35 ≤ data.age ∧ data.age < 50 := by
    rw [hage]
    split_ifs with h1 h2 h3 h4
    · exact ⟨fun h => by norm_num at h, fun h => by linarith [h.1]⟩
    · exact ⟨fun h => by norm_num at h, fun h => by linarith [h.1]⟩
    · exact ⟨fun _ => ⟨not_lt.mp h2, h3⟩, fun _ => by norm_num⟩
    · exact ⟨fun h => by norm_num at h, fun h => by linarith [h.2]⟩
    · exact ⟨fun h => by norm_num at h, fun h => by linarith [h.2]⟩
  have key := generateExplanation_append (calculateRiskProfile data) marketAnalysis
    (calculatePremium (calculateRiskProfile data) marketAnalysis)
  have m1 : "Higher premium due to age-related risk factors" ∈
      generateExplanation (calculateRiskProfile data) marketAnalysis
        (calculatePremium (calculateRiskProfile data) marketAnalysis) ↔
      (calculateRiskProfile data).ageRisk > 1.1 := by
    rw [key]; simp
  have m2 : "Lower premium for experienced driver age group" ∈
      generateExplanation (calculateRiskProfile data) marketAnalysis
        (calculatePremium (calculateRiskProfile data) marketAnalysis) ↔
      (¬ (calculateRiskProfile data).ageRisk > 1.1 ∧
        (calculateRiskProfile data).ageRisk < 0.95) := by
    rw [key]; simp
  refine ⟨m1.trans hhi, m2.trans hlo, ?_⟩
  intro h
  rw [m1.trans hhi, m2.trans hlo]
  rcases h with h | h
  · exact ⟨fun h2 => by rcases h2 with h2 | h2 <;> linarith [h.1, h.2],
      fun h2 => by linarith [h.2, h2.1]⟩
  · exact ⟨fun h2 => by rcases h2 with h2 | h2 <;> linarith [h.1, h.2],
      fun h2 => by linarith [h.1, h2.2]⟩

end InsurancePremiumCalculator

/-! ## The rounding to doubles

`roundDouble` is checked against what the format asks of a rounding: a
significand of 53 binary digits in the binade of the argument, the nearest such
value, the even one at a tie. -/

/-- With fuel enough, `floorLog2` is the exponent of the leading binary digit:
`2^k ≤ n < 2^(k+1)`. -/
theorem floorLog2_spec (fuel n : ℕ) (hn : 1 ≤ n) (hf : n ≤ fuel) :
    2 ^ floorLog2 fuel n ≤ n ∧ n < 2 ^ (floorLog2 fuel n + 1) := by
  induction fuel generalizing n with
  | zero => omega
  | succ f ih =>
    unfold floorLog2
    split_ifs with h
    · constructor <;> simp <;> omega
    · have h2 : 1 ≤ n / 2 := by omega
      have h3 : n / 2 ≤ f := by omega
      obtain ⟨a, b⟩ := ih (n / 2) h2 h3
      constructor
      · rw [pow_succ]; omega
      · rw [pow_succ]; omega

/-- A power of two with an integer exponent, as the quotient of the two natural
powers the rounding works with. -/
theorem two_zpow_toNat (z : ℤ) :
    ((2 ^ z.toNat : ℕ) : ℚ) / ((2 ^ (-z).toNat : ℕ) : ℚ) = (2 : ℚ) ^ z := by
  rcases le_total 0 z with h | h
  · obtain ⟨k, rfl⟩ := Int.eq_ofNat_of_zero_le h
    simp
  · obtain ⟨k, hk⟩ := Int.eq_ofNat_of_zero_le (neg_nonneg.mpr h)
    have : z = -(k : ℤ) := by omega
    subst this
    simp

/-- The binade of a positive rational `q` is the exponent `e` with
`2^e ≤ q < 2^(e+1)`. -/
theorem binade_spec (q : ℚ) (hq : 0 < q) :
    (2 : ℚ) ^ binade q ≤ q ∧ q < (2 : ℚ) ^ (binade q + 1) := by
  have hnum : 0 < q.num := Rat.num_pos.mpr hq
  have hn1 : 1 ≤ q.num.natAbs := by omega
  have hd1 : 1 ≤ q.den := q.den_pos
  obtain ⟨a1, a2⟩ := floorLog2_spec q.num.natAbs q.num.natAbs hn1 (le_refl _)
  obtain ⟨b1, b2⟩ := floorLog2_spec q.den q.den hd1 (le_refl _)
  have hdq : (0 : ℚ) < (q.den : ℚ) := by exact_mod_cast hd1
  have hqe : q = (q.num.natAbs : ℚ) / (q.den : ℚ) := by
    have h2 : ((q.num.natAbs : ℕ) : ℚ) = (q.num : ℚ) := by
      rw [Nat.cast_natAbs, abs_of_pos hnum]
    rw [h2]
    exact (Rat.num_div_den q).symm
  set n := q.num.natAbs with hn
  set d := q.den with hd
  set a := floorLog2 n n with ha
  set b := floorLog2 d d with hb
  have A1 : (2 : ℚ) ^ (a : ℤ) ≤ (n : ℚ) := by
    rw [zpow_natCast]; exact_mod_cast a1
  have A2 : (n : ℚ) < (2 : ℚ) ^ ((a : ℤ) + 1) := by
    rw [show ((a : ℤ) + 1) = ((a + 1 : ℕ) : ℤ) by push_cast; ring, zpow_natCast]
    exact_mod_cast a2
  have B1 : (2 : ℚ) ^ (b : ℤ) ≤ (d : ℚ) := by
    rw [zpow_natCast]; exact_mod_cast b1
  have B2 : (d : ℚ) < (2 : ℚ) ^ ((b : ℤ) + 1) := by
    rw [show ((b : ℤ) + 1) = ((b + 1 : ℕ) : ℤ) by push_cast; ring, zpow_natCast]
    exact_mod_cast b2
  have two_pos : ∀ z : ℤ, (0 : ℚ) < (2 : ℚ) ^ z := fun z => zpow_pos (by norm_num) z
  -- the quotient lies strictly between `2^(a-b-1)` and `2^(a-b+1)`
  have up : q < (2 : ℚ) ^ ((a : ℤ) - b + 1) := by
    rw [hqe, div_lt_iff₀ hdq]
    calc (n : ℚ) < (2 : ℚ) ^ ((a : ℤ) + 1) := A2
      _ = (2 : ℚ) ^ ((a : ℤ) - b + 1) * (2 : ℚ) ^ (b : ℤ) := by
        rw [← zpow_add₀ (by norm_num : (2 : ℚ) ≠ 0)]; congr 1; ring
      _ ≤ (2 : ℚ) ^ ((a : ℤ) - b + 1) * (d : ℚ) :=
        mul_le_mul_of_nonneg_left B1 (two_pos _).le
  have lo : (2 : ℚ) ^ ((a : ℤ) - b - 1) ≤ q := by
    rw [hqe, le_div_iff₀ hdq]
    calc (2 : ℚ) ^ ((a : ℤ) - b - 1) * (d : ℚ)
        ≤ (2 : ℚ) ^ ((a : ℤ) - b - 1) * (2 : ℚ) ^ ((b : ℤ) + 1) :=
          mul_le_mul_of_nonneg_left B2.le (two_pos _).le
      _ = (2 : ℚ) ^ (a : ℤ) := by
        rw [← zpow_add₀ (by norm_num : (2 : ℚ) ≠ 0)]; congr 1; ring
      _ ≤ (n : ℚ) := A1
  -- the test of the definition compares the quotient with `2^(a-b)`
  have test : (d * 2 ^ ((a : ℤ) - b).toNat ≤ n * 2 ^ (-((a : ℤ) - b)).toNat) ↔
      (2 : ℚ) ^ ((a : ℤ) - b) ≤ q := by
    have hp : (0 : ℚ) < ((2 ^ (-((a : ℤ) - b)).toNat : ℕ) : ℚ) := by positivity
    rw [← two_zpow_toNat, hqe, div_le_div_iff₀ hp hdq]
    constructor
    · intro h
      have : ((d * 2 ^ ((a : ℤ) - b).toNat : ℕ) : ℚ) ≤ ((n * 2 ^ (-((a : ℤ) - b)).toNat : ℕ) : ℚ) := by
        exact_mod_cast h
      push_cast at this ⊢
      linarith
    · intro h
      have : ((d * 2 ^ ((a : ℤ) - b).toNat : ℕ) : ℚ) ≤ ((n * 2 ^ (-((a : ℤ) - b)).toNat : ℕ) : ℚ) := by
        push_cast at h ⊢
        linarith
      exact_mod_cast this
  have hb' : binade q =
      if d * 2 ^ ((a : ℤ) - b).toNat ≤ n * 2 ^ (-((a : ℤ) - b)).toNat then (a : ℤ) - b
      else (a : ℤ) - b - 1 := rfl
  rw [hb']
  split_ifs with h
  · exact ⟨test.mp h, up⟩
  · refine ⟨lo, ?_⟩
    rw [show (a : ℤ) - b - 1 + 1 = (a : ℤ) - b by ring]
    exact not_le.mp (fun h2 => h (test.mpr h2))

/-- The rounded quotient is within one half of `N / D`, and it stays between
any integer bounds of `N / D`. -/
theorem roundQuotient_spec (N D : ℕ) (hD : 0 < D) :
    2 * |((roundQuotient N D : ℕ) : ℚ) - (N : ℚ) / (D : ℚ)| ≤ 1 ∧
    (∀ L : ℕ, L * D ≤ N → L ≤ roundQuotient N D) ∧
    (∀ U : ℕ, N < U * D → roundQuotient N D ≤ U) := by
  have hdecomp : D * (N / D) + N % D = N := Nat.div_add_mod N D
  have hr : N % D < D := Nat.mod_lt N hD
  have hDq : (0 : ℚ) < (D : ℚ) := by exact_mod_cast hD
  have hN : (N : ℚ) = (D : ℚ) * ((N / D : ℕ) : ℚ) + ((N % D : ℕ) : ℚ) := by
    exact_mod_cast hdecomp.symm
  have hrq : ((N % D : ℕ) : ℚ) < (D : ℚ) := by exact_mod_cast hr
  have hr0 : (0 : ℚ) ≤ ((N % D : ℕ) : ℚ) := Nat.cast_nonneg _
  have hquot : (N : ℚ) / (D : ℚ) = ((N / D : ℕ) : ℚ) + ((N % D : ℕ) : ℚ) / (D : ℚ) := by
    rw [hN]; field_simp; ring
  have hm_lo : ∀ L : ℕ, L * D ≤ N → L ≤ N / D := fun L h =>
    (Nat.le_div_iff_mul_le hD).mpr h
  have hm_hi : ∀ U : ℕ, N < U * D → N / D < U := fun U h =>
    (Nat.div_lt_iff_lt_mul hD).mpr h
  unfold roundQuotient
  simp only
  split_ifs with h
  · have h2 : D ≤ 2 * (N % D) := by rcases h with h | h <;> omega
    have h2q : (D : ℚ) ≤ 2 * ((N % D : ℕ) : ℚ) := by exact_mod_cast h2
    refine ⟨?_, fun L hL => by have := hm_lo L hL; omega,
      fun U hU => by have := hm_hi U hU; omega⟩
    rw [hquot]
    push_cast
    have e : ((N / D : ℕ) : ℚ) + 1 - (((N / D : ℕ) : ℚ) + ((N % D : ℕ) : ℚ) / (D : ℚ))
        = 1 - ((N % D : ℕ) : ℚ) / (D : ℚ) := by ring
    rw [e]
    have h3 : ((N % D : ℕ) : ℚ) / (D : ℚ) < 1 := (div_lt_one hDq).mpr hrq
    have h4 : (1 : ℚ) / 2 ≤ ((N % D : ℕ) : ℚ) / (D : ℚ) := by
      rw [le_div_iff₀ hDq]; linarith
    rw [abs_of_nonneg (by linarith)]
    linarith
  · have h2 : 2 * (N % D) ≤ D := by
      by_contra hc
      exact h (Or.inl (by omega))
    have h2q : 2 * ((N % D : ℕ) : ℚ) ≤ (D : ℚ) := by exact_mod_cast h2
    refine ⟨?_, fun L hL => hm_lo L hL, fun U hU => (hm_hi U hU).le⟩
    rw [hquot]
    have e : ((N / D : ℕ) : ℚ) - (((N / D : ℕ) : ℚ) + ((N % D : ℕ) : ℚ) / (D : ℚ))
        = -(((N % D : ℕ) : ℚ) / (D : ℚ)) := by ring
    rw [e, abs_neg]
    have h3 : (0 : ℚ) ≤ ((N % D : ℕ) : ℚ) / (D : ℚ) := div_nonneg hr0 hDq.le
    have h4 : ((N % D : ℕ) : ℚ) / (D : ℚ) ≤ 1 / 2 := by
      rw [div_le_iff₀ hDq]; linarith
    rw [abs_of_nonneg h3]
    linarith

/-- A positive rational rounds to a significand of 53 binary digits at most,
scaled to its binade, within half a unit of the last place. -/
theorem roundDouble_pos_spec (q : ℚ) (hq : 0 < q) :
    ∃ m : ℕ, 2 ^ 52 ≤ m ∧ m ≤ 2 ^ 53 ∧
      roundDouble q = (m : ℚ) * (2 : ℚ) ^ (binade q - 52) ∧
      2 * |roundDouble q - q| ≤ (2 : ℚ) ^ (binade q - 52) := by
  obtain ⟨lo, hi⟩ := binade_spec q hq
  have hnum : 0 < q.num := Rat.num_pos.mpr hq
  have hqe : q = (q.num.natAbs : ℚ) / (q.den : ℚ) := by
    have h2 : ((q.num.natAbs : ℕ) : ℚ) = (q.num : ℚ) := by
      rw [Nat.cast_natAbs, abs_of_pos hnum]
    rw [h2]
    exact (Rat.num_div_den q).symm
  have hdq : (0 : ℚ) < (q.den : ℚ) := by exact_mod_cast q.den_pos
  set s : ℤ := binade q - 52 with hs
  have hz : (0 : ℚ) < (2 : ℚ) ^ s := zpow_pos (by norm_num) s
  have hP : (0 : ℚ) < ((2 ^ (-s).toNat : ℕ) : ℚ) := by positivity
  have hQ : (0 : ℚ) < ((2 ^ s.toNat : ℕ) : ℚ) := by positivity
  have tz := two_zpow_toNat s
  have hD : 0 < q.den * 2 ^ s.toNat := Nat.mul_pos q.den_pos (by positivity)
  -- the scaled quotient is `q / 2^s`
  have hx : ((q.num.natAbs * 2 ^ (-s).toNat : ℕ) : ℚ) / ((q.den * 2 ^ s.toNat : ℕ) : ℚ)
      = q / (2 : ℚ) ^ s := by
    rw [← tz]
    rw [Nat.cast_mul, Nat.cast_mul]
    conv_rhs => rw [hqe]
    field_simp
  -- which lies in `[2^52, 2^53)`
  have hbs : binade q = s + ((52 : ℕ) : ℤ) := by rw [hs]; push_cast; ring
  have e52 : (2 : ℚ) ^ (binade q) = (2 : ℚ) ^ s * 2 ^ 52 := by
    conv_lhs => rw [hbs]
    rw [zpow_add₀ (by norm_num : (2 : ℚ) ≠ 0), zpow_natCast]
  have e53 : (2 : ℚ) ^ (binade q + 1) = (2 : ℚ) ^ s * 2 ^ 53 := by
    rw [zpow_add₀ (by norm_num : (2 : ℚ) ≠ 0), e52]
    ring
  have x_lo : (2 : ℚ) ^ 52 ≤ q / (2 : ℚ) ^ s := by
    rw [le_div_iff₀ hz]; rw [e52] at lo; linarith
  have x_hi : q / (2 : ℚ) ^ s < (2 : ℚ) ^ 53 := by
    rw [div_lt_iff₀ hz]; rw [e53] at hi; linarith
  obtain ⟨near, lower, upper⟩ :=
    roundQuotient_spec (q.num.natAbs * 2 ^ (-s).toNat) (q.den * 2 ^ s.toNat) hD
  rw [hx] at near
  have hDq : (0 : ℚ) < ((q.den * 2 ^ s.toNat : ℕ) : ℚ) := by exact_mod_cast hD
  have hL : 2 ^ 52 * (q.den * 2 ^ s.toNat) ≤ q.num.natAbs * 2 ^ (-s).toNat := by
    have h1 : (2 : ℚ) ^ 52 * ((q.den * 2 ^ s.toNat : ℕ) : ℚ)
        ≤ ((q.num.natAbs * 2 ^ (-s).toNat : ℕ) : ℚ) := by
      rw [← le_div_iff₀ hDq, hx]; exact x_lo
    exact_mod_cast h1
  have hU : q.num.natAbs * 2 ^ (-s).toNat < 2 ^ 53 * (q.den * 2 ^ s.toNat) := by
    have h1 : ((q.num.natAbs * 2 ^ (-s).toNat : ℕ) : ℚ)
        < (2 : ℚ) ^ 53 * ((q.den * 2 ^ s.toNat : ℕ) : ℚ) := by
      rw [← div_lt_iff₀ hDq, hx]; exact x_hi
    exact_mod_cast h1
  have hval : roundDouble q =
      ((roundQuotient (q.num.natAbs * 2 ^ (-s).toNat) (q.den * 2 ^ s.toNat) : ℕ) : ℚ)
        * (2 : ℚ) ^ s := by
    unfold roundDouble
    rw [if_neg hq.ne']
    simp only
    rw [if_neg (not_lt.mpr hq.le), Rat.mkRat_eq_div, ← tz]
    push_cast
    ring
  refine ⟨_, lower _ hL, upper _ hU, hval, ?_⟩
  rw [hval]
  have e : ((roundQuotient (q.num.natAbs * 2 ^ (-s).toNat) (q.den * 2 ^ s.toNat) : ℕ) : ℚ)
      * (2 : ℚ) ^ s - q =
      (((roundQuotient (q.num.natAbs * 2 ^ (-s).toNat) (q.den * 2 ^ s.toNat) : ℕ) : ℚ)
        - q / (2 : ℚ) ^ s) * (2 : ℚ) ^ s := by
    field_simp
  rw [e, abs_mul, abs_of_pos hz]
  nlinarith [abs_nonneg (((roundQuotient (q.num.natAbs * 2 ^ (-s).toNat)
    (q.den * 2 ^ s.toNat) : ℕ) : ℚ) - q / (2 : ℚ) ^ s)]

/-- The binade ignores the sign. -/
theorem binade_neg (q : ℚ) : binade (-q) = binade q := by
  unfold binade
  simp only [Rat.neg_num, Rat.neg_den, Int.natAbs_neg]

/-- The rounding is odd: the sign is carried separately. -/
theorem roundDouble_neg (q : ℚ) : roundDouble (-q) = -roundDouble q := by
  rcases lt_trichotomy q 0 with h | h | h
  · unfold roundDouble
    rw [if_neg (neg_ne_zero.mpr h.ne), if_neg h.ne]
    simp only [binade_neg, Rat.neg_num, Rat.neg_den, Int.natAbs_neg]
    rw [if_neg (by linarith : ¬ -q < 0), if_pos h, neg_neg]
  · subst h
    simp [roundDouble]
  · unfold roundDouble
    rw [if_neg (neg_ne_zero.mpr h.ne'), if_neg h.ne']
    simp only [binade_neg, Rat.neg_num, Rat.neg_den, Int.natAbs_neg]
    rw [if_pos (by linarith : -q < 0), if_neg (by linarith : ¬ q < 0)]

/-- The rounding is what the format asks: for a nonzero `q` in the binade
`2^e ≤ |q| < 2^(e+1)`, the result has the sign of `q`, its magnitude is an
integer of at most 53 binary digits times `2^(e-52)`, and it is within half a
unit of that last place of `q`; so the relative error is at most `2^-53`. -/
theorem roundDouble_spec (q : ℚ) (hq : q ≠ 0) :
    (2 : ℚ) ^ binade q ≤ |q| ∧ |q| < (2 : ℚ) ^ (binade q + 1) ∧
    (∃ m : ℕ, 2 ^ 52 ≤ m ∧ m ≤ 2 ^ 53 ∧
      |roundDouble q| = (m : ℚ) * (2 : ℚ) ^ (binade q - 52)) ∧
    (0 < roundDouble q ↔ 0 < q) ∧
    2 * |roundDouble q - q| ≤ (2 : ℚ) ^ (binade q - 52) ∧
    |roundDouble q - q| ≤ |q| / 2 ^ 53 := by
  have main : ∀ p : ℚ, 0 < p →
      (2 : ℚ) ^ binade p ≤ p ∧ p < (2 : ℚ) ^ (binade p + 1) ∧
      (∃ m : ℕ, 2 ^ 52 ≤ m ∧ m ≤ 2 ^ 53 ∧
        roundDouble p = (m : ℚ) * (2 : ℚ) ^ (binade p - 52)) ∧
      0 < roundDouble p ∧
      2 * |roundDouble p - p| ≤ (2 : ℚ) ^ (binade p - 52) ∧
      |roundDouble p - p| ≤ p / 2 ^ 53 := by
    intro p hp
    obtain ⟨lo, hi⟩ := binade_spec p hp
    obtain ⟨m, m1, m2, hv, herr⟩ := roundDouble_pos_spec p hp
    have hz : (0 : ℚ) < (2 : ℚ) ^ (binade p - 52) := zpow_pos (by norm_num) _
    have hmq : (0 : ℚ) < (m : ℚ) := by
      have : 0 < m := lt_of_lt_of_le (by positivity) m1
      exact_mod_cast this
    have e : (2 : ℚ) ^ binade p = (2 : ℚ) ^ (binade p - 52) * 2 ^ 52 := by
      have hb2 : binade p = (binade p - 52) + ((52 : ℕ) : ℤ) := by push_cast; ring
      conv_lhs => rw [hb2]
      rw [zpow_add₀ (by norm_num : (2 : ℚ) ≠ 0), zpow_natCast]
    refine ⟨lo, hi, ⟨m, m1, m2, hv⟩, ?_, herr, ?_⟩
    · rw [hv]; exact mul_pos hmq hz
    · rw [le_div_iff₀ (by positivity)]
      rw [e] at lo
      nlinarith [abs_nonneg (roundDouble p - p)]
  rcases lt_or_gt_of_ne hq with h | h
  · obtain ⟨a, b, ⟨m, m1, m2, hv⟩, c, d, e⟩ := main (-q) (by linarith)
    rw [binade_neg] at a b hv d
    rw [roundDouble_neg] at hv c d e
    have habs : |q| = -q := abs_of_neg h
    have hrneg : roundDouble q < 0 := by linarith
    have e1 : |roundDouble q - q| = |(-roundDouble q) - (-q)| := by
      rw [← abs_neg]; congr 1; ring
    refine ⟨by rw [habs]; exact a, by rw [habs]; exact b, ⟨m, m1, m2, ?_⟩, ?_, ?_, ?_⟩
    · rw [abs_of_neg hrneg]; exact hv
    · constructor
      · intro h1; linarith
      · intro h1; linarith
    · rw [e1]; exact d
    · rw [e1, habs]; exact e
  · obtain ⟨a, b, ⟨m, m1, m2, hv⟩, c, d, e⟩ := main q h
    have habs : |q| = q := abs_of_pos h
    refine ⟨by rw [habs]; exact a, by rw [habs]; exact b, ⟨m, m1, m2, ?_⟩,
      ⟨fun _ => h, fun _ => c⟩, d, by rw [habs]; exact e⟩
    rw [abs_of_pos c]; exact hv

/-- Zero is a double. -/
theorem roundDouble_zero : roundDouble 0 = 0 := rfl

/-- The rounding keeps a positive rational positive. -/
theorem roundDouble_pos (q : ℚ) (h : 0 < q) : 0 < roundDouble q :=
  ((roundDouble_spec q h.ne').2.2.2.1).mpr h

/-- Ties go to the even significand: `2^53 + 1` rounds down to `2^53` and
`2^53 + 3` rounds up to `2^53 + 4`; and a double rounds to itself. -/
theorem roundDouble_ties_even :
    roundDouble (2 ^ 53 + 1) = 2 ^ 53 ∧ roundDouble (2 ^ 53 + 3) = 2 ^ 53 + 4 ∧
      roundDouble (roundDouble 0.1) = roundDouble 0.1 ∧
      roundDouble 0.1 = 3602879701896397 / 2 ^ 55 := by
  decide!

/-- A rational between positive bounds rounds to between the bounds widened by
the relative error `2^-53`. -/
theorem roundDouble_interval (x a b : ℚ) (ha : 0 < a) (h1 : a ≤ x) (h2 : x ≤ b) :
    a * (1 - 1 / 2 ^ 53) ≤ roundDouble x ∧ roundDouble x ≤ b * (1 + 1 / 2 ^ 53) ∧
      0 < a * (1 - 1 / 2 ^ 53) := by
  have hx : 0 < x := lt_of_lt_of_le ha h1
  have h := (roundDouble_spec x hx.ne').2.2.2.2.2
  rw [abs_of_pos hx] at h
  have h3 := abs_le.mp h
  have hu : (0 : ℚ) < 1 - 1 / 2 ^ 53 := by norm_num
  refine ⟨?_, ?_, mul_pos ha hu⟩
  · have : x * (1 - 1 / 2 ^ 53) ≤ roundDouble x := by
      have := h3.1
      have e : x * (1 - 1 / 2 ^ 53) = x - x / 2 ^ 53 := by ring
      rw [e]; linarith
    exact le_trans (mul_le_mul_of_nonneg_right h1 hu.le) this
  · have : roundDouble x ≤ x * (1 + 1 / 2 ^ 53) := by
      have := h3.2
      have e : x * (1 + 1 / 2 ^ 53) = x + x / 2 ^ 53 := by ring
      rw [e]; linarith
    exact le_trans this (mul_le_mul_of_nonneg_right h2 (by norm_num))

/-- A product of positive factors taken left to right in doubles, from an
accumulator between `L` and `U`: each rounding widens the bounds by the
relative error `2^-53`. -/
theorem foldl_roundDouble_bounds (xs : List ℚ) (hpos : ∀ x ∈ xs, 0 < x) (acc L U : ℚ)
    (hL : 0 < L) (h1 : L ≤ acc) (h2 : acc ≤ U) :
    L * xs.prod * (1 - 1 / 2 ^ 53) ^ xs.length
        ≤ List.foldl (fun a x => roundDouble (a * x)) acc xs ∧
      List.foldl (fun a x => roundDouble (a * x)) acc xs
        ≤ U * xs.prod * (1 + 1 / 2 ^ 53) ^ xs.length := by
  induction xs generalizing acc L U with
  | nil => simpa using ⟨h1, h2⟩
  | cons x xs ih =>
    have hx := hpos x (List.mem_cons_self _ _)
    obtain ⟨a, b, c⟩ := roundDouble_interval (acc * x) (L * x) (U * x) (by positivity)
      (mul_le_mul_of_nonneg_right h1 hx.le) (mul_le_mul_of_nonneg_right h2 hx.le)
    obtain ⟨i1, i2⟩ := ih (fun y hy => hpos y (List.mem_cons_of_mem _ hy))
      (roundDouble (acc * x)) _ _ c a b
    simp only [List.foldl_cons, List.prod_cons, List.length_cons]
    rw [pow_succ (1 - 1 / 2 ^ 53 : ℚ) xs.length, pow_succ (1 + 1 / 2 ^ 53 : ℚ) xs.length]
    constructor
    · calc L * (x * xs.prod) * ((1 - 1 / 2 ^ 53) ^ xs.length * (1 - 1 / 2 ^ 53))
          = L * x * (1 - 1 / 2 ^ 53) * xs.prod * (1 - 1 / 2 ^ 53) ^ xs.length := by ring
        _ ≤ _ := i1
    · calc List.foldl (fun a x => roundDouble (a * x)) (roundDouble (acc * x)) xs
          ≤ U * x * (1 + 1 / 2 ^ 53) * xs.prod * (1 + 1 / 2 ^ 53) ^ xs.length := i2
        _ = _ := by ring

/-! ## The loading and the risk product in doubles (C12, C18) -/

namespace Double

/-- The cost multiplier of `PricingCalculator`, the sum 1 + 0.15 + 0.12 + 0.08
taken left to right in doubles, is the double nearest to 1.35. -/
theorem totalCostMultiplier_eq :
    add (add (add (lit 1) (lit Insurance.PricingCalculator.profitMargin))
      (lit Insurance.PricingCalculator.operationalCosts))
      (lit Insurance.PricingCalculator.reserveRequirement) = lit 1.35 := by
  decide!

end Double

/-- The two loadings of a positive premium `D`, each computed in doubles, differ
by at most `D / 2^50`. -/
theorem loadings_close_pos (D : ℚ) (hD : 0 < D) :
    |roundDouble (roundDouble (roundDouble (D + roundDouble (D * roundDouble 0.15))
        + roundDouble (D * roundDouble 0.12)) + roundDouble (D * roundDouble 0.08))
      - roundDouble (D * roundDouble 1.35)| ≤ D / 2 ^ 50 := by
  have c15 : roundDouble 0.15 = 5404319552844595 / 2 ^ 55 := by decide!
  have c12 : roundDouble 0.12 = 1080863910568919 / 2 ^ 53 := by decide!
  have c08 : roundDouble 0.08 = 5764607523034235 / 2 ^ 56 := by decide!
  have c135 : roundDouble 1.35 = 3039929748475085 / 2 ^ 51 := by decide!
  rw [c15, c12, c08, c135]
  obtain ⟨p15l, p15u, p15p⟩ := roundDouble_interval (D * (5404319552844595 / 2 ^ 55))
    _ _ (by positivity) (le_refl _) (le_refl _)
  obtain ⟨p12l, p12u, p12p⟩ := roundDouble_interval (D * (1080863910568919 / 2 ^ 53))
    _ _ (by positivity) (le_refl _) (le_refl _)
  obtain ⟨p08l, p08u, p08p⟩ := roundDouble_interval (D * (5764607523034235 / 2 ^ 56))
    _ _ (by positivity) (le_refl _) (le_refl _)
  obtain ⟨fl, fu, -⟩ := roundDouble_interval (D * (3039929748475085 / 2 ^ 51))
    _ _ (by positivity) (le_refl _) (le_refl _)
  obtain ⟨s1l, s1u, s1p⟩ := roundDouble_interval
    (D + roundDouble (D * (5404319552844595 / 2 ^ 55)))
    (D + D * (5404319552844595 / 2 ^ 55) * (1 - 1 / 2 ^ 53))
    (D + D * (5404319552844595 / 2 ^ 55) * (1 + 1 / 2 ^ 53))
    (by positivity) (by linarith) (by linarith)
  obtain ⟨s2l, s2u, s2p⟩ := roundDouble_interval
    (roundDouble (D + roundDouble (D * (5404319552844595 / 2 ^ 55)))
      + roundDouble (D * (1080863910568919 / 2 ^ 53)))
    ((D + D * (5404319552844595 / 2 ^ 55) * (1 - 1 / 2 ^ 53)) * (1 - 1 / 2 ^ 53)
      + D * (1080863910568919 / 2 ^ 53) * (1 - 1 / 2 ^ 53))
    ((D + D * (5404319552844595 / 2 ^ 55) * (1 + 1 / 2 ^ 53)) * (1 + 1 / 2 ^ 53)
      + D * (1080863910568919 / 2 ^ 53) * (1 + 1 / 2 ^ 53))
    (by positivity) (by linarith) (by linarith)
  obtain ⟨tl, tu, -⟩ := roundDouble_interval
    (roundDouble (roundDouble (D + roundDouble (D * (5404319552844595 / 2 ^ 55)))
      + roundDouble (D * (1080863910568919 / 2 ^ 53)))
      + roundDouble (D * (5764607523034235 / 2 ^ 56)))
    (((D + D * (5404319552844595 / 2 ^ 55) * (1 - 1 / 2 ^ 53)) * (1 - 1 / 2 ^ 53)
      + D * (1080863910568919 / 2 ^ 53) * (1 - 1 / 2 ^ 53)) * (1 - 1 / 2 ^ 53)
      + D * (5764607523034235 / 2 ^ 56) * (1 - 1 / 2 ^ 53))
    (((D + D * (5404319552844595 / 2 ^ 55) * (1 + 1 / 2 ^ 53)) * (1 + 1 / 2 ^ 53)
      + D * (1080863910568919 / 2 ^ 53) * (1 + 1 / 2 ^ 53)) * (1 + 1 / 2 ^ 53)
      + D * (5764607523034235 / 2 ^ 56) * (1 + 1 / 2 ^ 53))
    (by positivity) (by linarith) (by linarith)
  rw [abs_le]
  constructor
  · -- total ≥ D * LT, final ≤ D * UF
    have key : ((((1 + (5404319552844595 / 2 ^ 55) * (1 - 1 / 2 ^ 53)) * (1 - 1 / 2 ^ 53)
        + (1080863910568919 / 2 ^ 53) * (1 - 1 / 2 ^ 53)) * (1 - 1 / 2 ^ 53)
        + (5764607523034235 / 2 ^ 56) * (1 - 1 / 2 ^ 53)) * (1 - 1 / 2 ^ 53)
        - (3039929748475085 / 2 ^ 51) * (1 + 1 / 2 ^ 53) : ℚ) ≥ -(1 / 2 ^ 50) := by
      norm_num
    nlinarith [mul_le_mul_of_nonneg_left key hD.le]
  · have key : ((((1 + (5404319552844595 / 2 ^ 55) * (1 + 1 / 2 ^ 53)) * (1 + 1 / 2 ^ 53)
        + (1080863910568919 / 2 ^ 53) * (1 + 1 / 2 ^ 53)) * (1 + 1 / 2 ^ 53)
        + (5764607523034235 / 2 ^ 56) * (1 + 1 / 2 ^ 53)) * (1 + 1 / 2 ^ 53)
        - (3039929748475085 / 2 ^ 51) * (1 - 1 / 2 ^ 53) : ℚ) ≤ 1 / 2 ^ 50 := by
      norm_num
    nlinarith [mul_le_mul_of_nonneg_left key hD.le]

/-- The two loadings of a premium `D` of either sign, each computed in doubles,
differ by at most `|D| / 2^50`. -/
theorem loadings_close (D : ℚ) :
    |roundDouble (roundDouble (roundDouble (D + roundDouble (D * roundDouble 0.15))
        + roundDouble (D * roundDouble 0.12)) + roundDouble (D * roundDouble 0.08))
      - roundDouble (D * roundDouble 1.35)| ≤ |D| / 2 ^ 50 := by
  rcases lt_trichotomy D 0 with hD | hD | hD
  · have h := loadings_close_pos (-D) (by linarith)
    simp only [neg_mul, roundDouble_neg, ← neg_add, neg_sub_neg] at h
    rw [abs_of_neg hD, abs_sub_comm]
    exact h
  · subst hD
    simp [roundDouble_zero]
  · rw [abs_of_pos hD]
    exact loadings_close_pos D hD

/-- Every value found in a table of positive entries is positive. -/
theorem lookup_pos (table : List (String × ℚ)) (hall : ∀ p ∈ table, 0 < p.2) (key : String)
    (q : ℚ) (h : table.lookup key = some q) : 0 < q := by
  induction table with
  | nil => simp at h
  | cons p t ih =>
    by_cases hk : key = p.1
    · subst hk
      simp only [List.lookup, beq_self_eq_true] at h
      rw [← Option.some.inj h]
      exact hall p (List.mem_cons_self _ _)
    · have hk2 : (key == p.1) = false := beq_eq_false_iff_ne.mpr hk
      have e : List.lookup key (p :: t) = List.lookup key t := by
        obtain ⟨a, b⟩ := p
        simp only [List.lookup, hk2]
      rw [e] at h
      exact ih (fun x hx => hall x (List.mem_cons_of_mem _ hx)) h

/-- The four tables of `calculateRiskProfile` hold positive multipliers only. -/
theorem riskTables_pos :
    (∀ p ∈ InsurancePremiumCalculator.locationTable, 0 < p.2) ∧ (∀ p ∈ InsurancePremiumCalculator.vehicleTypeTable, 0 < p.2) ∧
      (∀ p ∈ InsurancePremiumCalculator.drivingTable, 0 < p.2) ∧ (∀ p ∈ InsurancePremiumCalculator.coverageTable, 0 < p.2) := by
  refine ⟨?_, ?_, ?_, ?_⟩ <;> intro p hp
  · simp only [InsurancePremiumCalculator.locationTable, List.mem_cons, List.mem_singleton, List.not_mem_nil,
      or_false] at hp
    rcases hp with h | h | h <;> rw [h] <;> norm_num
  · simp only [InsurancePremiumCalculator.vehicleTypeTable, List.mem_cons, List.mem_singleton, List.not_mem_nil,
      or_false] at hp
    rcases hp with h | h | h | h | h <;> rw [h] <;> norm_num
  · simp only [InsurancePremiumCalculator.drivingTable, List.mem_cons, List.mem_singleton, List.not_mem_nil,
      or_false] at hp
    rcases hp with h | h | h | h <;> rw [h] <;> norm_num
  · simp only [InsurancePremiumCalculator.coverageTable, List.mem_cons, List.mem_singleton, List.not_mem_nil,
      or_false] at hp
    rcases hp with h | h | h | h <;> rw [h] <;> norm_num

/-- Nine positive factors multiplied onto 100 left to right in doubles, against
the same product with the fourth and fifth factor multiplied first: the two
results differ by at most `2^-48` of the first. -/
theorem regrouped_product_close (a g l va vt dr c m cm : ℚ) (ha : 0 < a) (hg : 0 < g)
    (hl : 0 < l) (hva : 0 < va) (hvt : 0 < vt) (hdr : 0 < dr) (hc : 0 < c) (hm : 0 < m)
    (hcm : 0 < cm) :
    |List.foldl (fun acc x => roundDouble (acc * x)) 100 [a, g, l, va, vt, dr, c, m, cm]
      - List.foldl (fun acc x => roundDouble (acc * x)) 100
          [a, g, l, roundDouble (va * vt), dr, c, m, cm]|
      ≤ List.foldl (fun acc x => roundDouble (acc * x)) 100 [a, g, l, va, vt, dr, c, m, cm]
          / 2 ^ 48 := by
  obtain ⟨t1, t2⟩ := foldl_roundDouble_bounds [a, g, l, va, vt, dr, c, m, cm]
    (by
      intro x hx
      simp only [List.mem_cons, List.mem_singleton, List.not_mem_nil, or_false] at hx
      rcases hx with h | h | h | h | h | h | h | h | h <;> rw [h] <;> assumption)
    100 100 100 (by norm_num) (le_refl _) (le_refl _)
  obtain ⟨p1, p2⟩ := foldl_roundDouble_bounds [a, g, l]
    (by
      intro x hx
      simp only [List.mem_cons, List.mem_singleton, List.not_mem_nil, or_false] at hx
      rcases hx with h | h | h <;> rw [h] <;> assumption)
    100 100 100 (by norm_num) (le_refl _) (le_refl _)
  obtain ⟨v1, v2, v3⟩ := roundDouble_interval (va * vt) (va * vt) (va * vt) (by positivity)
    (le_refl _) (le_refl _)
  have hu : (0 : ℚ) < 1 - 1 / 2 ^ 53 := by norm_num
  have hL3 : 0 < 100 * [a, g, l].prod * (1 - 1 / 2 ^ 53) ^ [a, g, l].length := by
    simp only [List.prod_cons, List.prod_nil, List.length_cons, List.length_nil]
    positivity
  have hacc3 : 0 < List.foldl (fun acc x => roundDouble (acc * x)) 100 [a, g, l] :=
    lt_of_lt_of_le hL3 p1
  obtain ⟨q1, q2, q3⟩ := roundDouble_interval
    (List.foldl (fun acc x => roundDouble (acc * x)) 100 [a, g, l] * roundDouble (va * vt))
    (100 * [a, g, l].prod * (1 - 1 / 2 ^ 53) ^ [a, g, l].length
      * (va * vt * (1 - 1 / 2 ^ 53)))
    (100 * [a, g, l].prod * (1 + 1 / 2 ^ 53) ^ [a, g, l].length
      * (va * vt * (1 + 1 / 2 ^ 53)))
    (mul_pos hL3 v3)
    (mul_le_mul p1 v1 v3.le hacc3.le)
    (mul_le_mul p2 v2 (le_trans v3.le v1) (le_trans hacc3.le p2))
  obtain ⟨r1, r2⟩ := foldl_roundDouble_bounds [dr, c, m, cm]
    (by
      intro x hx
      simp only [List.mem_cons, List.mem_singleton, List.not_mem_nil, or_false] at hx
      rcases hx with h | h | h | h <;> rw [h] <;> assumption)
    _ _ _ q3 q1 q2
  have eR : List.foldl (fun acc x => roundDouble (acc * x)) 100
      [a, g, l, roundDouble (va * vt), dr, c, m, cm] =
      List.foldl (fun acc x => roundDouble (acc * x))
        (roundDouble (List.foldl (fun acc x => roundDouble (acc * x)) 100 [a, g, l]
          * roundDouble (va * vt))) [dr, c, m, cm] := rfl
  rw [eR]
  generalize List.foldl (fun acc x => roundDouble (acc * x)) 100
    [a, g, l, va, vt, dr, c, m, cm] = T at t1 t2 ⊢
  generalize List.foldl (fun acc x => roundDouble (acc * x))
        (roundDouble (List.foldl (fun acc x => roundDouble (acc * x)) 100 [a, g, l]
          * roundDouble (va * vt))) [dr, c, m, cm] = R at r1 r2 ⊢
  simp only [List.prod_cons, List.prod_nil, List.length_cons, List.length_nil] at t1 t2 r1 r2
  have hP : 0 < 100 * a * g * l * va * vt * dr * c * m * cm := by positivity
  have key : ((1 : ℚ) + 1 / 2 ^ 53) ^ 9 - (1 - 1 / 2 ^ 53) ^ 9
      ≤ (1 - 1 / 2 ^ 53) ^ 9 / 2 ^ 48 := by norm_num
  have k2 := mul_le_mul_of_nonneg_left key hP.le
  generalize hlo : ((1 : ℚ) - 1 / 2 ^ 53) ^ 9 = lo at k2
  generalize hhi : ((1 : ℚ) + 1 / 2 ^ 53) ^ 9 = hi at k2
  have T1 : 100 * a * g * l * va * vt * dr * c * m * cm * lo ≤ T := by
    rw [← hlo]; refine le_trans (le_of_eq ?_) t1; ring
  have T2 : T ≤ 100 * a * g * l * va * vt * dr * c * m * cm * hi := by
    rw [← hhi]; refine le_trans t2 (le_of_eq ?_); ring
  have R1 : 100 * a * g * l * va * vt * dr * c * m * cm * lo ≤ R := by
    rw [← hlo]; refine le_trans (le_of_eq ?_) r1; ring
  have R2 : R ≤ 100 * a * g * l * va * vt * dr * c * m * cm * hi := by
    rw [← hhi]; refine le_trans r2 (le_of_eq ?_); ring
  generalize 100 * a * g * l * va * vt * dr * c * m * cm = P at *
  rw [abs_le]
  constructor <;> linarith

namespace InsurancePremiumCalculator

/-- C12 (amended): in exact arithmetic both variants apply the same total cost
loading to the market-adjusted premium M: the multiplicative variant returns
operationalCosts = 0.15*M, profitMargin = 0.12*M, regulatoryReserve = 0.08*M and
totalPremium = M + operationalCosts + profitMargin + regulatoryReserve = 1.35*M,
which is the finalPremium that `PricingCalculator.calculatePremium` derives from
the same M.  In the doubles of the code, with D the market-adjusted premium as
a double, the multiplicative variant returns the rounded products D*0.15,
D*0.12, D*0.08 and the sum ((D + D*0.15) + D*0.12) + D*0.08 rounded after each
addition, and `PricingCalculator.calculatePremium` returns the rounded product
of D and the double nearest to 1.35; the two results need not be equal, and they
differ by at most |D| / 2^50. -/
theorem same_cost_loading (riskProfile : RiskProfile) (marketAnalysis : MarketAnalysisData)
    (riskScore marketAdjustment : JSNum) (coverageLevel : String) (M D : ℚ)
    (hM : (calculatePremium riskProfile marketAnalysis).marketAdjustedPremium = JSNum.num M)
    (hW : (PricingCalculator.calculatePremium riskScore marketAdjustment
      coverageLevel).marketAdjustedPremium = JSNum.num M)
    (hMd : (Double.InsurancePremiumCalculator.calculatePremium riskProfile
      marketAnalysis).marketAdjustedPremium = JSNum.num D)
    (hWd : (Double.PricingCalculator.calculatePremium riskScore marketAdjustment
      coverageLevel).marketAdjustedPremium = JSNum.num D) :
    ((calculatePremium riskProfile marketAnalysis).operationalCosts = JSNum.num (0.15 * M) ∧
      (calculatePremium riskProfile marketAnalysis).profitMargin = JSNum.num (0.12 * M) ∧
      (calculatePremium riskProfile marketAnalysis).regulatoryReserve = JSNum.num (0.08 * M) ∧
      (calculatePremium riskProfile marketAnalysis).totalPremium =
        JSNum.num (M + 0.15 * M + 0.12 * M + 0.08 * M) ∧
      (calculatePremium riskProfile marketAnalysis).totalPremium = JSNum.num (1.35 * M) ∧
      (PricingCalculator.calculatePremium riskScore marketAdjustment coverageLevel).finalPremium
        = JSNum.num (1.35 * M) ∧
      (calculatePremium riskProfile marketAnalysis).totalPremium =
        (PricingCalculator.calculatePremium riskScore marketAdjustment
          coverageLevel).finalPremium) ∧
    ((Double.InsurancePremiumCalculator.calculatePremium riskProfile
        marketAnalysis).operationalCosts = JSNum.num (roundDouble (D * roundDouble 0.15)) ∧
      (Double.InsurancePremiumCalculator.calculatePremium riskProfile
        marketAnalysis).profitMargin = JSNum.num (roundDouble (D * roundDouble 0.12)) ∧
      (Double.InsurancePremiumCalculator.calculatePremium riskProfile
        marketAnalysis).regulatoryReserve = JSNum.num (roundDouble (D * roundDouble 0.08)) ∧
      (Double.InsurancePremiumCalculator.calculatePremium riskProfile
        marketAnalysis).totalPremium =
        JSNum.num (roundDouble (roundDouble (roundDouble
          (D + roundDouble (D * roundDouble 0.15))
          + roundDouble (D * roundDouble 0.12))
          + roundDouble (D * roundDouble 0.08))) ∧
      (Double.PricingCalculator.calculatePremium riskScore marketAdjustment
        coverageLevel).finalPremium = JSNum.num (roundDouble (D * roundDouble 1.35)) ∧
      |roundDouble (roundDouble (roundDouble (D + roundDouble (D * roundDouble 0.15))
          + roundDouble (D * roundDouble 0.12)) + roundDouble (D * roundDouble 0.08))
        - roundDouble (D * roundDouble 1.35)| ≤ |D| / 2 ^ 50) := by
  refine ⟨exact_cost_loading riskProfile marketAnalysis riskScore marketAdjustment
    coverageLevel M hM hW, ?_, ?_, ?_, ?_, ?_, loadings_close D⟩
  · have e : (Double.InsurancePremiumCalculator.calculatePremium riskProfile
        marketAnalysis).operationalCosts =
        Double.mul (Double.InsurancePremiumCalculator.calculatePremium riskProfile
          marketAnalysis).marketAdjustedPremium (Double.lit 0.15) := rfl
    rw [e, hMd]; rfl
  · have e : (Double.InsurancePremiumCalculator.calculatePremium riskProfile
        marketAnalysis).profitMargin =
        Double.mul (Double.InsurancePremiumCalculator.calculatePremium riskProfile
          marketAnalysis).marketAdjustedPremium (Double.lit 0.12) := rfl
    rw [e, hMd]; rfl
  · have e : (Double.InsurancePremiumCalculator.calculatePremium riskProfile
        marketAnalysis).regulatoryReserve =
        Double.mul (Double.InsurancePremiumCalculator.calculatePremium riskProfile
          marketAnalysis).marketAdjustedPremium (Double.lit 0.08) := rfl
    rw [e, hMd]; rfl
  · have e : (Double.InsurancePremiumCalculator.calculatePremium riskProfile
        marketAnalysis).totalPremium =
        Double.add (Double.add (Double.add
          (Double.InsurancePremiumCalculator.calculatePremium riskProfile
            marketAnalysis).marketAdjustedPremium
          (Double.mul (Double.InsurancePremiumCalculator.calculatePremium riskProfile
            marketAnalysis).marketAdjustedPremium (Double.lit 0.15)))
          (Double.mul (Double.InsurancePremiumCalculator.calculatePremium riskProfile
            marketAnalysis).marketAdjustedPremium (Double.lit 0.12)))
          (Double.mul (Double.InsurancePremiumCalculator.calculatePremium riskProfile
            marketAnalysis).marketAdjustedPremium (Double.lit 0.08)) := rfl
    rw [e, hMd]; rfl
  · have e : (Double.PricingCalculator.calculatePremium riskScore marketAdjustment
        coverageLevel).finalPremium =
        Double.mul (Double.PricingCalculator.calculatePremium riskScore marketAdjustment
          coverageLevel).marketAdjustedPremium
          (Double.add (Double.add (Double.add (Double.lit 1)
            (Double.lit Insurance.PricingCalculator.profitMargin))
            (Double.lit Insurance.PricingCalculator.operationalCosts))
            (Double.lit Insurance.PricingCalculator.reserveRequirement)) := rfl
    rw [e, hWd, Double.totalCostMultiplier_eq]; rfl

/-- C12, witness: a total risk of 150 under a market factor of 1.5, against a
risk score of 0 under a market adjustment of 1.5 on "standard": M = D = 1800 and
both totals are 2430, in exact arithmetic and in doubles. -/
theorem same_cost_loading_witness :
    (calculatePremium ⟨100, 1, 1, JSVal.num 1, JSNum.num 1.5, JSVal.num 1, 1, 1, JSVal.num 1,
        JSNum.num 150⟩ ⟨0.1, 1, 1, 1, 1.5, 1.5⟩).totalPremium = JSNum.num (1.35 * 1800) ∧
    (PricingCalculator.calculatePremium (JSNum.num 0) (JSNum.num 1.5)
        "standard").finalPremium = JSNum.num (1.35 * 1800) ∧
    (Double.InsurancePremiumCalculator.calculatePremium ⟨100, 1, 1, JSVal.num 1, JSNum.num 1.5,
        JSVal.num 1, 1, 1, JSVal.num 1, JSNum.num 150⟩ ⟨0.1, 1, 1, 1, 1.5, 1.5⟩).totalPremium
      = JSNum.num (roundDouble (roundDouble (roundDouble
          (1800 + roundDouble (1800 * roundDouble 0.15))
          + roundDouble (1800 * roundDouble 0.12))
          + roundDouble (1800 * roundDouble 0.08))) ∧
    (Double.PricingCalculator.calculatePremium (JSNum.num 0) (JSNum.num 1.5)
        "standard").finalPremium = JSNum.num (roundDouble (1800 * roundDouble 1.35)) := by
  have h := same_cost_loading
    ⟨100, 1, 1, JSVal.num 1, JSNum.num 1.5, JSVal.num 1, 1, 1, JSVal.num 1, JSNum.num 150⟩
    ⟨0.1, 1, 1, 1, 1.5, 1.5⟩ (JSNum.num 0) (JSNum.num 1.5) "standard" 1800 1800
    (by decide!) (by decide!) (by decide!) (by decide!)
  exact ⟨h.1.2.2.2.2.1, h.1.2.2.2.2.2.1, h.2.2.2.2.1, h.2.2.2.2.2.1⟩

/-- C12, as stated, fails in the doubles of the code: at the market-adjusted
premium 1176 (a total risk of 147 under a market factor of 1, and a risk score
of 0 under a market adjustment of 0.98 on "standard"), the multiplicative
variant returns the total 3491169320514355 / 2^41 (1587.6 when printed) and
`PricingCalculator.calculatePremium` returns 6982338641028711 / 2^42
(1587.6000000000001 when printed), one unit in the last place above. -/
theorem loading_differs_in_doubles :
    (Double.InsurancePremiumCalculator.calculatePremium ⟨100, 1, 1, JSVal.num 1, JSNum.num 1,
        JSVal.num 1, 1, 1, JSVal.num 1, JSNum.num 147⟩ ⟨0.1, 1, 1, 1, 1, 1⟩).marketAdjustedPremium
      = JSNum.num 1176 ∧
    (Double.PricingCalculator.calculatePremium (JSNum.num 0) (Double.lit 0.98)
        "standard").marketAdjustedPremium = JSNum.num 1176 ∧
    (Double.InsurancePremiumCalculator.calculatePremium ⟨100, 1, 1, JSVal.num 1, JSNum.num 1,
        JSVal.num 1, 1, 1, JSVal.num 1, JSNum.num 147⟩ ⟨0.1, 1, 1, 1, 1, 1⟩).totalPremium
      = JSNum.num (3491169320514355 / 2 ^ 41) ∧
    (Double.PricingCalculator.calculatePremium (JSNum.num 0) (Double.lit 0.98)
        "standard").finalPremium = JSNum.num (6982338641028711 / 2 ^ 42) ∧
    (Double.InsurancePremiumCalculator.calculatePremium ⟨100, 1, 1, JSVal.num 1, JSNum.num 1,
        JSVal.num 1, 1, 1, JSVal.num 1, JSNum.num 147⟩ ⟨0.1, 1, 1, 1, 1, 1⟩).totalPremium ≠
      (Double.PricingCalculator.calculatePremium (JSNum.num 0) (Double.lit 0.98)
        "standard").finalPremium := by
  decide!

end InsurancePremiumCalculator

namespace Double

/-- In doubles too, an own key looks up as a number: the double of the table
entry. -/
theorem getProperty_double_of_mem (table : List (String × ℚ)) (key : String)
    (h : key ∈ table.map Prod.fst) :
    ∃ q : ℚ, table.lookup key = some q ∧
      getProperty table key = JSVal.num (roundDouble q) := by
  obtain ⟨q, hq, hg⟩ := Insurance.getProperty_of_mem table key h
  exact ⟨q, hq, by simp only [getProperty, hg]⟩

end Double

namespace InsurancePremiumCalculator

/-- C18 (amended): for every applicant record whose location, vehicleType,
drivingRecord and coverageType are in the lookup tables, `calculateRiskProfile`
returns totalRisk = 100 * ageRisk * genderRisk * locationRisk * vehicleAgeRisk *
vehicleTypeRisk * drivingRisk * creditRisk * mileageRisk * coverageMultiplier,
unclamped, and the returned vehicleRisk is the vehicle-age multiplier times the
vehicle-type multiplier.  In exact arithmetic totalRisk is also the product of
the returned fields baseRisk, ageRisk, genderRisk, locationRisk, vehicleRisk,
drivingRisk, creditRisk, mileageRisk and coverageMultiplier.  In the doubles of
the code, totalRisk is the product of the ten factors taken left to right and
rounded after each multiplication, and vehicleRisk is the rounded product of
its two multipliers; the product of the returned fields, taken left to right
through vehicleRisk, need not equal totalRisk, and differs from it by at most
totalRisk / 2^48. -/
theorem totalRisk_product (data : ApplicantRecord)
    (hl : data.location ∈ ["urban", "suburban", "rural"])
    (hv : data.vehicleType ∈ ["sedan", "suv", "truck", "sports", "luxury"])
    (hd : data.drivingRecord ∈ ["clean", "minor", "major", "severe"])
    (hc : data.coverageType ∈ ["liability", "collision", "comprehensive", "full"]) :
    (∃ l va vt dr cm vr : ℚ,
      locationTable.lookup data.location = some l ∧
      va = (if 2024 - data.vehicleYear < 3 then 1.2
        else if 2024 - data.vehicleYear < 8 then 1.0 else 0.9) ∧
      vehicleTypeTable.lookup data.vehicleType = some vt ∧
      drivingTable.lookup data.drivingRecord = some dr ∧
      coverageTable.lookup data.coverageType = some cm ∧
      (calculateRiskProfile data).baseRisk = 100 ∧
      (calculateRiskProfile data).locationRisk = JSVal.num l ∧
      (calculateRiskProfile data).vehicleRisk = JSNum.num vr ∧ vr = va * vt ∧
      (calculateRiskProfile data).drivingRisk = JSVal.num dr ∧
      (calculateRiskProfile data).coverageMultiplier = JSVal.num cm ∧
      (calculateRiskProfile data).totalRisk =
        JSNum.num (100 * (calculateRiskProfile data).ageRisk
          * (calculateRiskProfile data).genderRisk * l * va * vt * dr
          * (calculateRiskProfile data).creditRisk * (calculateRiskProfile data).mileageRisk
          * cm) ∧
      (calculateRiskProfile data).totalRisk =
        JSNum.num ((calculateRiskProfile data).baseRisk * (calculateRiskProfile data).ageRisk
          * (calculateRiskProfile data).genderRisk * l * vr * dr
          * (calculateRiskProfile data).creditRisk * (calculateRiskProfile data).mileageRisk
          * cm)) ∧
    (∃ l va vt dr cm : ℚ,
      locationTable.lookup data.location = some l ∧
      va = (if roundDouble (2024 - data.vehicleYear) < 3 then 1.2
        else if roundDouble (2024 - data.vehicleYear) < 8 then 1.0 else 0.9) ∧
      vehicleTypeTable.lookup data.vehicleType = some vt ∧
      drivingTable.lookup data.drivingRecord = some dr ∧
      coverageTable.lookup data.coverageType = some cm ∧
      (Double.InsurancePremiumCalculator.calculateRiskProfile data).baseRisk = 100 ∧
      (Double.InsurancePremiumCalculator.calculateRiskProfile data).locationRisk
        = JSVal.num (roundDouble l) ∧
      (Double.InsurancePremiumCalculator.calculateRiskProfile data).drivingRisk
        = JSVal.num (roundDouble dr) ∧
      (Double.InsurancePremiumCalculator.calculateRiskProfile data).coverageMultiplier
        = JSVal.num (roundDouble cm) ∧
      (Double.InsurancePremiumCalculator.calculateRiskProfile data).vehicleRisk
        = JSNum.num (roundDouble (roundDouble va * roundDouble vt)) ∧
      (Double.InsurancePremiumCalculator.calculateRiskProfile data).totalRisk =
        JSNum.num (List.foldl (fun acc x => roundDouble (acc * x)) 100
          [(Double.InsurancePremiumCalculator.calculateRiskProfile data).ageRisk,
           (Double.InsurancePremiumCalculator.calculateRiskProfile data).genderRisk,
           roundDouble l, roundDouble va, roundDouble vt, roundDouble dr,
           (Double.InsurancePremiumCalculator.calculateRiskProfile data).creditRisk,
           (Double.InsurancePremiumCalculator.calculateRiskProfile data).mileageRisk,
           roundDouble cm]) ∧
      |List.foldl (fun acc x => roundDouble (acc * x)) 100
          [(Double.InsurancePremiumCalculator.calculateRiskProfile data).ageRisk,
           (Double.InsurancePremiumCalculator.calculateRiskProfile data).genderRisk,
           roundDouble l, roundDouble va, roundDouble vt, roundDouble dr,
           (Double.InsurancePremiumCalculator.calculateRiskProfile data).creditRisk,
           (Double.InsurancePremiumCalculator.calculateRiskProfile data).mileageRisk,
           roundDouble cm]
        - List.foldl (fun acc x => roundDouble (acc * x)) 100
          [(Double.InsurancePremiumCalculator.calculateRiskProfile data).ageRisk,
           (Double.InsurancePremiumCalculator.calculateRiskProfile data).genderRisk,
           roundDouble l, roundDouble (roundDouble va * roundDouble vt), roundDouble dr,
           (Double.InsurancePremiumCalculator.calculateRiskProfile data).creditRisk,
           (Double.InsurancePremiumCalculator.calculateRiskProfile data).mileageRisk,
           roundDouble cm]|
        ≤ List.foldl (fun acc x => roundDouble (acc * x)) 100
          [(Double.InsurancePremiumCalculator.calculateRiskProfile data).ageRisk,
           (Double.InsurancePremiumCalculator.calculateRiskProfile data).genderRisk,
           roundDouble l, roundDouble va, roundDouble vt, roundDouble dr,
           (Double.InsurancePremiumCalculator.calculateRiskProfile data).creditRisk,
           (Double.InsurancePremiumCalculator.calculateRiskProfile data).mileageRisk,
           roundDouble cm] / 2 ^ 48) := by
  refine ⟨exact_totalRisk_product data hl hv hd hc, ?_⟩
  obtain ⟨l, hl1, hl2⟩ := Double.getProperty_double_of_mem locationTable data.location hl
  obtain ⟨vt, hv1, hv2⟩ := Double.getProperty_double_of_mem vehicleTypeTable data.vehicleType hv
  obtain ⟨dr, hd1, hd2⟩ := Double.getProperty_double_of_mem drivingTable data.drivingRecord hd
  obtain ⟨cm, hc1, hc2⟩ := Double.getProperty_double_of_mem coverageTable data.coverageType hc
  have h100 : roundDouble 100 = 100 := by decide!
  have hva : (if roundDouble (2024 - data.vehicleYear) < 3 then roundDouble 1.2
      else if roundDouble (2024 - data.vehicleYear) < 8 then roundDouble 1.0
      else roundDouble 0.9) =
      roundDouble (if roundDouble (2024 - data.vehicleYear) < 3 then 1.2
        else if roundDouble (2024 - data.vehicleYear) < 8 then 1.0 else 0.9) := by
    split_ifs <;> rfl
  refine ⟨l, _, vt, dr, cm, hl1, rfl, hv1, hd1, hc1, ?_, hl2, hd2, hc2, ?_, ?_, ?_⟩
  · show roundDouble 100 = 100
    exact h100
  · simp only [Double.InsurancePremiumCalculator.calculateRiskProfile, hv2, JSVal.toNumber,
      Double.mul, hva]
  · simp only [Double.InsurancePremiumCalculator.calculateRiskProfile, hl2, hv2, hd2, hc2,
      JSVal.toNumber, Double.mul, hva, h100, List.foldl]
  · refine regrouped_product_close _ _ _ _ _ _ _ _ _ ?_ ?_
      (roundDouble_pos _ (lookup_pos _ riskTables_pos.1 _ _ hl1))
      (roundDouble_pos _ (by split_ifs <;> norm_num))
      (roundDouble_pos _ (lookup_pos _ riskTables_pos.2.1 _ _ hv1))
      (roundDouble_pos _ (lookup_pos _ riskTables_pos.2.2.1 _ _ hd1)) ?_ ?_
      (roundDouble_pos _ (lookup_pos _ riskTables_pos.2.2.2 _ _ hc1))
    · show 0 < (if data.age < 25 then roundDouble 1.4 else if data.age < 35 then roundDouble 1.0
        else if data.age < 50 then roundDouble 0.9 else if data.age < 65 then roundDouble 0.95
        else roundDouble 1.2)
      split_ifs <;> exact roundDouble_pos _ (by norm_num)
    · show 0 < (if data.gender = "male" then roundDouble 1.1 else roundDouble 0.95)
      split_ifs <;> exact roundDouble_pos _ (by norm_num)
    · show 0 < (if data.creditScore > 750 then roundDouble 0.85
        else if data.creditScore > 650 then roundDouble 1.0
        else if data.creditScore > 550 then roundDouble 1.3 else roundDouble 1.6)
      split_ifs <;> exact roundDouble_pos _ (by norm_num)
    · show 0 < (if data.annualMileage < 8000 then roundDouble 0.9
        else if data.annualMileage < 15000 then roundDouble 1.0
        else if data.annualMileage < 25000 then roundDouble 1.3 else roundDouble 1.6)
      split_ifs <;> exact roundDouble_pos _ (by norm_num)

/-- C18, witness: the default applicant, whose totalRisk is 114.4 in exact
arithmetic and the double 2012546083481191 / 2^44 (114.40000000000003 when
printed) in the code. -/
theorem totalRisk_product_witness :
    (calculateRiskProfile defaultApplicant).totalRisk = JSNum.num 114.4 ∧
    (Double.InsurancePremiumCalculator.calculateRiskProfile defaultApplicant).totalRisk
      = JSNum.num (2012546083481191 / 2 ^ 44) := by
  obtain ⟨⟨l, va, vt, dr, cm, vr, h1, h2, h3, h4, h5, -, -, -, -, -, -, h6, -⟩,
      ⟨l2, va2, vt2, dr2, cm2, g1, g2, g3, g4, g5, -, -, -, -, -, g6, -⟩⟩ :=
    totalRisk_product defaultApplicant (by decide) (by decide) (by decide) (by decide)
  have e1 : locationTable.lookup defaultApplicant.location = some 1.3 := rfl
  have e3 : vehicleTypeTable.lookup defaultApplicant.vehicleType = some 1.0 := rfl
  have e4 : drivingTable.lookup defaultApplicant.drivingRecord = some 0.8 := rfl
  have e5 : coverageTable.lookup defaultApplicant.coverageType = some 1.0 := rfl
  constructor
  · have l1 : l = 1.3 := Option.some.inj (h1.symm.trans e1)
    have l3 : vt = 1.0 := Option.some.inj (h3.symm.trans e3)
    have l4 : dr = 0.8 := Option.some.inj (h4.symm.trans e4)
    have l5 : cm = 1.0 := Option.some.inj (h5.symm.trans e5)
    rw [h6, l1, l3, l4, l5, h2]
    simp only [calculateRiskProfile, defaultApplicant]
    norm_num
  · have l1 : l2 = 1.3 := Option.some.inj (g1.symm.trans e1)
    have l3 : vt2 = 1.0 := Option.some.inj (g3.symm.trans e3)
    have l4 : dr2 = 0.8 := Option.some.inj (g4.symm.trans e4)
    have l5 : cm2 = 1.0 := Option.some.inj (g5.symm.trans e5)
    rw [g6, l1, l3, l4, l5, g2]
    decide!

/-- C18, as stated, fails in the doubles of the code: for the default applicant
with a truck of 2023, totalRisk is 5796132720425829 / 2^45 (164.73600000000002
when printed), while the product of the returned fields, taken left to right
through the returned vehicleRisk 1.44, is 2898066360212915 / 2^44
(164.73600000000005 when printed). -/
theorem totalRisk_regrouped_differs_in_doubles :
    (Double.InsurancePremiumCalculator.calculateRiskProfile
      { defaultApplicant with vehicleYear := 2023, vehicleType := "truck" }).totalRisk
      = JSNum.num (5796132720425829 / 2 ^ 45) ∧
    (Double.InsurancePremiumCalculator.calculateRiskProfile
      { defaultApplicant with vehicleYear := 2023, vehicleType := "truck" }).vehicleRisk
      = JSNum.num (roundDouble 1.44) ∧
    Double.mul (Double.mul (Double.mul (Double.mul (Double.mul (Double.mul (Double.mul
      (Double.mul
        (JSNum.num (Double.InsurancePremiumCalculator.calculateRiskProfile
          { defaultApplicant with vehicleYear := 2023, vehicleType := "truck" }).baseRisk)
        (JSNum.num (Double.InsurancePremiumCalculator.calculateRiskProfile
          { defaultApplicant with vehicleYear := 2023, vehicleType := "truck" }).ageRisk))
        (JSNum.num (Double.InsurancePremiumCalculator.calculateRiskProfile
          { defaultApplicant with vehicleYear := 2023, vehicleType := "truck" }).genderRisk))
        (Double.InsurancePremiumCalculator.calculateRiskProfile
          { defaultApplicant with vehicleYear := 2023, vehicleType := "truck" }).locationRisk.toNumber)
        (Double.InsurancePremiumCalculator.calculateRiskProfile
          { defaultApplicant with vehicleYear := 2023, vehicleType := "truck" }).vehicleRisk)
        (Double.InsurancePremiumCalculator.calculateRiskProfile
          { defaultApplicant with vehicleYear := 2023, vehicleType := "truck" }).drivingRisk.toNumber)
        (JSNum.num (Double.InsurancePremiumCalculator.calculateRiskProfile
          { defaultApplicant with vehicleYear := 2023, vehicleType := "truck" }).creditRisk))
        (JSNum.num (Double.InsurancePremiumCalculator.calculateRiskProfile
          { defaultApplicant with vehicleYear := 2023, vehicleType := "truck" }).mileageRisk))
        (Double.InsurancePremiumCalculator.calculateRiskProfile
          { defaultApplicant with vehicleYear := 2023, vehicleType := "truck" }).coverageMultiplier.toNumber
      = JSNum.num (2898066360212915 / 2 ^ 44) ∧
    (5796132720425829 / 2 ^ 45 : ℚ) ≠ 2898066360212915 / 2 ^ 44 := by
  decide!

end InsurancePremiumCalculator

end Insurance
